import Mathlib

/-!
# Safety Training Manager: the PDF export pipeline

A shallow embedding of `src/js/pdf-generator.js` (class `PDFGenerator`), of the
template registry and `adjustColor` of `src/js/certificate-templates.js`, of
`trackVisit` and `trackDocumentGeneration` in `src/js/visitor-counter.js` and of
`validateField` in `src/js/main.js`.

* JavaScript numbers are rationals (`ℚ`); `NaN` and the infinities are not
  represented, so a rasterised canvas carries a proof that its width is positive
  (`canvas.height * imgWidth / canvas.width` is then an ordinary quotient). The
  arithmetic is exact, except in `multiPageLoopFl`, where every result is rounded
  by a parameter `fl`, and `roundDouble` is the rounding of the language.
* Stateful code is a function on an explicit `World` (the generator object, the
  document, local storage and a log of the calls made to the host environment).
* `async` methods run to completion in one step; what the awaited collaborators
  (html2canvas, jsPDF) answer is read from an `Env`.
* The only loop, in `generateMultiPagePDF`, runs on fuel: `none` means that the
  loop was still running when the fuel ran out.
* `JSON.parse`, `JSON.stringify` and the `Date` arithmetic of the host are
  parameters; the text of a date is the ISO format of a four-digit year, and
  strings are compared by UTF-16 code units.
-/

namespace STM

deriving instance DecidableEq for Except

/-! ## JavaScript values -/

/-- JavaScript values as far as the export pipeline looks at them. `obj s` is any
object (always truthy) whose conversion to a string is `s`. -/
inductive JSVal where
  | undefined
  | null
  | bool (b : Bool)
  | num (q : ℚ)
  | str (s : String)
  | obj (s : String)
  deriving DecidableEq

namespace JSVal

/-- Truthiness (`ToBoolean`) of a value. -/
def truthy : JSVal → Bool
  | undefined => false
  | null => false
  | bool b => b
  | num q => decide (q ≠ 0)
  | str s => decide (s ≠ "")
  | obj _ => true

/-- The operator `a || b`. -/
def or (a b : JSVal) : JSVal :=
  if a.truthy then a else b

end JSVal

/-- Reading an own property that may be absent: an absent property reads as
`undefined`. -/
def prop : Option JSVal → JSVal
  | some v => v
  | none => JSVal.undefined

/-- Result of `table[key]` on an object literal: an own entry, a member inherited
from `Object.prototype` (truthy, but with none of the entry's fields), or
`undefined`. -/
inductive Lookup (α : Type) where
  | own (a : α)
  | inherited
  | missing
  deriving DecidableEq

/-- Property names every object literal inherits from `Object.prototype`. -/
def objectPrototypeKeys : List String :=
  ["constructor", "hasOwnProperty", "isPrototypeOf", "propertyIsEnumerable",
   "toLocaleString", "toString", "valueOf", "__proto__", "__defineGetter__",
   "__defineSetter__", "__lookupGetter__", "__lookupSetter__"]

/-- Lookup of a string key in an object literal with the given own entries. -/
def lookupKey {α : Type} (table : String → Option α) (key : String) : Lookup α :=
  match table key with
  | some a => Lookup.own a
  | none => if key ∈ objectPrototypeKeys then Lookup.inherited else Lookup.missing

/-- The expression `table[v]`: the key is `v` converted to a string. A number
converts to a numeral (or `NaN`, `Infinity`), which is neither an entry of the
tables below nor a member of `Object.prototype`. -/
def lookup {α : Type} (table : String → Option α) : JSVal → Lookup α
  | JSVal.undefined => lookupKey table "undefined"
  | JSVal.null => lookupKey table "null"
  | JSVal.bool b => lookupKey table (if b then "true" else "false")
  | JSVal.num _ => Lookup.missing
  | JSVal.str s => lookupKey table s
  | JSVal.obj s => lookupKey table s

/-! ## The constructor's tables -/

/-- An entry of `this.qualitySettings`. -/
structure QualitySetting where
  scale : ℚ
  quality : ℚ
  deriving DecidableEq

/-- An entry of `this.pageSizes`. -/
structure PageSize where
  width : ℚ
  height : ℚ
  unit : String
  deriving DecidableEq

/-- The table `this.qualitySettings`. -/
def qualitySettings : String → Option QualitySetting
  | "low" => some { scale := 1, quality := 8 / 10 }
  | "medium" => some { scale := 3 / 2, quality := 9 / 10 }
  | "high" => some { scale := 2, quality := 1 }
  | _ => none

/-- The table `this.pageSizes`. -/
def pageSizes : String → Option PageSize
  | "a4" => some { width := 210, height := 297, unit := "mm" }
  | "letter" => some { width := 216, height := 279, unit := "mm" }
  | "legal" => some { width := 216, height := 356, unit := "mm" }
  | "a3" => some { width := 297, height := 420, unit := "mm" }
  | _ => none

/-! ## Settings of one export -/

/-- The `settings` object handed to `generatePDF`. The margin is a number. -/
structure Settings where
  quality : JSVal
  orientation : JSVal
  pageSize : JSVal
  filename : JSVal
  margin : ℚ
  showPageNumbers : JSVal
  deriving DecidableEq

/-- The `options` object of a call: `none` is a property the object does not have. -/
structure Options where
  quality : Option JSVal
  orientation : Option JSVal
  pageSize : Option JSVal
  filename : Option JSVal
  margin : Option ℚ
  showPageNumbers : Option JSVal
  deriving DecidableEq

/-- The empty object, the default value of the `options` parameter. -/
def Options.empty : Options :=
  { quality := none, orientation := none, pageSize := none, filename := none,
    margin := none, showPageNumbers := none }

/-- The `options` argument as passed: left out, `null`, or an object. -/
inductive OptionsArg where
  | undefined
  | null
  | object (o : Options)
  deriving DecidableEq

/-! ## The rasterised image and the output document -/

/-- The canvas returned by html2canvas, in pixels. -/
structure Canvas where
  width : ℕ
  height : ℕ
  width_pos : 0 < width

/-- Calls made on the jsPDF document. -/
inductive PdfOp where
  | addPage
  | addImage (x y w h : ℚ)
  | setFontSize (size : ℕ)
  | setTextColor (r g b : ℕ)
  | text (s : String) (x y : ℚ)
  deriving DecidableEq

/-- A jsPDF document: the constructor's arguments and the calls made on it so
far. A new document has one page. -/
structure Pdf where
  orientation : String
  unit : Option String
  format : JSVal
  ops : List PdfOp
  deriving DecidableEq

/-- The document after further calls. -/
def Pdf.append (pdf : Pdf) (ops : List PdfOp) : Pdf :=
  { pdf with ops := pdf.ops ++ ops }

/-- Number of pages of a document: the initial one and one per `addPage`. -/
def Pdf.pageCount (pdf : Pdf) : ℕ :=
  1 + pdf.ops.count PdfOp.addPage

/-- One iteration of the pagination loop: the `drawImage` call that crops the
band out of the source canvas, with the loop variables it was computed from. -/
structure Band where
  pageNumber : ℕ
  currentY : ℚ
  cropHeight : ℚ
  sourceY : ℚ
  sourceHeight : ℚ
  deriving DecidableEq

/-- Values a `throw` or a promise rejection carries in this pipeline: the errors
the code itself raises, a value thrown by a collaborator whose `message` can be
read (`none` is a `message` that is `undefined`), and `nullish`, a thrown or
rejected `null` or `undefined`, on which reading `error.message` throws a
`TypeError`. -/
inductive Thrown where
  | typeError
  | syntaxError
  | invalidPageSize (value : JSVal)
  | external (message : Option String)
  | nullish
  deriving DecidableEq

/-- The method `addPageNumber`: looks the page size up again and stamps a
centred footer. From `generatePDF` it is reached with an own entry only. -/
def addPageNumber (pdf : Pdf) (pageNumber : ℕ) (settings : Settings) : Except Thrown Pdf :=
  match lookup pageSizes settings.pageSize with
  | Lookup.own pageSize =>
      Except.ok { pdf with ops := pdf.ops ++
        [PdfOp.setFontSize 10, PdfOp.setTextColor 100 100 100,
         PdfOp.text ("Page " ++ toString pageNumber) (pageSize.width / 2) (pageSize.height - 10)] }
  | Lookup.inherited => Except.error (Thrown.external none)
  | Lookup.missing => Except.error Thrown.typeError

/-- The `while` loop of `generateMultiPagePDF`, from the state `currentY`,
`pageNumber`, `pdf`, in exact arithmetic (`multiPageLoopFl` below is the same loop
with every result rounded); `bands` collects the bands cropped so far. The
quotients by `imgWidth` are exact for `imgWidth ≠ 0`; with `imgWidth = 0` the
content height computed by `generatePDF` is 0 and the loop is not reached. -/
def multiPageLoop (canvas : Canvas) (imgWidth imgHeight maxHeight : ℚ) (settings : Settings) :
    ℕ → ℚ → ℕ → Pdf → List Band → Option (Except Thrown (Pdf × List Band))
  | 0, currentY, _, pdf, bands =>
      if currentY < imgHeight then none else some (Except.ok (pdf, bands))
  | fuel + 1, currentY, pageNumber, pdf, bands =>
      if currentY < imgHeight then
        let cropHeight := min maxHeight (imgHeight - currentY)
        let sourceY := (currentY - settings.margin) * canvas.width / imgWidth
        let sourceHeight := (cropHeight * canvas.width) / imgWidth
        let band : Band :=
          { pageNumber := pageNumber, currentY := currentY, cropHeight := cropHeight,
            sourceY := sourceY, sourceHeight := sourceHeight }
        let pdf1 : Pdf := if pageNumber > 1 then { pdf with ops := pdf.ops ++ [PdfOp.addPage] } else pdf
        let pdf2 : Pdf := { pdf1 with ops := pdf1.ops ++
          [PdfOp.addImage settings.margin settings.margin imgWidth cropHeight] }
        if settings.showPageNumbers ≠ JSVal.bool false then
          match addPageNumber pdf2 pageNumber settings with
          | Except.error t => some (Except.error t)
          | Except.ok pdf3 =>
              multiPageLoop canvas imgWidth imgHeight maxHeight settings fuel
                (currentY + cropHeight) (pageNumber + 1) pdf3 (bands ++ [band])
        else
          multiPageLoop canvas imgWidth imgHeight maxHeight settings fuel
            (currentY + cropHeight) (pageNumber + 1) pdf2 (bands ++ [band])
      else some (Except.ok (pdf, bands))

/-- The method `generateMultiPagePDF`: the loop started at
`currentY = settings.margin`, `pageNumber = 1`. -/
def generateMultiPagePDF (fuel : ℕ) (pdf : Pdf) (canvas : Canvas)
    (imgWidth imgHeight maxHeight : ℚ) (settings : Settings) :
    Option (Except Thrown (Pdf × List Band)) :=
  multiPageLoop canvas imgWidth imgHeight maxHeight settings fuel settings.margin 1 pdf []

/-- The power `2 ^ e` for an integer exponent. -/
def pow2 (e : ℤ) : ℚ :=
  if 0 ≤ e then ((2 ^ e.toNat : ℕ) : ℚ) else 1 / ((2 ^ (-e).toNat : ℕ) : ℚ)

/-- The number of halvings that bring `n` below 2, within `fuel` steps: the
binary logarithm of `n`, rounded down, when `fuel` is `n`. -/
def halvings : ℕ → ℕ → ℕ
  | 0, _ => 0
  | fuel + 1, n => if n < 2 then 0 else halvings fuel (n / 2) + 1

/-- The exponent `e` with `2 ^ e ≤ a < 2 ^ (e + 1)`, for a positive `a`. -/
def binaryExponent (a : ℚ) : ℤ :=
  let e0 : ℤ := (halvings a.num.natAbs a.num.natAbs : ℤ) - (halvings a.den a.den : ℤ)
  if pow2 e0 ≤ a then e0 else e0 - 1

/-- The integer nearest to `x`, the even one of two that are equally near. -/
def roundHalfEven (x : ℚ) : ℤ :=
  let f := x.floor
  let r := x - f
  if r < 1 / 2 then f else if 1 / 2 < r then f + 1 else if f % 2 = 0 then f else f + 1

/-- The number of the language (IEEE 754 binary64, round to nearest, ties to
even) nearest to a rational: 53 significant bits, and multiples of `2 ^ -1074`
for the smallest magnitudes. Overflow to an infinity is not modelled. -/
def roundDouble (q : ℚ) : ℚ :=
  if q = 0 then 0
  else
    let t := max (binaryExponent |q| - 52) (-1074)
    (roundHalfEven (q / pow2 t) : ℚ) * pow2 t

/-- The `while` loop of `generateMultiPagePDF` with the result of every
subtraction, addition, multiplication and division rounded by `fl`: with
`roundDouble` this is the arithmetic the source runs in, with the identity it is
`multiPageLoop`. The arguments are numbers of the language (fixed by `fl`). -/
def multiPageLoopFl (fl : ℚ → ℚ) (canvas : Canvas) (imgWidth imgHeight maxHeight : ℚ)
    (settings : Settings) :
    ℕ → ℚ → ℕ → Pdf → List Band → Option (Except Thrown (Pdf × List Band))
  | 0, currentY, _, pdf, bands =>
      if currentY < imgHeight then none else some (Except.ok (pdf, bands))
  | fuel + 1, currentY, pageNumber, pdf, bands =>
      if currentY < imgHeight then
        let cropHeight := min maxHeight (fl (imgHeight - currentY))
        let sourceY := fl (fl (fl (currentY - settings.margin) * canvas.width) / imgWidth)
        let sourceHeight := fl (fl (cropHeight * canvas.width) / imgWidth)
        let band : Band :=
          { pageNumber := pageNumber, currentY := currentY, cropHeight := cropHeight,
            sourceY := sourceY, sourceHeight := sourceHeight }
        let pdf1 : Pdf := if pageNumber > 1 then { pdf with ops := pdf.ops ++ [PdfOp.addPage] } else pdf
        let pdf2 : Pdf := { pdf1 with ops := pdf1.ops ++
          [PdfOp.addImage settings.margin settings.margin imgWidth cropHeight] }
        if settings.showPageNumbers ≠ JSVal.bool false then
          match addPageNumber pdf2 pageNumber settings with
          | Except.error t => some (Except.error t)
          | Except.ok pdf3 =>
              multiPageLoopFl fl canvas imgWidth imgHeight maxHeight settings fuel
                (fl (currentY + cropHeight)) (pageNumber + 1) pdf3 (bands ++ [band])
        else
          multiPageLoopFl fl canvas imgWidth imgHeight maxHeight settings fuel
            (fl (currentY + cropHeight)) (pageNumber + 1) pdf2 (bands ++ [band])
      else some (Except.ok (pdf, bands))

/-- The band cropped by the iteration of the rounded loop that starts at the
offset `currentY` with the page number `pageNumber`. -/
def bandAtFl (fl : ℚ → ℚ) (canvas : Canvas) (imgWidth imgHeight maxHeight : ℚ)
    (settings : Settings) (currentY : ℚ) (pageNumber : ℕ) : Band :=
  { pageNumber := pageNumber, currentY := currentY,
    cropHeight := min maxHeight (fl (imgHeight - currentY)),
    sourceY := fl (fl (fl (currentY - settings.margin) * canvas.width) / imgWidth),
    sourceHeight := fl (fl (min maxHeight (fl (imgHeight - currentY)) * canvas.width) / imgWidth) }

/-- The method `generateMultiPagePDF` in the arithmetic rounded by `fl`. -/
def generateMultiPagePDFFl (fl : ℚ → ℚ) (fuel : ℕ) (pdf : Pdf) (canvas : Canvas)
    (imgWidth imgHeight maxHeight : ℚ) (settings : Settings) :
    Option (Except Thrown (Pdf × List Band)) :=
  multiPageLoopFl fl canvas imgWidth imgHeight maxHeight settings fuel settings.margin 1 pdf []

/-- Lines 246-250 of `generatePDF` in the arithmetic rounded by `fl`: the
`imgWidth`, `imgHeight` and `maxHeight` handed to `generateMultiPagePDF`. -/
def pageDimensionsFl (fl : ℚ → ℚ) (pageSize : PageSize) (canvas : Canvas) (margin : ℚ) :
    ℚ × ℚ × ℚ :=
  let imgWidth := fl (pageSize.width - fl (margin * 2))
  let imgHeight := fl (fl (canvas.height * imgWidth) / canvas.width)
  let maxHeight := fl (pageSize.height - fl (margin * 2))
  (imgWidth, imgHeight, maxHeight)

/-- The place of a band on its page: its page number, its offset and its
height. -/
def Band.page (b : Band) : ℕ × ℚ × ℚ :=
  (b.pageNumber, b.currentY, b.cropHeight)

/-- The result of a pagination loop with every band reduced to its place on the
page. -/
def onPages (r : Option (Except Thrown (Pdf × List Band))) :
    Option (Except Thrown (Pdf × List (ℕ × ℚ × ℚ))) :=
  r.map (fun x => x.map (fun y => (y.1, y.2.map Band.page)))

/-- The band cropped by the iteration that starts at the offset `currentY` with
the page number `pageNumber` (lines 354-365). -/
def bandAt (canvas : Canvas) (imgWidth imgHeight maxHeight : ℚ) (settings : Settings)
    (currentY : ℚ) (pageNumber : ℕ) : Band :=
  { pageNumber := pageNumber, currentY := currentY,
    cropHeight := min maxHeight (imgHeight - currentY),
    sourceY := (currentY - settings.margin) * canvas.width / imgWidth,
    sourceHeight := (min maxHeight (imgHeight - currentY) * canvas.width) / imgWidth }

/-- The bands the pagination loop crops when it is entered with the offset
`currentY` and the page number `pageNumber`: none when the loop condition
fails, and otherwise the band of this iteration followed by the bands cropped
from the advanced state. -/
def BandsFrom (canvas : Canvas) (imgWidth imgHeight maxHeight : ℚ) (settings : Settings) :
    ℚ → ℕ → List Band → Prop
  | currentY, _, [] => ¬ currentY < imgHeight
  | currentY, pageNumber, b :: rest =>
      currentY < imgHeight
      ∧ b = { pageNumber := pageNumber, currentY := currentY,
              cropHeight := min maxHeight (imgHeight - currentY),
              sourceY := (currentY - settings.margin) * canvas.width / imgWidth,
              sourceHeight := (min maxHeight (imgHeight - currentY) * canvas.width) / imgWidth }
      ∧ BandsFrom canvas imgWidth imgHeight maxHeight settings
          (currentY + min maxHeight (imgHeight - currentY)) (pageNumber + 1) rest

/-- The footer of the page numbered `pageNumber`, as the specification words
it: the text `Page N` at `x = pageWidth / 2`, `y = pageHeight - 10`, in 10 point
grey, when page numbering is not switched off; nothing otherwise. -/
def footerOps (settings : Settings) (pageSize : PageSize) (pageNumber : ℕ) : List PdfOp :=
  if settings.showPageNumbers ≠ JSVal.bool false then
    [PdfOp.setFontSize 10, PdfOp.setTextColor 100 100 100,
     PdfOp.text ("Page " ++ toString pageNumber) (pageSize.width / 2) (pageSize.height - 10)]
  else []

/-- The calls that put one band on its page, as the specification words it: a
new page for every band but the first, the band's image at `(margin, margin)`,
`imgWidth` wide and `cropHeight` high, and the footer. -/
def bandOps (settings : Settings) (pageSize : PageSize) (imgWidth : ℚ) (b : Band) : List PdfOp :=
  (if b.pageNumber > 1 then [PdfOp.addPage] else [])
    ++ [PdfOp.addImage settings.margin settings.margin imgWidth b.cropHeight]
    ++ footerOps settings pageSize b.pageNumber

/-! ## The host environment -/

/-- Who created a node of the document. -/
inductive NodeKind where
  | page
  | clone
  | loader
  deriving DecidableEq

/-- An element attached to the document. `handle` is the identity of the node,
`id` its `id` attribute. -/
structure Node where
  handle : ℕ
  id : String
  kind : NodeKind
  deriving DecidableEq

/-- The notifications `showMessage` is called with. -/
inductive Notice where
  | alreadyGenerating
  | elementNotFound (elementId : String)
  | generated
  | failed
  | error (t : Thrown)
  | qualitySet (quality : String)
  | orientationSet (orientation : String)
  | pageSizeSet (size : String)
  deriving DecidableEq

/-- Calls to the host environment that leave a trace. -/
inductive Call where
  | getElementById (id : String)
  | showMessage (notice : Notice) (type : String)
  | consoleError (t : Thrown)
  | consoleWarn
  | updateSettingsUI
  | html2canvas (clone : Node) (scale : Option ℚ)
  | save (filename : JSVal) (pdf : Pdf)
  | gtag (label : String)
  deriving DecidableEq

/-- The fields of a `PDFGenerator` object (the two tables are constants).
`currentScale` is `none` when it holds `undefined`. -/
structure PDFGenerator where
  isGenerating : Bool
  currentScale : Option ℚ
  pdfQuality : JSVal
  pageOrientation : JSVal
  pageSize : JSVal
  deriving DecidableEq

/-- Everything the methods read and write: the generator, the document (in
document order), the next unused node handle, local storage and the call log. -/
structure World where
  gen : PDFGenerator
  doc : List Node
  nextHandle : ℕ
  storage : List (String × String)
  log : List Call
  deriving DecidableEq

/-- What `JSON.parse` returned, as seen through the three property reads of
`loadSettings`. -/
inductive Parsed where
  | null
  | primitive
  | object (quality orientation pageSize : JSVal)
  deriving DecidableEq

/-- The collaborators of the pipeline. `newJsPDF`, `save` answer `some t` when the
call throws `t`, and `storageThrows` is `some t` when access to local storage
throws `t`; `jsonParse` answers `none` on a syntax error; `jsonStringify` is
`JSON.stringify` on the object `{ quality, orientation, pageSize, timestamp }`
of `saveSettings`, and `isoNow` is `new Date().toISOString()`. -/
structure Env where
  jspdfLoaded : Bool
  newJsPDF : String → Option String → JSVal → Option Thrown
  html2canvas : Node → Option ℚ → Except Thrown Canvas
  save : JSVal → Pdf → Option Thrown
  gtagDefined : Bool
  now : ℕ
  storageThrows : Option Thrown
  jsonParse : String → Option Parsed
  jsonStringify : JSVal → JSVal → JSVal → String → String
  isoNow : String

/-- The call `document.getElementById(id)`: the first element with that id; no
element has the empty id. -/
def getElementById (doc : List Node) (id : String) : Option Node :=
  if id = "" then none else doc.find? (fun n => decide (n.id = id))

/-- The call `parent.removeChild(node)`. -/
def removeChild (doc : List Node) (node : Node) : List Node :=
  doc.filter (fun n => decide (n.handle ≠ node.handle))

/-- Appends a call to the log. -/
def World.record (w : World) (c : Call) : World :=
  { w with log := w.log ++ [c] }

namespace PDFGenerator

/-- The method `showMessage`. -/
def showMessage (notice : Notice) (type : String) (w : World) : World :=
  w.record (Call.showMessage notice type)

/-- The method `showLoading`. -/
def showLoading (show_ : Bool) (w : World) : World :=
  match getElementById w.doc "pdf-loader", show_ with
  | none, true =>
      { w with doc := w.doc ++ [{ handle := w.nextHandle, id := "pdf-loader", kind := NodeKind.loader }],
               nextHandle := w.nextHandle + 1 }
  | some _, true => w
  | some loader, false => { w with doc := removeChild w.doc loader }
  | none, false => w

/-- The node `element.cloneNode(true)` once it has been given the id
`pdf-clone-${Date.now()}`. -/
def exportClone (env : Env) (w : World) : Node :=
  { handle := w.nextHandle, id := "pdf-clone-" ++ toString env.now, kind := NodeKind.clone }

/-- The method `prepareElementForPDF`: the clone is created, sized from the page
size table and appended to the body. -/
def prepareElementForPDF (env : Env) (_element : Node) (settings : Settings) (w : World) :
    Except Thrown (Node × World) :=
  let clone := exportClone env w
  match lookup pageSizes settings.pageSize with
  | Lookup.missing => Except.error Thrown.typeError
  | _ => Except.ok (clone, { w with doc := w.doc ++ [clone], nextHandle := w.nextHandle + 1 })

/-- The first argument of `new jsPDF(...)`. -/
def orientationArg (settings : Settings) : String :=
  if settings.orientation = JSVal.str "landscape" then "l" else "p"

/-- The expression `pageSize.unit`. -/
def unitOf : Lookup PageSize → Option String
  | Lookup.own p => some p.unit
  | _ => none

/-- The expression `quality.scale`, for a `quality` that is not `undefined`. -/
def scaleOf : Lookup QualitySetting → Option ℚ
  | Lookup.own q => some q.scale
  | _ => none

/-- Lines 246-260 of `generatePDF`: the dimensions and the choice between one
page and the pagination loop. With an inherited page size every dimension is
`NaN`: `imgHeight <= maxHeight` and the loop condition are both false. -/
def paginate (fuel : ℕ) (pageSize : Lookup PageSize) (pdf : Pdf) (canvas : Canvas)
    (settings : Settings) : Option (Except Thrown Pdf) :=
  match pageSize with
  | Lookup.own pageSize =>
      let imgWidth := pageSize.width - (settings.margin * 2)
      let imgHeight := canvas.height * imgWidth / canvas.width
      let maxHeight := pageSize.height - (settings.margin * 2)
      if imgHeight ≤ maxHeight then
        some (Except.ok { pdf with ops := pdf.ops ++
          [PdfOp.addImage settings.margin settings.margin imgWidth imgHeight] })
      else
        match generateMultiPagePDF fuel pdf canvas imgWidth imgHeight maxHeight settings with
        | none => none
        | some (Except.error t) => some (Except.error t)
        | some (Except.ok (pdf1, _)) => some (Except.ok pdf1)
  | _ => some (Except.ok pdf)

/-- Lines 262-270 of `generatePDF`: the document is saved, then the clone is
removed, and the method returns `true`. -/
def saveAndCleanUp (env : Env) (settings : Settings) (clone : Node) (pdf : Pdf) (w : World) :
    Except Thrown JSVal × World :=
  let w1 := w.record (Call.save settings.filename pdf)
  match env.save settings.filename pdf with
  | some t => (Except.error t, w1)
  | none => (Except.ok (JSVal.bool true), { w1 with doc := removeChild w1.doc clone })

/-- Lines 234-270 of `generatePDF`: rasterisation of the clone, pagination, save
and clean-up, for a `quality` that is not `undefined`. -/
def rasterizeAndSave (env : Env) (fuel : ℕ) (pageSize : Lookup PageSize)
    (quality : Lookup QualitySetting) (pdf : Pdf) (clone : Node) (settings : Settings)
    (w : World) : Option (Except Thrown JSVal × World) :=
  let w1 := w.record (Call.html2canvas clone (scaleOf quality))
  match env.html2canvas clone (scaleOf quality) with
  | Except.error t => some (Except.error t, w1)
  | Except.ok canvas =>
    match paginate fuel pageSize pdf canvas settings with
    | none => none
    | some (Except.error t) => some (Except.error t, w1)
    | some (Except.ok pdf1) => some (saveAndCleanUp env settings clone pdf1 w1)

/-- The method `generatePDF`. The result is `none` when the pagination loop
does not finish within `fuel` iterations. -/
def generatePDF (env : Env) (fuel : ℕ) (element : Node) (settings : Settings) (w : World) :
    Option (Except Thrown JSVal × World) :=
  if env.jspdfLoaded = false then some (Except.error Thrown.typeError, w) else
  match lookup pageSizes settings.pageSize with
  | Lookup.missing => some (Except.error (Thrown.invalidPageSize settings.pageSize), w)
  | pageSize =>
    match env.newJsPDF (orientationArg settings) (unitOf pageSize) settings.pageSize with
    | some t => some (Except.error t, w)
    | none =>
      let pdf : Pdf :=
        { orientation := orientationArg settings, unit := unitOf pageSize,
          format := settings.pageSize, ops := [] }
      let quality := lookup qualitySettings settings.quality
      match prepareElementForPDF env element settings w with
      | Except.error t => some (Except.error t, w)
      | Except.ok (clone, w1) =>
        match quality with
        | Lookup.missing => some (Except.error Thrown.typeError, w1)
        | quality => rasterizeAndSave env fuel pageSize quality pdf clone settings w1

/-- Lines 171-178 of `generateFromElement`: the defaults, then `...options`. -/
def mergeSettings (gen : PDFGenerator) (filename : String) (options : Options) : Settings :=
  let base : Settings :=
    { quality := (prop options.quality).or gen.pdfQuality,
      orientation := (prop options.orientation).or gen.pageOrientation,
      pageSize := (prop options.pageSize).or gen.pageSize,
      filename := JSVal.str filename,
      margin := match options.margin with
        | some m => if m ≠ 0 then m else 20
        | none => 20,
      showPageNumbers := JSVal.undefined }
  { quality := options.quality.getD base.quality,
    orientation := options.orientation.getD base.orientation,
    pageSize := options.pageSize.getD base.pageSize,
    filename := options.filename.getD base.filename,
    margin := options.margin.getD base.margin,
    showPageNumbers := options.showPageNumbers.getD base.showPageNumbers }

/-- The `finally` block of `generateFromElement`. -/
def finallyBlock (w : World) : World :=
  showLoading false { w with gen := { w.gen with isGenerating := false } }

/-- The object `options` stands for inside the method: the default `{}` when the
argument is left out; `none` for `null`, on which a property read throws. -/
def resolveOptions : OptionsArg → Option Options
  | OptionsArg.undefined => some Options.empty
  | OptionsArg.null => none
  | OptionsArg.object o => some o

/-- The state in which the `try` block of `generateFromElement` starts: the
element was looked up, the flag is set and the loader is shown. -/
def entryWorld (w : World) (elementId : String) : World :=
  let w1 := w.record (Call.getElementById elementId)
  showLoading true { w1 with gen := { w1.gen with isGenerating := true } }

/-- The `try` block of `generateFromElement`, around a `generatePDF` whose
behaviour is `gp`. -/
def tryBlock (gp : Node → Settings → World → Option (Except Thrown JSVal × World)) (env : Env)
    (element : Node) (filename : String) (options : OptionsArg) (w : World) :
    Option (Except Thrown Bool × World) :=
  match resolveOptions options with
  | none => some (Except.error Thrown.typeError, w)
  | some o =>
    match gp element (mergeSettings w.gen filename o) w with
    | none => none
    | some (Except.error t, w1) => some (Except.error t, w1)
    | some (Except.ok result, w1) =>
        if result.truthy then
          let w2 := showMessage Notice.generated "success" w1
          some (Except.ok true, if env.gtagDefined then w2.record (Call.gtag filename) else w2)
        else
          some (Except.ok false, showMessage Notice.failed "error" w1)

/-- The `catch` block of `generateFromElement` (lines 201-204): the error is
logged, then `error.message` is read for the notification, which throws a
`TypeError` when the error is `null` or `undefined`; otherwise the notification
is shown and `false` is returned. -/
def catchBlock (t : Thrown) (w : World) : Except Thrown Bool × World :=
  match t with
  | Thrown.nullish => (Except.error Thrown.typeError, w.record (Call.consoleError t))
  | _ => (Except.ok false, showMessage (Notice.error t) "error" (w.record (Call.consoleError t)))

/-- The method `generateFromElement`, around a `generatePDF` whose behaviour is
`gp`. The result is `none` when the awaited `generatePDF` never settles. -/
def generateFromElementWith (gp : Node → Settings → World → Option (Except Thrown JSVal × World))
    (env : Env) (elementId : String) (filename : String) (options : OptionsArg) (w : World) :
    Option (Except Thrown Bool × World) :=
  if w.gen.isGenerating then
    some (Except.ok false, showMessage Notice.alreadyGenerating "warning" w)
  else
    match getElementById w.doc elementId with
    | none =>
        some (Except.ok false,
          showMessage (Notice.elementNotFound elementId) "error"
            (w.record (Call.getElementById elementId)))
    | some element =>
      match tryBlock gp env element filename options (entryWorld w elementId) with
      | none => none
      | some (Except.ok b, w3) => some (Except.ok b, finallyBlock w3)
      | some (Except.error t, w3) =>
          some ((catchBlock t w3).1, finallyBlock (catchBlock t w3).2)

/-- The completion of the `try` block, through `catch` and `finally`. -/
def settle : Option (Except Thrown Bool × World) → Option (Except Thrown Bool × World)
  | none => none
  | some (Except.ok b, w3) => some (Except.ok b, finallyBlock w3)
  | some (Except.error t, w3) => some ((catchBlock t w3).1, finallyBlock (catchBlock t w3).2)

/-- The method `generateFromElement`. -/
def generateFromElement (env : Env) (fuel : ℕ) (elementId : String) (filename : String)
    (options : OptionsArg) (w : World) : Option (Except Thrown Bool × World) :=
  generateFromElementWith (generatePDF env fuel) env elementId filename options w

/-- The generator as the constructor leaves it before `init()`. -/
def initial : PDFGenerator :=
  { isGenerating := false, currentScale := some 2, pdfQuality := JSVal.str "high",
    pageOrientation := JSVal.str "portrait", pageSize := JSVal.str "a4" }

/-- The call `localStorage.getItem(key)`. -/
def getItem (storage : List (String × String)) (key : String) : Option String :=
  (storage.find? (fun kv => decide (kv.1 = key))).map Prod.snd

/-- The `try` block of `loadSettings`. -/
def loadSettingsTry (env : Env) (w : World) : Except Thrown World :=
  match env.storageThrows with
  | some t => Except.error t
  | none =>
    match getItem w.storage "stm_pdf_settings" with
    | none => Except.ok w
    | some savedSettings =>
      if savedSettings = "" then Except.ok w else
      match env.jsonParse savedSettings with
      | none => Except.error Thrown.syntaxError
      | some Parsed.null => Except.error Thrown.typeError
      | some Parsed.primitive => Except.ok (w.record Call.updateSettingsUI)
      | some (Parsed.object quality orientation pageSize) =>
          let gen : PDFGenerator :=
            { w.gen with pdfQuality := quality.or w.gen.pdfQuality,
                         pageOrientation := orientation.or w.gen.pageOrientation,
                         pageSize := pageSize.or w.gen.pageSize }
          Except.ok ({ w with gen := gen }.record Call.updateSettingsUI)

/-- The method `loadSettings`: the `try` block, and the `catch` that only warns. -/
def loadSettings (env : Env) (w : World) : Except Thrown World :=
  match loadSettingsTry env w with
  | Except.ok w1 => Except.ok w1
  | Except.error _ => Except.ok (w.record Call.consoleWarn)

/-- The call `localStorage.setItem(key, value)`. -/
def setItem (storage : List (String × String)) (key value : String) : List (String × String) :=
  (key, value) :: storage.filter (fun kv => decide (kv.1 ≠ key))

/-- The text `JSON.stringify(settings)` of `saveSettings`, for the object built
from the generator's three settings and the current time. -/
def settingsText (env : Env) (gen : PDFGenerator) : String :=
  env.jsonStringify gen.pdfQuality gen.pageOrientation gen.pageSize env.isoNow

/-- The method `saveSettings`; nothing is stored when access to the storage
throws. -/
def saveSettings (env : Env) (w : World) : Except Thrown World :=
  match env.storageThrows with
  | some t => Except.error t
  | none =>
      Except.ok { w with storage := setItem w.storage "stm_pdf_settings" (settingsText env w.gen) }

/-- The tail of a setter once the fields are assigned: `saveSettings`, then the
notification. When `saveSettings` throws, the assignment stays. -/
def saveAndNotify (env : Env) (notice : Notice) (w : World) : Except Thrown Unit × World :=
  match saveSettings env w with
  | Except.error t => (Except.error t, w)
  | Except.ok w1 => (Except.ok (), showMessage notice "success" w1)

/-- The method `setQuality`, called with a string: the guard is the truthiness
of `this.qualitySettings[quality]`. -/
def setQuality (env : Env) (quality : String) (w : World) : Except Thrown Unit × World :=
  match lookupKey qualitySettings quality with
  | Lookup.missing => (Except.ok (), w)
  | entry =>
      saveAndNotify env (Notice.qualitySet quality)
        { w with gen :=
            { w.gen with pdfQuality := JSVal.str quality, currentScale := scaleOf entry } }

/-- The method `setOrientation`, called with a string. -/
def setOrientation (env : Env) (orientation : String) (w : World) : Except Thrown Unit × World :=
  if orientation ∈ ["portrait", "landscape"] then
    saveAndNotify env (Notice.orientationSet orientation)
      { w with gen := { w.gen with pageOrientation := JSVal.str orientation } }
  else (Except.ok (), w)

/-- The method `setPageSize`, called with a string: the guard is the truthiness
of `this.pageSizes[size]`. -/
def setPageSize (env : Env) (size : String) (w : World) : Except Thrown Unit × World :=
  match lookupKey pageSizes size with
  | Lookup.missing => (Except.ok (), w)
  | _ =>
      saveAndNotify env (Notice.pageSizeSet size)
        { w with gen := { w.gen with pageSize := JSVal.str size } }

/-- The constructor: the field initialisers, then `init()`, of which
`checkDependencies` only writes to the console, `setupEventListeners` only
registers handlers, and `loadSettings` is run. -/
def constructor (env : Env) (w : World) : Except Thrown World :=
  loadSettings env { w with gen := initial }

end PDFGenerator

/-! ## Certificate templates (`src/js/certificate-templates.js`) -/

/-- A certificate layout: the data fields of a template object. Its `html` and
`css` fields are closures over the generator methods of the same name and are
not part of the model. -/
structure Template where
  id : String
  name : String
  description : String
  category : String
  colors : List String
  preview : String
  deriving DecidableEq

/-- The fields `templates` (its own properties, in insertion order) and
`currentTemplate` (`none` is `null`) of a `CertificateTemplates` object. -/
structure CertificateTemplates where
  templates : List (String × Template)
  currentTemplate : Option Template
  deriving DecidableEq

namespace CertificateTemplates

/-- The assignment `this.templates[key] = template`. -/
def assign (templates : List (String × Template)) (key : String) (template : Template) :
    List (String × Template) :=
  if templates.any (fun kv => decide (kv.1 = key)) then
    templates.map (fun kv => if kv.1 = key then (key, template) else kv)
  else templates ++ [(key, template)]

/-- The own property `this.templates[key]`. -/
def get (templates : List (String × Template)) (key : String) : Option Template :=
  (templates.find? (fun kv => decide (kv.1 = key))).map Prod.snd

/-- The method `loadTemplates`. -/
def loadTemplates (c : CertificateTemplates) : CertificateTemplates :=
  let t1 := assign c.templates "professional"
    { id := "professional", name := "Professional Certificate",
      description := "Modern gradient design with clean layout", category := "modern",
      colors := ["#667eea", "#764ba2", "#3498db", "#2ecc71"],
      preview := "linear-gradient(135deg, #667eea 0%, #764ba2 100%)" }
  let t2 := assign t1 "corporate"
    { id := "corporate", name := "Corporate Certificate",
      description := "Formal design for corporate training programs", category := "corporate",
      colors := ["#2c3e50", "#34495e", "#7f8c8d", "#95a5a6"],
      preview := "linear-gradient(135deg, #2c3e50, #34495e)" }
  let t3 := assign t2 "elegant"
    { id := "elegant", name := "Elegant Certificate",
      description := "Classic design with decorative elements", category := "classic",
      colors := ["#8e44ad", "#9b59b6", "#e74c3c", "#f39c12"],
      preview := "linear-gradient(135deg, #8e44ad, #9b59b6)" }
  let t4 := assign t3 "minimal"
    { id := "minimal", name := "Minimal Certificate",
      description := "Simple and clean design", category := "minimal",
      colors := ["#ecf0f1", "#bdc3c7", "#95a5a6", "#7f8c8d"],
      preview := "linear-gradient(135deg, #ecf0f1, #bdc3c7)" }
  let t5 := assign t4 "safety"
    { id := "safety", name := "Safety Training Certificate",
      description := "Designed specifically for safety training", category := "safety",
      colors := ["#e74c3c", "#c0392b", "#3498db", "#2ecc71"],
      preview := "linear-gradient(135deg, #e74c3c, #c0392b)" }
  { templates := t5, currentTemplate := get t5 "professional" }

/-- The constructor: an empty registry and no current template, then
`loadTemplates()`; `init()` only logs and registers click handlers. -/
def constructor : CertificateTemplates :=
  loadTemplates { templates := [], currentTemplate := none }

end CertificateTemplates

/-! ## Colour adjustment (`adjustColor` of `src/js/certificate-templates.js`) -/

/-- The white space of ECMAScript (`WhiteSpace` and `LineTerminator`): what
`trim` strips, what `parseInt` skips and what `\s` matches. -/
def isJsSpace (c : Char) : Bool :=
  decide (c.toNat ∈ [9, 10, 11, 12, 13, 32, 160, 5760, 8232, 8233, 8239, 8287, 12288, 65279])
    || decide (8192 ≤ c.toNat ∧ c.toNat ≤ 8202)

/-- The value of a hexadecimal digit, `none` for any other character. -/
def hexValue (c : Char) : Option ℕ :=
  if 48 ≤ c.toNat ∧ c.toNat ≤ 57 then some (c.toNat - 48)
  else if 97 ≤ c.toNat ∧ c.toNat ≤ 102 then some (c.toNat - 87)
  else if 65 ≤ c.toNat ∧ c.toNat ≤ 70 then some (c.toNat - 55)
  else none

/-- The integer `parseInt(s, 16)` reads, before its conversion to a number:
leading white space is skipped, then a sign and a leading `0x` or `0X`, and the
longest run of hexadecimal digits is read; `none` is `NaN`, when there is no
digit. -/
def parseInt16 (s : List Char) : Option ℤ :=
  let s1 := s.dropWhile isJsSpace
  let s2 := if s1.head? = some '-' ∨ s1.head? = some '+' then s1.tail else s1
  let s3 := if s2.take 2 = ['0', 'x'] ∨ s2.take 2 = ['0', 'X'] then s2.drop 2 else s2
  let digits := (s3.takeWhile (fun c => (hexValue c).isSome)).filterMap hexValue
  if digits = [] then none
  else
    let value : ℕ := digits.foldl (fun acc d => 16 * acc + d) 0
    some (if s1.head? = some '-' then -(value : ℤ) else value)

/-- The double nearest to a natural number (ties to even). -/
def roundToDouble (n : ℕ) : ℕ :=
  if n < 2 ^ 53 then n
  else
    let e := Nat.log2 n - 52
    let q := n / 2 ^ e
    let r := n % 2 ^ e
    (if 2 * r > 2 ^ e ∨ (2 * r = 2 ^ e ∧ q % 2 = 1) then q + 1 else q) * 2 ^ e

/-- The conversion `ToInt32` of an integer. -/
def toInt32 (n : ℤ) : ℤ :=
  (n + 2 ^ 31) % 2 ^ 32 - 2 ^ 31

/-- The 32-bit integer the bitwise operators see in `parseInt(hex, 16)`: `NaN`
and the infinities convert to 0. -/
def int32OfHex (hex : List Char) : ℤ :=
  match parseInt16 hex with
  | none => 0
  | some n =>
      if roundToDouble n.natAbs ≥ 2 ^ 1024 then 0
      else toInt32 (if n < 0 then -(roundToDouble n.natAbs : ℤ) else roundToDouble n.natAbs)

/-- The expression `x < 255 ? x < 1 ? 0 : x : 255`. -/
def clampChannel (x : ℤ) : ℤ :=
  if x < 255 then (if x < 1 then 0 else x) else 255

/-- The method `adjustColor(color, amount)` of `CertificateTemplates`, for a
string `color` and an integer `amount`. `>> 16` is the floor of the quotient by
65536 and `& 0xFF` the remainder modulo 256; the sums with `amount` are exact
or, beyond 2^53, rounded far away from the bounds 1 and 255 they are compared
with. -/
def adjustColor (color : String) (amount : ℤ) : String :=
  let hex := color.data.erase '#'
  let num := int32OfHex hex
  let r := num / 65536 + amount
  let g := (num / 256) % 256 + amount
  let b := num % 256 + amount
  let total := 0x1000000 + clampChannel r * 0x10000 + clampChannel g * 0x100 + clampChannel b
  String.mk ('#' :: (Nat.toDigits 16 total.toNat).drop 1)

/-- The red, green and blue channels of a colour written as `#` and six
hexadecimal digits; `none` for any other text. -/
def channels (color : String) : Option (ℤ × ℤ × ℤ) :=
  match color.data with
  | ['#', r1, r0, g1, g0, b1, b0] =>
      match hexValue r1, hexValue r0, hexValue g1, hexValue g0, hexValue b1, hexValue b0 with
      | some vr1, some vr0, some vg1, some vg0, some vb1, some vb0 =>
          some (16 * vr1 + vr0, 16 * vg1 + vg0, 16 * vb1 + vb0)
      | _, _, _, _, _, _ => none
  | _ => none

/-- The hexadecimal digits. -/
def hexChars : List Char := "0123456789abcdefABCDEF".toList

/-! ## Visitor counter (`src/js/visitor-counter.js`) -/

/-- The counters kept per day and per month. -/
structure PeriodStats where
  visits : ℚ
  uniqueVisitors : ℚ
  pageViews : ℚ
  documentsGenerated : ℚ
  deriving DecidableEq

/-- An entry of `stats.visitHistory`. -/
structure Visit where
  visitorId : String
  firstVisit : String
  lastVisit : String
  totalVisits : ℚ
  deriving DecidableEq

/-- An entry of `stats.documentHistory`. -/
structure DocumentRecord where
  type : String
  timestamp : String
  visitorId : String
  sessionId : String
  deriving DecidableEq

/-- The object `this.stats`. The two tables hold their own properties in
insertion order; `documentHistory` is `none` while the property is absent. -/
structure Stats where
  totalVisitors : ℚ
  uniqueVisitors : ℚ
  returningVisitors : ℚ
  pageViews : ℚ
  sessions : ℚ
  documentsGenerated : ℚ
  lastVisit : Option String
  visitHistory : List Visit
  dailyStats : List (String × PeriodStats)
  monthlyStats : List (String × PeriodStats)
  documentHistory : Option (List DocumentRecord)
  deriving DecidableEq

/-- The fields of `this.currentSession` that the counter updates. -/
structure Session where
  id : String
  pageViews : ℚ
  documentsGenerated : ℚ
  deriving DecidableEq

/-- The fields of a `VisitorCounter` object that `trackVisit` reads and writes. -/
structure VisitorCounter where
  stats : Stats
  currentSession : Session
  visitorId : String
  deriving DecidableEq

/-- The counter together with what `saveStats` last wrote to the local and the
session storage. -/
structure VisitorWorld where
  counter : VisitorCounter
  savedStats : Option Stats
  savedSession : Option Session
  deriving DecidableEq

/-- A calendar date in UTC. -/
structure UTCDate where
  year : ℕ
  month : ℕ
  day : ℕ
  deriving DecidableEq

/-- What the host gives `trackVisit`: the UTC date and time of day of `now`
(line 142), the UTC dates of the two later `Date` objects after
`setFullYear(getFullYear() - 1)` (lines 214-215) and
`setFullYear(getFullYear() - 2)` (lines 225-226), and whether writing to the
storage throws. -/
structure VisitClock where
  today : UTCDate
  time : String
  oneYearAgo : UTCDate
  twoYearsAgo : UTCDate
  storageThrows : Bool

/-- The two decimal digits of a number below 100. -/
def digits2 (n : ℕ) : List Char :=
  [Nat.digitChar (n / 10 % 10), Nat.digitChar (n % 10)]

/-- The four decimal digits of a number below 10000. -/
def digits4 (n : ℕ) : List Char :=
  [Nat.digitChar (n / 1000 % 10), Nat.digitChar (n / 100 % 10), Nat.digitChar (n / 10 % 10),
   Nat.digitChar (n % 10)]

/-- The text `toISOString().substr(0, 7)` of a date in a four-digit year: `YYYY-MM`. -/
def isoMonth (d : UTCDate) : String :=
  String.mk (digits4 d.year ++ ['-'] ++ digits2 d.month)

/-- The text `toISOString().split('T')[0]` of a date in a four-digit year:
`YYYY-MM-DD`. -/
def isoDay (d : UTCDate) : String :=
  String.mk (digits4 d.year ++ ['-'] ++ digits2 d.month ++ ['-'] ++ digits2 d.day)

/-- The text `toISOString()` of a date in a four-digit year at the time of day
`time` (`HH:mm:ss.sssZ`). -/
def toISOString (d : UTCDate) (time : String) : String :=
  isoDay d ++ "T" ++ time

/-- The UTF-16 code units of a character. -/
def unitsOf (c : Char) : List ℕ :=
  if c.toNat < 65536 then [c.toNat]
  else [55296 + (c.toNat - 65536) / 1024, 56320 + (c.toNat - 65536) % 1024]

/-- The UTF-16 code units of a string. -/
def codeUnits (s : String) : List ℕ :=
  (s.data.map unitsOf).flatten

/-- Lexicographic order on sequences of code units. -/
def lexLt : List ℕ → List ℕ → Bool
  | _, [] => false
  | [], _ :: _ => true
  | a :: as, b :: bs => decide (a < b) || (decide (a = b) && lexLt as bs)

/-- The operator `s < t` on two strings. -/
def jsLt (s t : String) : Bool :=
  lexLt (codeUnits s) (codeUnits t)

/-- Calendar order on months. -/
def UTCDate.monthLt (a b : UTCDate) : Prop :=
  a.year < b.year ∨ (a.year = b.year ∧ a.month < b.month)

/-- Calendar order on days. -/
def UTCDate.dayLt (a b : UTCDate) : Prop :=
  a.year < b.year ∨ (a.year = b.year ∧ (a.month < b.month ∨ (a.month = b.month ∧ a.day < b.day)))

/-- The fields of a date are in the range of the ISO format: a four-digit year
and two-digit month and day. -/
def UTCDate.inRange (d : UTCDate) : Prop :=
  d.year < 10000 ∧ d.month < 100 ∧ d.day < 100

namespace VisitorCounter

/-- The guarded initialisation `if (!table[key]) table[key] = { visits: 0, ... }`. -/
def ensureKey (table : List (String × PeriodStats)) (key : String) : List (String × PeriodStats) :=
  if table.any (fun kv => decide (kv.1 = key)) then table
  else table ++ [(key, { visits := 0, uniqueVisitors := 0, pageViews := 0, documentsGenerated := 0 })]

/-- An update of the entry `table[key]`. -/
def updateKey (table : List (String × PeriodStats)) (key : String)
    (f : PeriodStats → PeriodStats) : List (String × PeriodStats) :=
  table.map (fun kv => if kv.1 = key then (kv.1, f kv.2) else kv)

/-- Lines 188-191: the first entry of the visitor gets the new `lastVisit` and one
more visit; the second component is its new `totalVisits`, `none` when there is
no such entry. -/
def bumpFirst (visitorId now : String) : List Visit → List Visit × Option ℚ
  | [] => ([], none)
  | v :: rest =>
      if v.visitorId = visitorId then
        ({ v with lastVisit := now, totalVisits := v.totalVisits + 1 } :: rest,
          some (v.totalVisits + 1))
      else
        ((v :: (bumpFirst visitorId now rest).1), (bumpFirst visitorId now rest).2)

/-- Lines 141-206 of `trackVisit`: the counters, the day and month entries and
the visit history, before any clean-up. -/
def countVisit (clock : VisitClock) (c : VisitorCounter) : VisitorCounter :=
  let now := toISOString clock.today clock.time
  let today := isoDay clock.today
  let month := isoMonth clock.today
  let daily1 := updateKey (ensureKey c.stats.dailyStats today) today
    (fun e => { e with pageViews := e.pageViews + 1 })
  let monthly1 := updateKey (ensureKey c.stats.monthlyStats month) month
    (fun e => { e with pageViews := e.pageViews + 1 })
  let isNewVisitor := !c.stats.visitHistory.any (fun visit => decide (visit.visitorId = c.visitorId))
  let uniqueVisitors := if isNewVisitor then c.stats.uniqueVisitors + 1 else c.stats.uniqueVisitors
  let daily2 := if isNewVisitor then
      updateKey daily1 today (fun e => { e with uniqueVisitors := e.uniqueVisitors + 1 })
    else daily1
  let monthly2 := if isNewVisitor then
      updateKey monthly1 month (fun e => { e with uniqueVisitors := e.uniqueVisitors + 1 })
    else monthly1
  let history := if isNewVisitor then
      c.stats.visitHistory ++
        [{ visitorId := c.visitorId, firstVisit := now, lastVisit := now, totalVisits := 1 }]
    else (bumpFirst c.visitorId now c.stats.visitHistory).1
  let returningVisitors := if isNewVisitor then c.stats.returningVisitors
    else match (bumpFirst c.visitorId now c.stats.visitHistory).2 with
      | some totalVisits =>
          if totalVisits > 1 then c.stats.returningVisitors + 1 else c.stats.returningVisitors
      | none => c.stats.returningVisitors
  { c with
    currentSession := { c.currentSession with pageViews := c.currentSession.pageViews + 1 },
    stats := { c.stats with
      pageViews := c.stats.pageViews + 1,
      uniqueVisitors := uniqueVisitors,
      returningVisitors := returningVisitors,
      sessions := c.stats.sessions + 1,
      lastVisit := some now,
      totalVisitors := uniqueVisitors + returningVisitors,
      visitHistory := history,
      dailyStats := updateKey daily2 today (fun e => { e with visits := e.visits + 1 }),
      monthlyStats := updateKey monthly2 month (fun e => { e with visits := e.visits + 1 }) } }

/-- Lines 208-211 of `trackVisit`: `slice(-1000)` on a history of more than 1000
entries. -/
def trimHistory (c : VisitorCounter) : VisitorCounter :=
  if c.stats.visitHistory.length > 1000 then
    { c with stats := { c.stats with
        visitHistory := c.stats.visitHistory.drop (c.stats.visitHistory.length - 1000) } }
  else c

/-- Lines 213-233 of `trackVisit`: the day keys below the day one year ago and
the month keys below the month two years ago are deleted. -/
def pruneStats (clock : VisitClock) (c : VisitorCounter) : VisitorCounter :=
  { c with stats := { c.stats with
      dailyStats := c.stats.dailyStats.filter (fun kv => !jsLt kv.1 (isoDay clock.oneYearAgo)),
      monthlyStats :=
        c.stats.monthlyStats.filter (fun kv => !jsLt kv.1 (isoMonth clock.twoYearsAgo)) } }

/-- The method `saveStats`: both writes, or only a warning when the storage
throws. -/
def saveStats (clock : VisitClock) (w : VisitorWorld) : VisitorWorld :=
  if clock.storageThrows then w
  else { w with savedStats := some w.counter.stats, savedSession := some w.counter.currentSession }

/-- The method `trackVisit`. -/
def trackVisit (clock : VisitClock) (w : VisitorWorld) : VisitorWorld :=
  saveStats clock { w with counter := pruneStats clock (trimHistory (countVisit clock w.counter)) }

/-- Lines 239-270 of `trackDocumentGeneration`, for the resolved `type`: the two
counters, the day and month entries that exist, and the record pushed on
`documentHistory` (created when absent), cut to its last 500 entries. -/
def recordDocument (clock : VisitClock) (type : String) (c : VisitorCounter) : VisitorCounter :=
  let now := toISOString clock.today clock.time
  let today := isoDay clock.today
  let month := isoMonth clock.today
  let pushed := c.stats.documentHistory.getD [] ++
    [{ type := type, timestamp := now, visitorId := c.visitorId, sessionId := c.currentSession.id }]
  let history := if pushed.length > 500 then pushed.drop (pushed.length - 500) else pushed
  { c with
    currentSession := { c.currentSession with
      documentsGenerated := c.currentSession.documentsGenerated + 1 },
    stats := { c.stats with
      documentsGenerated := c.stats.documentsGenerated + 1,
      dailyStats := updateKey c.stats.dailyStats today
        (fun e => { e with documentsGenerated := e.documentsGenerated + 1 }),
      monthlyStats := updateKey c.stats.monthlyStats month
        (fun e => { e with documentsGenerated := e.documentsGenerated + 1 }),
      documentHistory := some history } }

/-- The method `trackDocumentGeneration(type = 'unknown')`; `none` is a call
without the argument. After the updates and `saveStats()`, `updateDisplay()`
writes the counters to the page, and the last statement calls `this.sendEvent`,
which the class does not define: the call ends with a `TypeError`, the updates
made. -/
def trackDocumentGeneration (clock : VisitClock) (type : Option String) (w : VisitorWorld) :
    Except Thrown Unit × VisitorWorld :=
  (Except.error Thrown.typeError,
    saveStats clock { w with counter := recordDocument clock (type.getD "unknown") w.counter })

end VisitorCounter

/-! ## Form validation (`src/js/main.js`) -/

/-- The method `String.prototype.trim`. -/
def trim (s : String) : String :=
  String.mk ((s.data.dropWhile isJsSpace).rdropWhile isJsSpace)

/-- A piece of an anchored pattern: one character of a class, or a class
repeated `n` times or more (`+` is `atLeast 1`, the bound `10,` is
`atLeast 10`). -/
inductive Item where
  | one (p : Char → Bool)
  | atLeast (n : ℕ) (p : Char → Bool)

/-- A repeated class followed by the rest of the pattern: `n` more characters of
the class are owed, and after them every further split is tried. -/
def matchAtLeast (p : Char → Bool) (rest : List Char → Bool) : ℕ → List Char → Bool
  | 0, [] => rest []
  | 0, c :: s => rest (c :: s) || (p c && matchAtLeast p rest 0 s)
  | _ + 1, [] => false
  | n + 1, c :: s => p c && matchAtLeast p rest n s

/-- A match of `^items$` against the whole text. -/
def matchItems : List Item → List Char → Bool
  | [], s => s.isEmpty
  | Item.one p :: rest, s =>
      match s with
      | [] => false
      | c :: t => p c && matchItems rest t
  | Item.atLeast n p :: rest, s => matchAtLeast p (matchItems rest) n s

/-- The class `[^\s@]`. -/
def notSpaceOrAt (c : Char) : Bool :=
  !isJsSpace c && c != '@'

/-- The class `[\d\s\-\+\(\)]`. -/
def phoneChar (c : Char) : Bool :=
  c.isDigit || isJsSpace c || c == '-' || c == '+' || c == '(' || c == ')'

/-- The pattern `/^[^\s@]+@[^\s@]+\.[^\s@]+$/`. -/
def emailRegex : List Item :=
  [Item.atLeast 1 notSpaceOrAt, Item.one (fun c => c == '@'), Item.atLeast 1 notSpaceOrAt,
   Item.one (fun c => c == '.'), Item.atLeast 1 notSpaceOrAt]

/-- The pattern of `phoneRegex`: the class of `phoneChar`, ten times or more,
between `^` and `$`. -/
def phoneRegex : List Item :=
  [Item.atLeast 10 phoneChar]

/-- The method `test` of a pattern without flags. -/
def test (regex : List Item) (s : String) : Bool :=
  matchItems regex s.data

/-- A number of the language. -/
inductive JSNumber where
  | nan
  | negInf
  | fin (q : ℚ)
  | posInf
  deriving DecidableEq

/-- The operator `<` on numbers. -/
def JSNumber.lt : JSNumber → JSNumber → Bool
  | JSNumber.negInf, JSNumber.fin _ => true
  | JSNumber.negInf, JSNumber.posInf => true
  | JSNumber.fin a, JSNumber.fin b => decide (a < b)
  | JSNumber.fin _, JSNumber.posInf => true
  | _, _ => false

/-- A form control as `validateField` reads it: its `value`, its `type` and its
attributes (`none` is an attribute the element does not have). -/
structure Field where
  value : String
  type : String
  getAttribute : String → Option String

/-- The expression `field.getAttribute(name) || fallback`. -/
def Field.attributeOr (field : Field) (name fallback : String) : String :=
  match field.getAttribute name with
  | some s => if s ≠ "" then s else fallback
  | none => fallback

/-- The result of `validateField`: the value returned, and the message handed
to `showFieldError` (`none` when `clearFieldError` is called instead). -/
structure Validation where
  isValid : Bool
  shown : Option String
  deriving DecidableEq

/-- The function `validateField`; `parseFloat` is the host's. -/
def validateField (parseFloat : String → JSNumber) (field : Field) : Validation :=
  let value := trim field.value
  let s0 : Bool × String := (true, "")
  let s1 := if (field.getAttribute "required").isSome ∧ value = "" then
      (false, field.attributeOr "data-error-required" "This field is required")
    else s0
  let s2 := if field.type = "email" ∧ value ≠ "" ∧ test emailRegex value = false then
      (false, field.attributeOr "data-error-email" "Please enter a valid email address")
    else s1
  let s3 := if field.type = "tel" ∧ value ≠ "" ∧ test phoneRegex value = false then
      (false, field.attributeOr "data-error-phone" "Please enter a valid phone number")
    else s2
  let min := field.getAttribute "min"
  let max := field.getAttribute "max"
  let s4 := if field.type = "number" ∧ value ≠ "" then
      match min with
      | some m =>
          if m ≠ "" ∧ (parseFloat value).lt (parseFloat m) = true then
            (false, field.attributeOr "data-error-min" ("Minimum value is " ++ m))
          else s3
      | none => s3
    else s3
  let s5 := if field.type = "number" ∧ value ≠ "" then
      match max with
      | some m =>
          if m ≠ "" ∧ (parseFloat m).lt (parseFloat value) = true then
            (false, field.attributeOr "data-error-max" ("Maximum value is " ++ m))
          else s4
      | none => s4
    else s4
  { isValid := s5.1, shown := if s5.1 then none else some s5.2 }

/-- The shape `local@domain.tld`: three non-empty parts without white space and
without `@`, joined by one `@` and one `.`. -/
def EmailShape (v : String) : Prop :=
  ∃ l d t : List Char, v.data = l ++ '@' :: d ++ '.' :: t
    ∧ l ≠ [] ∧ d ≠ [] ∧ t ≠ []
    ∧ ∀ c ∈ l ++ d ++ t, isJsSpace c = false ∧ c ≠ '@'

/-- At least 10 characters, each a digit, white space, `-`, `+`, `(` or `)`. -/
def TelShape (v : String) : Prop :=
  10 ≤ v.data.length
    ∧ ∀ c ∈ v.data, c.isDigit = true ∨ isJsSpace c = true ∨ c ∈ ['-', '+', '(', ')']

/-- The attribute is given: present and not empty. -/
def Given (a : Option String) (m : String) : Prop :=
  a = some m ∧ m ≠ ""

/-! ## Sample inputs -/

/-- A required e-mail field holding an address between blanks. -/
def emailField : Field :=
  { value := "  safety@training.example ", type := "email",
    getAttribute := fun name => if name = "required" then some "" else none }

/-- A telephone field holding eight characters. -/
def shortTelField : Field :=
  { value := "555-1234", type := "tel", getAttribute := fun _ => none }

/-- A raster 170 pixels wide and 258 pixels high. -/
def sampleCanvas : Canvas := ⟨170, 258, by decide⟩

/-- A raster 170 pixels wide and 200 pixels high. -/
def shortCanvas : Canvas := ⟨170, 200, by decide⟩

/-- A raster 170 pixels wide and 600 pixels high. -/
def tallCanvas : Canvas := ⟨170, 600, by decide⟩

/-- A raster 382 pixels wide and 1193 pixels high. -/
def wideCanvas : Canvas := ⟨382, 1193, by decide⟩

/-- A raster 170 pixels wide and 1020 pixels high. -/
def longCanvas : Canvas := ⟨170, 1020, by decide⟩

/-- The A4 entry of the page-size table. -/
def a4 : PageSize := { width := 210, height := 297, unit := "mm" }

/-- A raster 170 pixels wide and 480 pixels high. -/
def midCanvas : Canvas := ⟨170, 480, by decide⟩

/-- A new A4 portrait document. -/
def blankPdf : Pdf :=
  { orientation := "p", unit := some "mm", format := JSVal.str "a4", ops := [] }

/-- An environment in which every collaborator succeeds and the rasteriser
answers `canvas`. -/
def sampleEnv (canvas : Canvas) : Env :=
  { jspdfLoaded := true,
    newJsPDF := fun _ _ _ => none,
    html2canvas := fun _ _ => Except.ok canvas,
    save := fun _ _ => none,
    gtagDefined := false,
    now := 0,
    storageThrows := none,
    jsonParse := fun _ => none,
    jsonStringify := fun _ _ _ _ => "\x7b\x7d",
    isoNow := "2026-01-01T00:00:00.000Z" }

/-- An environment in which rasterisation fails. -/
def renderErrorEnv : Env :=
  { sampleEnv sampleCanvas with
    html2canvas := fun _ _ => Except.error (Thrown.external (some "Tainted canvas")) }

/-- An environment in which rasterisation is rejected without a reason, as by
`Promise.reject()`. -/
def emptyRejectionEnv : Env :=
  { sampleEnv sampleCanvas with html2canvas := fun _ _ => Except.error Thrown.nullish }

/-- An environment whose JSON functions handle the one preferences object
`{ quality: "low", orientation: "landscape", pageSize: "letter" }`. -/
def jsonEnv : Env :=
  { sampleEnv sampleCanvas with
    jsonStringify := fun quality orientation pageSize _ =>
      if quality = JSVal.str "low" ∧ orientation = JSVal.str "landscape"
          ∧ pageSize = JSVal.str "letter" then "low,landscape,letter" else "other",
    jsonParse := fun text =>
      if text = "low,landscape,letter" then
        some (Parsed.object (JSVal.str "low") (JSVal.str "landscape") (JSVal.str "letter"))
      else none }

/-- A call on 5 November 2026. -/
def sampleClock : VisitClock :=
  { today := { year := 2026, month := 11, day := 5 }, time := "09:30:00.000Z",
    oneYearAgo := { year := 2025, month := 11, day := 5 },
    twoYearsAgo := { year := 2024, month := 11, day := 5 },
    storageThrows := false }

/-- A counter with statistics of an old and a recent day and month, visited
again by a known visitor. -/
def sampleVisitorWorld : VisitorWorld :=
  { counter :=
      { stats :=
          { totalVisitors := 1, uniqueVisitors := 1, returningVisitors := 0, pageViews := 2,
            sessions := 2, documentsGenerated := 0, lastVisit := some "2026-11-04T08:00:00.000Z",
            visitHistory :=
              [{ visitorId := "visitor_a", firstVisit := "2024-01-01T08:00:00.000Z",
                 lastVisit := "2026-11-04T08:00:00.000Z", totalVisits := 2 }],
            dailyStats :=
              [("2024-01-01", { visits := 1, uniqueVisitors := 1, pageViews := 1,
                                documentsGenerated := 0 }),
               ("2026-11-04", { visits := 1, uniqueVisitors := 0, pageViews := 1,
                                documentsGenerated := 0 })],
            monthlyStats :=
              [("2024-01", { visits := 1, uniqueVisitors := 1, pageViews := 1,
                             documentsGenerated := 0 }),
               ("2026-11", { visits := 1, uniqueVisitors := 0, pageViews := 1,
                             documentsGenerated := 0 })],
            documentHistory := none },
        currentSession := { id := "session_1", pageViews := 0, documentsGenerated := 0 },
        visitorId := "visitor_a" },
    savedStats := none,
    savedSession := none }

/-- The sample counter with a history of 1001 other visitors and a visitor who
is not among them. -/
def crowdedVisitorWorld : VisitorWorld :=
  { sampleVisitorWorld with
    counter := { sampleVisitorWorld.counter with
      visitorId := "visitor_new",
      stats := { sampleVisitorWorld.counter.stats with
        visitHistory := List.replicate 1001
          { visitorId := "visitor_a", firstVisit := "2024-01-01T08:00:00.000Z",
            lastVisit := "2026-11-04T08:00:00.000Z", totalVisits := 2 } } } }

/-- The sample counter with a document history of 500 records. -/
def busyVisitorWorld : VisitorWorld :=
  { sampleVisitorWorld with
    counter := { sampleVisitorWorld.counter with
      stats := { sampleVisitorWorld.counter.stats with
        documentsGenerated := 500,
        documentHistory := some (List.replicate 500
          { type := "pdf", timestamp := "2026-11-04T08:00:00.000Z", visitorId := "visitor_a",
            sessionId := "session_0" }) } } }

/-- A page with one element, `cert-1`, and a freshly constructed generator. -/
def sampleWorld : World :=
  { gen := PDFGenerator.initial,
    doc := [{ handle := 0, id := "cert-1", kind := NodeKind.page }],
    nextHandle := 1,
    storage := [],
    log := [] }

/-- The sample page with a generator set to `low`, `landscape`, `letter`. -/
def lowWorld : World :=
  { sampleWorld with
    gen := { PDFGenerator.initial with
      pdfQuality := JSVal.str "low", currentScale := some 1,
      pageOrientation := JSVal.str "landscape", pageSize := JSVal.str "letter" } }

/-- The settings of a default export: A4, portrait, margin 20. -/
def sampleSettings : Settings :=
  PDFGenerator.mergeSettings PDFGenerator.initial "c.pdf" Options.empty

/-- The page counts of the documents saved so far, oldest first. -/
def savedPageCounts (w : World) : List ℕ :=
  w.log.filterMap (fun c => match c with
    | Call.save _ pdf => some pdf.pageCount
    | _ => none)

/-- The names of the files saved so far, oldest first. -/
def savedNames (w : World) : List JSVal :=
  w.log.filterMap (fun c => match c with
    | Call.save name _ => some name
    | _ => none)

/-- The arguments of the `addImage` calls among a list of calls, in order. -/
def imagesOf (ops : List PdfOp) : List (ℚ × ℚ × ℚ × ℚ) :=
  ops.filterMap (fun op => match op with
    | PdfOp.addImage x y w h => some (x, y, w, h)
    | _ => none)

/-- The nodes handed to html2canvas so far, oldest first. -/
def rasterised (w : World) : List Node :=
  w.log.filterMap (fun c => match c with
    | Call.html2canvas node _ => some node
    | _ => none)

/-- The calls made on the documents saved so far, oldest first. -/
def savedOps (w : World) : List (List PdfOp) :=
  w.log.filterMap (fun c => match c with
    | Call.save _ pdf => some pdf.ops
    | _ => none)

/-- The temporary export nodes attached to the document. -/
def clones (w : World) : List Node :=
  w.doc.filter (fun n => decide (n.kind = NodeKind.clone))

end STM

namespace STM

open PDFGenerator

/-! ## Pagination at the default margin -/

/-- C1 (the code at the failing input). A default export (A4, portrait, margin 20)
of a raster 170 pixels wide and 258 pixels high has content height `H = 258`
and printable height `P = 257`, so `ceil (H / P) = 2`; `generatePDF` succeeds and
saves a document of one page. -/
theorem generatePDF_one_page_for_two_page_content :
    (generatePDF (sampleEnv sampleCanvas) 5 { handle := 0, id := "cert-1", kind := NodeKind.page }
        sampleSettings sampleWorld).map (fun r => (r.1, savedPageCounts r.2))
      = some (Except.ok (JSVal.bool true), [1])
    ∧ (sampleCanvas.height : ℚ) * (210 - sampleSettings.margin * 2) / sampleCanvas.width = 258
    ∧ (297 : ℚ) - sampleSettings.margin * 2 = 257
    ∧ ⌈(258 : ℚ) / 257⌉ = 2 := by
  decide!

/-- C2 (the code at the failing input). For content height `H = 258`, printable
height `P = 257` and margin 20, `generateMultiPagePDF` crops a single band: it
starts at source offset 0 and is 238 units high, so the bands cover 238 of the
258 units and the last 20 units of the raster are in no band. -/
theorem generateMultiPagePDF_bands_stop_short :
    (generateMultiPagePDF 5 { orientation := "p", unit := some "mm", format := JSVal.str "a4", ops := [] }
        sampleCanvas 170 258 257 sampleSettings).map
        (fun r => r.toOption.map (fun x => x.2))
      = some (some [{ pageNumber := 1, currentY := 20, cropHeight := 238,
                      sourceY := 0, sourceHeight := 238 }])
    ∧ (0 : ℚ) + 238 < 258 := by
  decide!

/-! ## The re-entrancy guard and the failure paths of `generateFromElement` -/

/-- The flag is false after the `finally` block. -/
theorem finallyBlock_isGenerating (w : World) : (finallyBlock w).gen.isGenerating = false := by
  unfold finallyBlock showLoading
  split <;> rfl

/-- The `try` block completes whenever the awaited `generatePDF` settles. -/
theorem tryBlock_isSome (gp : Node → Settings → World → Option (Except Thrown JSVal × World))
    (env : Env) (element : Node) (filename : String) (options : OptionsArg) (w : World)
    (h : ∀ o, resolveOptions options = some o →
      (gp element (mergeSettings w.gen filename o) w).isSome = true) :
    (tryBlock gp env element filename options w).isSome = true := by
  cases ho : resolveOptions options with
  | none => simp [tryBlock, ho]
  | some o =>
    have hg := h o ho
    cases hgp : gp element (mergeSettings w.gen filename o) w with
    | none => rw [hgp] at hg; cases hg
    | some p =>
      obtain ⟨r, w1⟩ := p
      cases r with
      | error t => simp [tryBlock, ho, hgp]
      | ok v =>
        simp only [tryBlock, ho, hgp]
        split <;> rfl

/-- Unfolding of `generateFromElementWith` when the generator is idle and the
element exists. -/
theorem generateFromElementWith_found
    (gp : Node → Settings → World → Option (Except Thrown JSVal × World)) (env : Env)
    (elementId filename : String) (options : OptionsArg) (w : World) (element : Node)
    (hidle : w.gen.isGenerating = false) (hel : getElementById w.doc elementId = some element) :
    generateFromElementWith gp env elementId filename options w
      = settle (tryBlock gp env element filename options (entryWorld w elementId)) := by
  simp only [generateFromElementWith, hidle, hel, Bool.false_eq_true, if_false]
  cases tryBlock gp env element filename options (entryWorld w elementId) with
  | none => rfl
  | some p =>
    obtain ⟨res, w3⟩ := p
    cases res <;> rfl

/-- Unfolding of `generateFromElementWith` when the generator is idle and the
element does not exist. -/
theorem generateFromElementWith_missing
    (gp : Node → Settings → World → Option (Except Thrown JSVal × World)) (env : Env)
    (elementId filename : String) (options : OptionsArg) (w : World)
    (hidle : w.gen.isGenerating = false) (hel : getElementById w.doc elementId = none) :
    generateFromElementWith gp env elementId filename options w
      = some (Except.ok false,
          showMessage (Notice.elementNotFound elementId) "error"
            (w.record (Call.getElementById elementId))) := by
  simp only [generateFromElementWith, hidle, hel, Bool.false_eq_true, if_false]

/-- After `catch` and `finally` the flag is false. -/
theorem settle_isGenerating (x : Option (Except Thrown Bool × World)) (r : Except Thrown Bool)
    (w1 : World) (h : settle x = some (r, w1)) : w1.gen.isGenerating = false := by
  cases x with
  | none => cases h
  | some p =>
    obtain ⟨res, w3⟩ := p
    cases res with
    | ok b =>
      simp only [settle, Option.some.injEq, Prod.mk.injEq] at h
      rw [← h.2]
      exact finallyBlock_isGenerating _
    | error t =>
      simp only [settle, Option.some.injEq, Prod.mk.injEq] at h
      rw [← h.2]
      exact finallyBlock_isGenerating _

/-- The `catch` block returns `false`, unless the error is `null` or
`undefined`: then it throws a `TypeError`. -/
theorem catchBlock_result (t : Thrown) (w : World) :
    (t ≠ Thrown.nullish → (catchBlock t w).1 = Except.ok false)
    ∧ (t = Thrown.nullish → (catchBlock t w).1 = Except.error Thrown.typeError)
    ∧ ((catchBlock t w).1 = Except.ok false
        ∨ (catchBlock t w).1 = Except.error Thrown.typeError) := by
  cases t <;> simp [catchBlock]

/-- Unless `null` or `undefined` was thrown, the call does not throw: `catch`
turns the exception into `false`. -/
theorem settle_ok (x : Option (Except Thrown Bool × World)) (r : Except Thrown Bool)
    (w1 : World) (hx : ∀ w3, x ≠ some (Except.error Thrown.nullish, w3))
    (h : settle x = some (r, w1)) :
    ∃ b, r = Except.ok b ∧ (b = true ↔ ∃ w3, x = some (Except.ok true, w3)) := by
  cases x with
  | none => cases h
  | some p =>
    obtain ⟨res, w3⟩ := p
    cases res with
    | ok b =>
      simp only [settle, Option.some.injEq, Prod.mk.injEq] at h
      refine ⟨b, h.1.symm, ?_⟩
      constructor
      · intro hb; exact ⟨w3, by rw [hb]⟩
      · rintro ⟨w4, h4⟩
        simp only [Option.some.injEq, Prod.mk.injEq, Except.ok.injEq] at h4
        exact h4.1
    | error t =>
      simp only [settle, Option.some.injEq, Prod.mk.injEq] at h
      have ht : t ≠ Thrown.nullish := fun hn => hx w3 (by rw [hn])
      refine ⟨false, by rw [← h.1]; exact (catchBlock_result t w3).1 ht, ?_⟩
      constructor
      · intro hb; cases hb
      · rintro ⟨w4, h4⟩
        simp at h4

/-- The call completes when the `try` block does. -/
theorem settle_isSome (x : Option (Except Thrown Bool × World)) (h : x.isSome = true) :
    (settle x).isSome = true := by
  cases x with
  | none => cases h
  | some p =>
    obtain ⟨res, w3⟩ := p
    cases res <;> rfl

/-- Unfolding of `generateFromElementWith` when the generator is busy. -/
theorem generateFromElement_busy_unfold
    (gp : Node → Settings → World → Option (Except Thrown JSVal × World)) (env : Env)
    (elementId filename : String) (options : OptionsArg) (w : World)
    (hbusy : w.gen.isGenerating = true) :
    generateFromElementWith gp env elementId filename options w
      = some (Except.ok false, showMessage Notice.alreadyGenerating "warning" w) := by
  unfold generateFromElementWith
  rw [if_pos hbusy]

/-- C4. A call made while `isGenerating` is true returns `false` at once: the only
effect is the warning notification, so the element is neither looked up nor
cloned, nothing is rasterised, `generatePDF` is not called (the result is the
same for every `gp`), and the generator (the flag, which stays true, and all
settings) and the document are unchanged. -/
theorem generateFromElement_busy
    (gp : Node → Settings → World → Option (Except Thrown JSVal × World)) (env : Env)
    (elementId filename : String) (options : OptionsArg) (w : World)
    (hbusy : w.gen.isGenerating = true) :
    generateFromElementWith gp env elementId filename options w
        = some (Except.ok false,
            { w with log := w.log ++ [Call.showMessage Notice.alreadyGenerating "warning"] })
    ∧ w.gen.isGenerating = true := by
  refine ⟨?_, hbusy⟩
  unfold generateFromElementWith
  rw [if_pos hbusy]
  rfl

/-- C4, at a concrete input: the real `generatePDF`, a busy generator. -/
theorem generateFromElement_busy_witness :
    generateFromElement (sampleEnv sampleCanvas) 5 "cert-1" "c.pdf" OptionsArg.undefined
        { sampleWorld with gen := { PDFGenerator.initial with isGenerating := true } }
      = some (Except.ok false,
          { sampleWorld with
            gen := { PDFGenerator.initial with isGenerating := true },
            log := [Call.showMessage Notice.alreadyGenerating "warning"] }) :=
  (generateFromElement_busy (generatePDF (sampleEnv sampleCanvas) 5) (sampleEnv sampleCanvas)
    "cert-1" "c.pdf" OptionsArg.undefined
    { sampleWorld with gen := { PDFGenerator.initial with isGenerating := true } } rfl).1

/-- C5. From the idle state, whenever the call completes the flag is false again,
whatever `generatePDF` did (returned a truthy value, a falsy value, or threw);
and the call completes whenever the awaited `generatePDF` call settles. -/
theorem generateFromElement_clears_flag
    (gp : Node → Settings → World → Option (Except Thrown JSVal × World)) (env : Env)
    (elementId filename : String) (options : OptionsArg) (w : World)
    (hidle : w.gen.isGenerating = false) :
    (∀ r w1, generateFromElementWith gp env elementId filename options w = some (r, w1) →
        w1.gen.isGenerating = false)
    ∧ ((∀ element o, getElementById w.doc elementId = some element →
          resolveOptions options = some o →
          (gp element (mergeSettings (entryWorld w elementId).gen filename o)
            (entryWorld w elementId)).isSome = true) →
        (generateFromElementWith gp env elementId filename options w).isSome = true) := by
  cases hel : getElementById w.doc elementId with
  | none =>
    rw [generateFromElementWith_missing gp env elementId filename options w hidle hel]
    refine ⟨?_, fun _ => rfl⟩
    intro r w1 h
    simp only [Option.some.injEq, Prod.mk.injEq] at h
    rw [← h.2]
    exact hidle
  | some element =>
    rw [generateFromElementWith_found gp env elementId filename options w element hidle hel]
    refine ⟨fun r w1 h => settle_isGenerating _ r w1 h, fun hsettles => ?_⟩
    exact settle_isSome _ (tryBlock_isSome gp env element filename options (entryWorld w elementId)
      (fun o ho => hsettles element o rfl ho))

/-- C5, at a concrete input: the real `generatePDF`, a rasterisation that fails. -/
theorem generateFromElement_clears_flag_witness :
    (generateFromElement renderErrorEnv 5 "cert-1" "c.pdf" OptionsArg.undefined sampleWorld).map
      (fun r => r.2.gen.isGenerating) = some false := by
  have h := generateFromElement_clears_flag (generatePDF renderErrorEnv 5) renderErrorEnv
    "cert-1" "c.pdf" OptionsArg.undefined sampleWorld rfl
  cases hres : generateFromElement renderErrorEnv 5 "cert-1" "c.pdf" OptionsArg.undefined
      sampleWorld with
  | none => exact absurd hres (by decide!)
  | some p =>
    simp only [Option.map_some', Option.some.injEq]
    exact h.1 p.1 p.2 hres

/-- C6 (the code at the failing input). Rasterisation fails on a page with no
temporary export node: the call returns `false` with the flag cleared, and the
clone `pdf-clone-0` created by `prepareElementForPDF` is still attached. -/
theorem generateFromElement_render_error_leaves_clone :
    clones sampleWorld = []
    ∧ (generateFromElement renderErrorEnv 5 "cert-1" "c.pdf" OptionsArg.undefined sampleWorld).map
        (fun r => (r.1, r.2.gen.isGenerating, clones r.2))
      = some (Except.ok false, false,
          [{ handle := 2, id := "pdf-clone-0", kind := NodeKind.clone }]) := by
  decide!

/-- An element that no node of the document names is not found. -/
theorem getElementById_eq_none (doc : List Node) (elementId : String)
    (h : ∀ n ∈ doc, n.id ≠ elementId) : getElementById doc elementId = none := by
  unfold getElementById
  split
  · rfl
  · rw [List.find?_eq_none]
    intro n hn
    simpa using h n hn

/-- C7. In the idle state, an `elementId` that names no element of the document
makes the call return `false`; the only effects are the lookup and the error
notification, so the flag is never set, no clone is created, and `generatePDF`
is not called (the result is the same for every `gp`). -/
theorem generateFromElement_not_found
    (gp : Node → Settings → World → Option (Except Thrown JSVal × World)) (env : Env)
    (elementId filename : String) (options : OptionsArg) (w : World)
    (hidle : w.gen.isGenerating = false) (hmissing : ∀ n ∈ w.doc, n.id ≠ elementId) :
    generateFromElementWith gp env elementId filename options w
      = some (Except.ok false,
          { w with log := w.log ++
              [Call.getElementById elementId,
               Call.showMessage (Notice.elementNotFound elementId) "error"] }) := by
  rw [generateFromElementWith_missing gp env elementId filename options w hidle
    (getElementById_eq_none w.doc elementId hmissing)]
  simp [showMessage, World.record]

/-- C7, at a concrete input: the real `generatePDF`, an id the page does not have. -/
theorem generateFromElement_not_found_witness :
    generateFromElement (sampleEnv sampleCanvas) 5 "cert-2" "c.pdf" OptionsArg.undefined sampleWorld
      = some (Except.ok false,
          { sampleWorld with log :=
              [Call.getElementById "cert-2",
               Call.showMessage (Notice.elementNotFound "cert-2") "error"] }) :=
  generateFromElement_not_found (generatePDF (sampleEnv sampleCanvas) 5) (sampleEnv sampleCanvas)
    "cert-2" "c.pdf" OptionsArg.undefined sampleWorld rfl (by decide)

/-- The `try` block yields `true` exactly when `generatePDF` returned a truthy
value. -/
theorem tryBlock_ok_true (gp : Node → Settings → World → Option (Except Thrown JSVal × World))
    (env : Env) (element : Node) (filename : String) (options : OptionsArg) (w : World) :
    (∃ w3, tryBlock gp env element filename options w = some (Except.ok true, w3))
      ↔ ∃ o v w2, resolveOptions options = some o
          ∧ gp element (mergeSettings w.gen filename o) w = some (Except.ok v, w2)
          ∧ v.truthy = true := by
  cases ho : resolveOptions options with
  | none => simp [tryBlock, ho]
  | some o =>
    cases hgp : gp element (mergeSettings w.gen filename o) w with
    | none => simp [tryBlock, ho, hgp]
    | some p =>
      obtain ⟨r, w1⟩ := p
      cases r with
      | error t => simp [tryBlock, ho, hgp]
      | ok v =>
        cases hv : v.truthy <;> simp [tryBlock, ho, hgp, hv]

/-- An error of the `try` block is the `TypeError` of reading an option of
`null`, or what `generatePDF` threw. -/
theorem tryBlock_error (gp : Node → Settings → World → Option (Except Thrown JSVal × World))
    (env : Env) (element : Node) (filename : String) (options : OptionsArg) (w : World)
    (t : Thrown) (w3 : World)
    (h : tryBlock gp env element filename options w = some (Except.error t, w3)) :
    t = Thrown.typeError
      ∨ ∃ o, resolveOptions options = some o
          ∧ gp element (mergeSettings w.gen filename o) w = some (Except.error t, w3) := by
  cases ho : resolveOptions options with
  | none =>
    simp only [tryBlock, ho, Option.some.injEq, Prod.mk.injEq, Except.error.injEq] at h
    exact Or.inl h.1.symm
  | some o =>
    cases hgp : gp element (mergeSettings w.gen filename o) w with
    | none => simp [tryBlock, ho, hgp] at h
    | some p =>
      obtain ⟨r, w1⟩ := p
      cases r with
      | error t1 =>
        simp only [tryBlock, ho, hgp, Option.some.injEq, Prod.mk.injEq, Except.error.injEq] at h
        exact Or.inr ⟨o, rfl, by rw [hgp, h.1, h.2]⟩
      | ok v =>
        simp only [tryBlock, ho, hgp] at h
        split at h <;> simp at h

/-- What holds of the claim C8: when `generatePDF` does not throw `null` or
`undefined`, a call that completes resolves to a boolean, which is `true`
exactly when `generatePDF` was called and returned a truthy value; and the call
completes whenever the awaited `generatePDF` call settles. -/
theorem generateFromElement_resolves
    (gp : Node → Settings → World → Option (Except Thrown JSVal × World)) (env : Env)
    (elementId filename : String) (options : OptionsArg) (w : World)
    (hgp : ∀ element settings w0 w2,
      gp element settings w0 ≠ some (Except.error Thrown.nullish, w2)) :
    (∀ r w1, generateFromElementWith gp env elementId filename options w = some (r, w1) →
      ∃ b, r = Except.ok b ∧
        (b = true ↔ w.gen.isGenerating = false ∧
          ∃ element o v w2, getElementById w.doc elementId = some element
            ∧ resolveOptions options = some o
            ∧ gp element (mergeSettings (entryWorld w elementId).gen filename o)
                (entryWorld w elementId) = some (Except.ok v, w2)
            ∧ v.truthy = true))
    ∧ ((∀ element o, getElementById w.doc elementId = some element →
          resolveOptions options = some o →
          (gp element (mergeSettings (entryWorld w elementId).gen filename o)
            (entryWorld w elementId)).isSome = true) →
        (generateFromElementWith gp env elementId filename options w).isSome = true) := by
  cases hgen : w.gen.isGenerating with
  | true =>
    rw [(generateFromElement_busy_unfold gp env elementId filename options w hgen)]
    refine ⟨?_, fun _ => rfl⟩
    intro r w1 h
    simp only [Option.some.injEq, Prod.mk.injEq] at h
    exact ⟨false, h.1.symm, by simp⟩
  | false =>
    cases hel : getElementById w.doc elementId with
    | none =>
      rw [generateFromElementWith_missing gp env elementId filename options w hgen hel]
      refine ⟨?_, fun _ => rfl⟩
      intro r w1 h
      simp only [Option.some.injEq, Prod.mk.injEq] at h
      exact ⟨false, h.1.symm, by simp⟩
    | some element =>
      rw [generateFromElementWith_found gp env elementId filename options w element hgen hel]
      constructor
      · intro r w1 h
        have hx : ∀ w3, tryBlock gp env element filename options (entryWorld w elementId)
            ≠ some (Except.error Thrown.nullish, w3) := by
          intro w3 htry
          rcases tryBlock_error gp env element filename options _ _ _ htry with ht | ⟨o, _, hthrow⟩
          · cases ht
          · exact hgp _ _ _ _ hthrow
        obtain ⟨b, hb, hiff⟩ := settle_ok _ r w1 hx h
        refine ⟨b, hb, ?_⟩
        rw [hiff, tryBlock_ok_true]
        simp
      · intro hsettles
        exact settle_isSome _ (tryBlock_isSome gp env element filename options
          (entryWorld w elementId) (fun o ho => hsettles element o rfl ho))

/-- C8 (the code at the failing input). Rasterisation is rejected with
`undefined`: `generatePDF` throws `undefined`, the `catch` block of
`generateFromElement` logs it and then throws a `TypeError` on reading
`error.message`, and after the `finally` block (flag cleared, loader hidden)
the call throws that `TypeError` instead of resolving to `false`; no error
notification is shown. -/
theorem generateFromElement_throws_on_empty_rejection :
    (generatePDF emptyRejectionEnv 5 { handle := 0, id := "cert-1", kind := NodeKind.page }
        sampleSettings sampleWorld).map (fun r => r.1)
      = some (Except.error Thrown.nullish)
    ∧ (generateFromElement emptyRejectionEnv 5 "cert-1" "c.pdf" OptionsArg.undefined
        sampleWorld).map (fun r => (r.1, r.2.gen.isGenerating))
      = some (Except.error Thrown.typeError, false)
    ∧ (generateFromElement emptyRejectionEnv 5 "cert-1" "c.pdf" OptionsArg.undefined
        sampleWorld).map
        (fun r => r.2.log.filter (fun c => match c with
          | Call.consoleError _ => true
          | Call.showMessage _ _ => true
          | _ => false))
      = some [Call.consoleError Thrown.nullish] := by
  decide!

/-! ## Persisted preferences -/

/-- C9. When the preferences key is missing, or holds a string that is not valid
JSON, `loadSettings` returns normally and changes no field of the generator; run
by the constructor, it leaves the built-in defaults `high`, `portrait`, `a4`. -/
theorem loadSettings_keeps_defaults (env : Env) (w : World)
    (h : getItem w.storage "stm_pdf_settings" = none
      ∨ ∃ saved, getItem w.storage "stm_pdf_settings" = some saved ∧ env.jsonParse saved = none) :
    (∃ w1, loadSettings env w = Except.ok w1 ∧ w1.gen = w.gen)
    ∧ (∃ w2, PDFGenerator.constructor env w = Except.ok w2
        ∧ w2.gen.pdfQuality = JSVal.str "high"
        ∧ w2.gen.pageOrientation = JSVal.str "portrait"
        ∧ w2.gen.pageSize = JSVal.str "a4") := by
  have key : ∀ w0 : World, w0.storage = w.storage →
      ∃ w1, loadSettings env w0 = Except.ok w1 ∧ w1.gen = w0.gen := by
    intro w0 hs
    unfold loadSettings loadSettingsTry
    cases env.storageThrows with
    | some t => exact ⟨_, rfl, rfl⟩
    | none =>
      rw [hs]
      rcases h with h | ⟨saved, h, hp⟩
      · rw [h]; exact ⟨_, rfl, rfl⟩
      · rw [h]
        by_cases he : saved = ""
        · simp [he]
        · simp [he, hp, World.record]
  refine ⟨key w rfl, ?_⟩
  obtain ⟨w2, h2, hg⟩ := key { w with gen := PDFGenerator.initial } rfl
  refine ⟨w2, h2, ?_⟩
  rw [hg]
  exact ⟨rfl, rfl, rfl⟩

/-- C9, at a concrete input: the key holds a string the parser rejects. -/
theorem loadSettings_keeps_defaults_witness :
    (PDFGenerator.constructor (sampleEnv sampleCanvas)
        { sampleWorld with storage := [("stm_pdf_settings", "quality=high")] }).toOption.map
      (fun w => (w.gen.pdfQuality, w.gen.pageOrientation, w.gen.pageSize))
      = some (JSVal.str "high", JSVal.str "portrait", JSVal.str "a4") := by
  obtain ⟨w2, h2, hq, ho, hp⟩ := (loadSettings_keeps_defaults (sampleEnv sampleCanvas)
    { sampleWorld with storage := [("stm_pdf_settings", "quality=high")] }
    (Or.inr ⟨"quality=high", by decide, rfl⟩)).2
  rw [h2]
  simp [Except.toOption, hq, ho, hp]

/-! ## The single-page branch -/

/-- Unfolding of `generatePDF` up to the rasterisation, for a page size of the
table and a `quality` that is not `undefined`. -/
theorem generatePDF_unfold (env : Env) (fuel : ℕ) (element : Node) (settings : Settings)
    (w : World) (pageSize : PageSize)
    (hlib : env.jspdfLoaded = true)
    (hsize : lookup pageSizes settings.pageSize = Lookup.own pageSize)
    (hnew : env.newJsPDF (orientationArg settings) (some pageSize.unit) settings.pageSize = none)
    (hquality : lookup qualitySettings settings.quality ≠ Lookup.missing) :
    generatePDF env fuel element settings w
      = rasterizeAndSave env fuel (Lookup.own pageSize) (lookup qualitySettings settings.quality)
          { orientation := orientationArg settings, unit := some pageSize.unit,
            format := settings.pageSize, ops := [] }
          (exportClone env w) settings
          { w with doc := w.doc ++ [exportClone env w], nextHandle := w.nextHandle + 1 } := by
  cases hq : lookup qualitySettings settings.quality with
  | missing => exact absurd hq hquality
  | own q => simp [generatePDF, hlib, hsize, hnew, hq, unitOf, prepareElementForPDF]
  | inherited => simp [generatePDF, hlib, hsize, hnew, hq, unitOf, prepareElementForPDF]

/-- The log after `saveAndCleanUp`: one more call, the `save`. -/
theorem saveAndCleanUp_log (env : Env) (settings : Settings) (clone : Node) (pdf : Pdf)
    (w : World) :
    (saveAndCleanUp env settings clone pdf w).2.log = w.log ++ [Call.save settings.filename pdf] := by
  unfold saveAndCleanUp
  cases env.save settings.filename pdf <;> rfl

/-- C3. When the scaled content height `H` is at most the printable height `P`,
`generatePDF` builds, for every amount of fuel (the loop is never entered), a
document whose only call is one `addImage` of the whole raster at `(margin,
margin)`, of width `imgWidth` and height `H`: one page and no `Page N` footer,
whatever `showPageNumbers` is. That document is the one handed to `pdf.save`,
and the method returns `true` unless `pdf.save` throws. -/
theorem generatePDF_single_page (env : Env) (fuel : ℕ) (element : Node) (settings : Settings)
    (w : World) (pageSize : PageSize) (canvas : Canvas)
    (hlib : env.jspdfLoaded = true)
    (hsize : lookup pageSizes settings.pageSize = Lookup.own pageSize)
    (hnew : env.newJsPDF (orientationArg settings) (some pageSize.unit) settings.pageSize = none)
    (hquality : lookup qualitySettings settings.quality ≠ Lookup.missing)
    (hcanvas : env.html2canvas (exportClone env w)
      (scaleOf (lookup qualitySettings settings.quality)) = Except.ok canvas)
    (hfit : (canvas.height : ℚ) * (pageSize.width - settings.margin * 2) / canvas.width
      ≤ pageSize.height - settings.margin * 2) :
    ∃ pdf r w1, generatePDF env fuel element settings w = some (r, w1)
      ∧ w1.log = w.log ++
          [Call.html2canvas (exportClone env w) (scaleOf (lookup qualitySettings settings.quality)),
           Call.save settings.filename pdf]
      ∧ pdf.ops = [PdfOp.addImage settings.margin settings.margin
          (pageSize.width - settings.margin * 2)
          (canvas.height * (pageSize.width - settings.margin * 2) / canvas.width)]
      ∧ pdf.pageCount = 1
      ∧ (env.save settings.filename pdf = none → r = Except.ok (JSVal.bool true)) := by
  rw [generatePDF_unfold env fuel element settings w pageSize hlib hsize hnew hquality]
  simp only [rasterizeAndSave, hcanvas, paginate, hfit, if_true, List.nil_append]
  refine ⟨{ orientation := orientationArg settings, unit := some pageSize.unit,
            format := settings.pageSize,
            ops := [PdfOp.addImage settings.margin settings.margin
              (pageSize.width - settings.margin * 2)
              (canvas.height * (pageSize.width - settings.margin * 2) / canvas.width)] },
    _, _, rfl, ?_, rfl, rfl, ?_⟩
  · exact (saveAndCleanUp_log env settings (exportClone env w) _ _).trans
      (by simp [World.record])
  · intro hsave
    simp only [saveAndCleanUp, hsave]

/-- C3, at a concrete input: a default export of a raster 170 by 200 pixels
(`H = 200`, `P = 257`), page numbering disabled. -/
theorem generatePDF_single_page_witness :
    ∃ pdf r w1,
      generatePDF (sampleEnv shortCanvas) 0 { handle := 0, id := "cert-1", kind := NodeKind.page }
        { sampleSettings with showPageNumbers := JSVal.bool false } sampleWorld = some (r, w1)
      ∧ w1.log = sampleWorld.log ++
          [Call.html2canvas (exportClone (sampleEnv shortCanvas) sampleWorld) (some 2),
           Call.save (JSVal.str "c.pdf") pdf]
      ∧ pdf.ops = [PdfOp.addImage 20 20 (210 - 20 * 2) (200 * (210 - 20 * 2) / 170)]
      ∧ pdf.pageCount = 1
      ∧ ((sampleEnv shortCanvas).save (JSVal.str "c.pdf") pdf = none →
          r = Except.ok (JSVal.bool true)) := by
  have h := generatePDF_single_page (sampleEnv shortCanvas) 0
    { handle := 0, id := "cert-1", kind := NodeKind.page }
    { sampleSettings with showPageNumbers := JSVal.bool false } sampleWorld
    { width := 210, height := 297, unit := "mm" } shortCanvas rfl (by decide!) rfl (by decide!)
    rfl (by decide!)
  simpa [sampleSettings, mergeSettings, shortCanvas] using h

/-! ## The name the file is saved under -/

/-- Recording a call that is not a `save` does not change the saved names. -/
theorem savedNames_record (w : World) (c : Call) :
    savedNames (w.record c) = savedNames w ++
      (match c with
        | Call.save name _ => [name]
        | _ => []) := by
  unfold savedNames World.record
  rw [List.filterMap_append]
  cases c <;> rfl

/-- The loader does not touch the log. -/
theorem showLoading_log (b : Bool) (w : World) : (showLoading b w).log = w.log := by
  unfold showLoading
  split <;> rfl

/-- The saved names depend on the log only. -/
theorem savedNames_congr (w w1 : World) (h : w1.log = w.log) : savedNames w1 = savedNames w := by
  unfold savedNames
  rw [h]

/-- The `finally` block saves nothing. -/
theorem savedNames_finallyBlock (w : World) : savedNames (finallyBlock w) = savedNames w :=
  savedNames_congr _ _ (showLoading_log _ _)

/-- The state in which the `try` block starts has the saved names of the state
before the call. -/
theorem savedNames_entryWorld (w : World) (elementId : String) :
    savedNames (entryWorld w elementId) = savedNames w := by
  have h : (entryWorld w elementId).log = (w.record (Call.getElementById elementId)).log :=
    showLoading_log _ _
  rw [savedNames_congr _ _ h, savedNames_record]
  simp

/-- The `catch` block saves nothing. -/
theorem savedNames_catchBlock (t : Thrown) (w : World) :
    savedNames (catchBlock t w).2 = savedNames w := by
  cases t <;> simp [catchBlock, showMessage, savedNames_record]

/-- What `generatePDF` saves: nothing when it throws before `pdf.save`, and
otherwise one file, named `settings.filename`. It never returns normally
without having saved. -/
theorem generatePDF_savedNames (env : Env) (fuel : ℕ) (element : Node) (settings : Settings)
    (w : World) (r : Except Thrown JSVal) (w1 : World)
    (h : generatePDF env fuel element settings w = some (r, w1)) :
    ((∃ t, r = Except.error t) ∧ savedNames w1 = savedNames w)
      ∨ savedNames w1 = savedNames w ++ [settings.filename] := by
  have hras : ∀ (ps : Lookup PageSize) (q : Lookup QualitySetting) (pdf : Pdf) (clone : Node)
      (w0 : World), savedNames w0 = savedNames w →
      rasterizeAndSave env fuel ps q pdf clone settings w0 = some (r, w1) →
      ((∃ t, r = Except.error t) ∧ savedNames w1 = savedNames w)
        ∨ savedNames w1 = savedNames w ++ [settings.filename] := by
    intro ps q pdf clone w0 hw0 hr
    have hw2 : savedNames (w0.record (Call.html2canvas clone (scaleOf q))) = savedNames w := by
      rw [savedNames_record, hw0]; simp
    unfold rasterizeAndSave at hr
    cases hc : env.html2canvas clone (scaleOf q) with
    | error t =>
      simp only [hc, Option.some.injEq, Prod.mk.injEq] at hr
      exact Or.inl ⟨⟨t, hr.1.symm⟩, by rw [← hr.2]; exact hw2⟩
    | ok canvas =>
      simp only [hc] at hr
      cases hp : paginate fuel ps pdf canvas settings with
      | none => simp [hp] at hr
      | some x =>
        cases x with
        | error t =>
          simp only [hp, Option.some.injEq, Prod.mk.injEq] at hr
          exact Or.inl ⟨⟨t, hr.1.symm⟩, by rw [← hr.2]; exact hw2⟩
        | ok pdf1 =>
          simp only [hp, Option.some.injEq] at hr
          right
          have hl := saveAndCleanUp_log env settings clone pdf1
            (w0.record (Call.html2canvas clone (scaleOf q)))
          rw [hr] at hl
          have : savedNames w1
              = savedNames ((w0.record (Call.html2canvas clone (scaleOf q))).record
                  (Call.save settings.filename pdf1)) := savedNames_congr _ _ hl
          rw [this, savedNames_record, hw2]
  unfold generatePDF at h
  split at h
  · simp only [Option.some.injEq, Prod.mk.injEq] at h
    exact Or.inl ⟨⟨_, h.1.symm⟩, by rw [h.2]⟩
  · split at h
    · simp only [Option.some.injEq, Prod.mk.injEq] at h
      exact Or.inl ⟨⟨_, h.1.symm⟩, by rw [h.2]⟩
    · split at h
      · simp only [Option.some.injEq, Prod.mk.injEq] at h
        exact Or.inl ⟨⟨_, h.1.symm⟩, by rw [h.2]⟩
      · split at h
        · simp only [Option.some.injEq, Prod.mk.injEq] at h
          exact Or.inl ⟨⟨_, h.1.symm⟩, by rw [h.2]⟩
        · rename_i clone w0 hprep
          have hw0 : savedNames w0 = savedNames w := by
            unfold prepareElementForPDF at hprep
            split at hprep
            · cases hprep
            · simp only [Except.ok.injEq, Prod.mk.injEq] at hprep
              rw [← hprep.2]
              rfl
          simp only [] at h
          cases hq : lookup qualitySettings settings.quality with
          | missing =>
            simp only [hq, Option.some.injEq, Prod.mk.injEq] at h
            exact Or.inl ⟨⟨_, h.1.symm⟩, by rw [← h.2]; exact hw0⟩
          | own q =>
            simp only [hq] at h
            exact hras _ _ _ _ _ hw0 h
          | inherited =>
            simp only [hq] at h
            exact hras _ _ _ _ _ hw0 h

/-- C10 (counterexample). Called with the filename `c.pdf` and the options
`{ filename: "other.pdf" }`, the export succeeds and the one file it saves is
named `other.pdf`, not `c.pdf`. -/
theorem generateFromElement_saves_under_options_filename :
    (generateFromElement (sampleEnv shortCanvas) 5 "cert-1" "c.pdf"
        (OptionsArg.object { Options.empty with filename := some (JSVal.str "other.pdf") })
        sampleWorld).map (fun r => (r.1, savedNames r.2))
      = some (Except.ok true, [JSVal.str "other.pdf"])
    ∧ savedNames sampleWorld = []
    ∧ JSVal.str "other.pdf" ≠ JSVal.str "c.pdf" := by
  decide!

/-- C10 (amended). A call of `generateFromElement` that completes either returns
`false` (or throws the `TypeError` of its `catch` block) without having saved
anything, or has called `pdf.save` exactly once, and then under the name
`options.filename` when the options object has a `filename` property, and under
the `filename` parameter otherwise. A call that returns `true` is of the second
kind. -/
theorem generateFromElement_saved_name (env : Env) (fuel : ℕ) (elementId filename : String)
    (options : OptionsArg) (w : World) (r : Except Thrown Bool) (w1 : World)
    (h : generateFromElement env fuel elementId filename options w = some (r, w1)) :
    ((r = Except.ok false ∨ r = Except.error Thrown.typeError)
        ∧ savedNames w1 = savedNames w)
      ∨ ∃ o, resolveOptions options = some o
          ∧ savedNames w1 = savedNames w ++ [o.filename.getD (JSVal.str filename)] := by
  unfold generateFromElement at h
  cases hgen : w.gen.isGenerating with
  | true =>
    rw [generateFromElement_busy_unfold _ env elementId filename options w hgen] at h
    simp only [Option.some.injEq, Prod.mk.injEq] at h
    refine Or.inl ⟨Or.inl h.1.symm, ?_⟩
    rw [← h.2, showMessage, savedNames_record]
    simp
  | false =>
    cases hel : getElementById w.doc elementId with
    | none =>
      rw [generateFromElementWith_missing _ env elementId filename options w hgen hel] at h
      simp only [Option.some.injEq, Prod.mk.injEq] at h
      refine Or.inl ⟨Or.inl h.1.symm, ?_⟩
      rw [← h.2, showMessage, savedNames_record, savedNames_record]
      simp
    | some element =>
      rw [generateFromElementWith_found _ env elementId filename options w element hgen hel] at h
      cases ho : resolveOptions options with
      | none =>
        simp only [tryBlock, ho, settle, Option.some.injEq, Prod.mk.injEq] at h
        refine Or.inl ⟨by rw [← h.1]; exact (catchBlock_result _ _).2.2, ?_⟩
        rw [← h.2, savedNames_finallyBlock, savedNames_catchBlock, savedNames_entryWorld]
      | some o =>
        cases hgp : generatePDF env fuel element
            (mergeSettings (entryWorld w elementId).gen filename o) (entryWorld w elementId) with
        | none => simp [tryBlock, ho, hgp, settle] at h
        | some p =>
          obtain ⟨res, w3⟩ := p
          have hsaved := generatePDF_savedNames env fuel element _ _ res w3 hgp
          rw [savedNames_entryWorld] at hsaved
          have hname : (mergeSettings (entryWorld w elementId).gen filename o).filename
              = o.filename.getD (JSVal.str filename) := rfl
          rw [hname] at hsaved
          cases res with
          | error t =>
            simp only [tryBlock, ho, hgp, settle, Option.some.injEq, Prod.mk.injEq] at h
            have hw1 : savedNames w1 = savedNames w3 := by
              rw [← h.2, savedNames_finallyBlock, savedNames_catchBlock]
            rcases hsaved with ⟨_, hs⟩ | hs
            · exact Or.inl ⟨by rw [← h.1]; exact (catchBlock_result _ _).2.2, by rw [hw1, hs]⟩
            · exact Or.inr ⟨o, rfl, by rw [hw1, hs]⟩
          | ok v =>
            have hs : savedNames w3 = savedNames w ++ [o.filename.getD (JSVal.str filename)] := by
              rcases hsaved with ⟨⟨t, ht⟩, _⟩ | hs
              · cases ht
              · exact hs
            refine Or.inr ⟨o, rfl, ?_⟩
            cases hv : v.truthy with
            | false =>
              simp only [tryBlock, ho, hgp, hv, settle, Bool.false_eq_true, if_false,
                Option.some.injEq, Prod.mk.injEq] at h
              rw [← h.2, savedNames_finallyBlock, showMessage, savedNames_record, hs]
              simp
            | true =>
              simp only [tryBlock, ho, hgp, hv, settle, if_true,
                Option.some.injEq, Prod.mk.injEq] at h
              rw [← h.2, savedNames_finallyBlock]
              cases env.gtagDefined with
              | false =>
                simp only [Bool.false_eq_true, if_false]
                rw [showMessage, savedNames_record, hs]
                simp
              | true =>
                simp only [if_true]
                rw [savedNames_record, showMessage, savedNames_record, hs]
                simp

/-- C10 (amended), at a concrete input: no `filename` among the options, so the
file is saved under the `filename` parameter. -/
theorem generateFromElement_saved_name_witness :
    ∃ r w1, generateFromElement (sampleEnv shortCanvas) 5 "cert-1" "c.pdf"
        (OptionsArg.object { Options.empty with margin := some 10 }) sampleWorld = some (r, w1)
      ∧ savedNames w1 = [JSVal.str "c.pdf"] := by
  cases hres : generateFromElement (sampleEnv shortCanvas) 5 "cert-1" "c.pdf"
      (OptionsArg.object { Options.empty with margin := some 10 }) sampleWorld with
  | none => exact absurd hres (by decide!)
  | some p =>
    refine ⟨p.1, p.2, rfl, ?_⟩
    have hok : (generateFromElement (sampleEnv shortCanvas) 5 "cert-1" "c.pdf"
        (OptionsArg.object { Options.empty with margin := some 10 }) sampleWorld).map
        (fun r => r.1) = some (Except.ok true) := by decide!
    rw [hres] at hok
    simp only [Option.map_some', Option.some.injEq] at hok
    rcases generateFromElement_saved_name (sampleEnv shortCanvas) 5 "cert-1" "c.pdf"
      (OptionsArg.object { Options.empty with margin := some 10 }) sampleWorld p.1 p.2 hres
      with ⟨hr, _⟩ | ⟨o, ho, hs⟩
    · rw [hok] at hr
      rcases hr with hr | hr <;> cases hr
    · cases ho
      exact hs

/-! ## The pagination loop -/

/-- The bands of a completed loop are the bands `BandsFrom` describes, appended
to the ones collected before. -/
theorem multiPageLoop_bands (canvas : Canvas) (imgWidth imgHeight maxHeight : ℚ)
    (settings : Settings) :
    ∀ (fuel : ℕ) (currentY : ℚ) (pageNumber : ℕ) (pdf : Pdf) (bands : List Band) (pdf1 : Pdf)
      (bands1 : List Band),
      multiPageLoop canvas imgWidth imgHeight maxHeight settings fuel currentY pageNumber pdf bands
        = some (Except.ok (pdf1, bands1)) →
      ∃ new, bands1 = bands ++ new
        ∧ BandsFrom canvas imgWidth imgHeight maxHeight settings currentY pageNumber new := by
  intro fuel
  induction fuel with
  | zero =>
    intro currentY pageNumber pdf bands pdf1 bands1 h
    unfold multiPageLoop at h
    by_cases hc : currentY < imgHeight
    · simp [hc] at h
    · simp only [hc, if_false, Option.some.injEq, Except.ok.injEq, Prod.mk.injEq] at h
      exact ⟨[], by simp [h.2], hc⟩
  | succ fuel ih =>
    intro currentY pageNumber pdf bands pdf1 bands1 h
    unfold multiPageLoop at h
    by_cases hc : currentY < imgHeight
    · simp only [hc, if_true] at h
      by_cases hs : settings.showPageNumbers ≠ JSVal.bool false
      · simp only [if_pos hs] at h
        split at h
        · simp at h
        · obtain ⟨new, hnew, hfrom⟩ := ih _ _ _ _ _ _ h
          exact ⟨_ :: new, by simp [hnew], hc, rfl, hfrom⟩
      · simp only [if_neg hs] at h
        obtain ⟨new, hnew, hfrom⟩ := ih _ _ _ _ _ _ h
        exact ⟨_ :: new, by simp [hnew], hc, rfl, hfrom⟩
    · simp only [hc, if_false, Option.some.injEq, Except.ok.injEq, Prod.mk.injEq] at h
      exact ⟨[], by simp [h.2], hc⟩

/-- With a positive printable height every band is at least a sliver and at
most a page high. -/
theorem BandsFrom_cropHeight (canvas : Canvas) (imgWidth imgHeight maxHeight : ℚ)
    (settings : Settings) (hP : 0 < maxHeight) :
    ∀ (new : List Band) (currentY : ℚ) (pageNumber : ℕ),
      BandsFrom canvas imgWidth imgHeight maxHeight settings currentY pageNumber new →
      ∀ b ∈ new, 0 < b.cropHeight ∧ b.cropHeight ≤ maxHeight := by
  intro new
  induction new with
  | nil => intro _ _ _ b hb; cases hb
  | cons a rest ih =>
    intro currentY pageNumber h b hb
    obtain ⟨hc, ha, hrest⟩ := h
    rcases List.mem_cons.mp hb with hba | hbr
    · rw [hba, ha]
      exact ⟨lt_min hP (by linarith), min_le_left _ _⟩
    · exact ih _ _ hrest b hbr

/-- A band that is followed by another one is a full page high. -/
theorem BandsFrom_dropLast (canvas : Canvas) (imgWidth imgHeight maxHeight : ℚ)
    (settings : Settings) :
    ∀ (new : List Band) (currentY : ℚ) (pageNumber : ℕ),
      BandsFrom canvas imgWidth imgHeight maxHeight settings currentY pageNumber new →
      ∀ b ∈ new.dropLast, b.cropHeight = maxHeight := by
  intro new
  induction new with
  | nil => intro _ _ _ b hb; cases hb
  | cons a rest ih =>
    intro currentY pageNumber h b hb
    obtain ⟨hc, ha, hrest⟩ := h
    cases rest with
    | nil => simp at hb
    | cons a2 rest2 =>
      rw [List.dropLast_cons₂] at hb
      rcases List.mem_cons.mp hb with hba | hbr
      · have hnext := hrest.1
        rw [hba, ha]
        apply min_eq_left
        by_contra hlt
        push_neg at hlt
        rw [min_eq_right hlt.le] at hnext
        linarith
      · exact ih _ _ hrest b hbr

/-- The bands carry consecutive page numbers. -/
theorem BandsFrom_pageNumbers (canvas : Canvas) (imgWidth imgHeight maxHeight : ℚ)
    (settings : Settings) :
    ∀ (new : List Band) (currentY : ℚ) (pageNumber : ℕ),
      BandsFrom canvas imgWidth imgHeight maxHeight settings currentY pageNumber new →
      new.map (fun b => b.pageNumber) = List.range' pageNumber new.length := by
  intro new
  induction new with
  | nil => intro _ _ _; rfl
  | cons a rest ih =>
    intro currentY pageNumber h
    obtain ⟨hc, ha, hrest⟩ := h
    rw [List.map_cons, List.length_cons, List.range'_succ, ih _ _ hrest, ha]

/-- Each band starts at the offset the bands before it add up to, and the loop
is left at an offset that is not below the content height. -/
theorem BandsFrom_offsets (canvas : Canvas) (imgWidth imgHeight maxHeight : ℚ)
    (settings : Settings) :
    ∀ (new : List Band) (currentY : ℚ) (pageNumber : ℕ),
      BandsFrom canvas imgWidth imgHeight maxHeight settings currentY pageNumber new →
      (∀ (i : ℕ) (h : i < new.length),
          (new.get ⟨i, h⟩).currentY
            = currentY + ((new.take i).map (fun b => b.cropHeight)).sum)
      ∧ imgHeight ≤ currentY + (new.map (fun b => b.cropHeight)).sum := by
  intro new
  induction new with
  | nil =>
    intro currentY pageNumber h
    refine ⟨fun i hi => absurd hi (by simp), ?_⟩
    have : ¬ currentY < imgHeight := h
    simpa using not_lt.mp this
  | cons a rest ih =>
    intro currentY pageNumber h
    obtain ⟨hc, ha, hrest⟩ := h
    obtain ⟨ih1, ih2⟩ := ih _ _ hrest
    have hcrop : a.cropHeight = min maxHeight (imgHeight - currentY) := by rw [ha]
    constructor
    · intro i hi
      cases i with
      | zero => simp [ha]
      | succ j =>
        have hj : j < rest.length := by simpa using hi
        have := ih1 j hj
        simp only [List.get_cons_succ, List.take_succ_cons, List.map_cons, List.sum_cons]
        rw [this, hcrop]
        ring
    · simp only [List.map_cons, List.sum_cons]
      rw [hcrop]
      linarith

/-- With a page size of the table, `addPageNumber` appends the footer. -/
theorem addPageNumber_own (pdf : Pdf) (pageNumber : ℕ) (settings : Settings) (pageSize : PageSize)
    (hsize : lookup pageSizes settings.pageSize = Lookup.own pageSize) :
    addPageNumber pdf pageNumber settings
      = Except.ok { pdf with ops := pdf.ops ++
          [PdfOp.setFontSize 10, PdfOp.setTextColor 100 100 100,
           PdfOp.text ("Page " ++ toString pageNumber) (pageSize.width / 2)
             (pageSize.height - 10)] } := by
  simp only [addPageNumber, hsize]

/-- One iteration of the loop, for a page size of the table: the band is
collected and its calls are appended to the document. -/
theorem multiPageLoop_step (canvas : Canvas) (imgWidth imgHeight maxHeight : ℚ)
    (settings : Settings) (pageSize : PageSize)
    (hsize : lookup pageSizes settings.pageSize = Lookup.own pageSize)
    (fuel : ℕ) (currentY : ℚ) (pageNumber : ℕ) (pdf : Pdf) (bands : List Band)
    (hc : currentY < imgHeight) :
    multiPageLoop canvas imgWidth imgHeight maxHeight settings (fuel + 1) currentY pageNumber
        pdf bands
      = multiPageLoop canvas imgWidth imgHeight maxHeight settings fuel
          (currentY + min maxHeight (imgHeight - currentY)) (pageNumber + 1)
          (pdf.append (bandOps settings pageSize imgWidth
            (bandAt canvas imgWidth imgHeight maxHeight settings currentY pageNumber)))
          (bands ++ [bandAt canvas imgWidth imgHeight maxHeight settings currentY pageNumber]) := by
  rw [multiPageLoop]
  simp only [hc, if_true]
  by_cases hs : settings.showPageNumbers ≠ JSVal.bool false
  · simp only [if_pos hs, addPageNumber_own _ _ _ _ hsize]
    by_cases hp : pageNumber > 1 <;>
      simp [bandOps, bandAt, footerOps, Pdf.append, hs, hp, List.append_assoc]
  · simp only [if_neg hs]
    by_cases hp : pageNumber > 1 <;>
      simp [bandOps, bandAt, footerOps, Pdf.append, hs, hp, List.append_assoc]

/-- The calls a completed loop has made on the document are, band by band, the
calls `bandOps` lists. -/
theorem multiPageLoop_ops (canvas : Canvas) (imgWidth imgHeight maxHeight : ℚ)
    (settings : Settings) (pageSize : PageSize)
    (hsize : lookup pageSizes settings.pageSize = Lookup.own pageSize) :
    ∀ (fuel : ℕ) (currentY : ℚ) (pageNumber : ℕ) (pdf : Pdf) (bands : List Band) (pdf1 : Pdf)
      (bands1 : List Band),
      multiPageLoop canvas imgWidth imgHeight maxHeight settings fuel currentY pageNumber pdf bands
        = some (Except.ok (pdf1, bands1)) →
      ∃ new, bands1 = bands ++ new
        ∧ pdf1 = pdf.append ((new.map (bandOps settings pageSize imgWidth)).flatten) := by
  intro fuel
  induction fuel with
  | zero =>
    intro currentY pageNumber pdf bands pdf1 bands1 h
    unfold multiPageLoop at h
    by_cases hc : currentY < imgHeight
    · simp [hc] at h
    · simp only [hc, if_false, Option.some.injEq, Except.ok.injEq, Prod.mk.injEq] at h
      exact ⟨[], by simp [h.2], by simp [Pdf.append, h.1]⟩
  | succ fuel ih =>
    intro currentY pageNumber pdf bands pdf1 bands1 h
    by_cases hc : currentY < imgHeight
    · rw [multiPageLoop_step canvas imgWidth imgHeight maxHeight settings pageSize hsize fuel
        currentY pageNumber pdf bands hc] at h
      obtain ⟨new, hnew, hops⟩ := ih _ _ _ _ _ _ h
      refine ⟨bandAt canvas imgWidth imgHeight maxHeight settings currentY pageNumber :: new,
        by simp [hnew], ?_⟩
      rw [hops]
      simp [Pdf.append, List.append_assoc]
    · unfold multiPageLoop at h
      simp only [hc, if_false, Option.some.injEq, Except.ok.injEq, Prod.mk.injEq] at h
      exact ⟨[], by simp [h.2], by simp [Pdf.append, h.1]⟩

/-- Without a page size of the table, `addPageNumber` throws. -/
theorem addPageNumber_not_own (pageNumber : ℕ) (settings : Settings)
    (hsize : ¬ ∃ pageSize, lookup pageSizes settings.pageSize = Lookup.own pageSize) :
    ∃ t, ∀ pdf, addPageNumber pdf pageNumber settings = Except.error t := by
  cases hl : lookup pageSizes settings.pageSize with
  | own pageSize => exact absurd ⟨pageSize, hl⟩ hsize
  | inherited => exact ⟨Thrown.external none, fun pdf => by simp only [addPageNumber, hl]⟩
  | missing => exact ⟨Thrown.typeError, fun pdf => by simp only [addPageNumber, hl]⟩

/-- With a positive printable height the loop finishes within any fuel that
covers the remaining height page by page; it finishes normally when no footer is
asked for or the page size is one of the table. -/
theorem multiPageLoop_terminates (canvas : Canvas) (imgWidth imgHeight maxHeight : ℚ)
    (settings : Settings) (hP : 0 < maxHeight) :
    ∀ (fuel : ℕ) (currentY : ℚ) (pageNumber : ℕ) (pdf : Pdf) (bands : List Band),
      imgHeight - currentY ≤ fuel * maxHeight →
      ∃ r, multiPageLoop canvas imgWidth imgHeight maxHeight settings fuel currentY pageNumber
            pdf bands = some r
        ∧ ((settings.showPageNumbers = JSVal.bool false
              ∨ ∃ pageSize, lookup pageSizes settings.pageSize = Lookup.own pageSize) →
            ∃ x, r = Except.ok x) := by
  intro fuel
  induction fuel with
  | zero =>
    intro currentY pageNumber pdf bands hfuel
    have hc : ¬ currentY < imgHeight := by
      simp only [Nat.cast_zero, zero_mul] at hfuel
      intro hlt
      linarith
    unfold multiPageLoop
    simp only [hc, if_false]
    exact ⟨_, rfl, fun _ => ⟨_, rfl⟩⟩
  | succ fuel ih =>
    intro currentY pageNumber pdf bands hfuel
    by_cases hc : currentY < imgHeight
    · have hnext : imgHeight - (currentY + min maxHeight (imgHeight - currentY))
          ≤ fuel * maxHeight := by
        rcases le_total maxHeight (imgHeight - currentY) with hle | hle
        · rw [min_eq_left hle]
          push_cast at hfuel
          linarith
        · rw [min_eq_right hle]
          have : (0 : ℚ) ≤ fuel * maxHeight := mul_nonneg (Nat.cast_nonneg _) hP.le
          linarith
      by_cases hown : ∃ pageSize, lookup pageSizes settings.pageSize = Lookup.own pageSize
      · obtain ⟨pageSize, hsize⟩ := hown
        rw [multiPageLoop_step canvas imgWidth imgHeight maxHeight settings pageSize hsize fuel
          currentY pageNumber pdf bands hc]
        exact ih _ _ _ _ hnext
      · unfold multiPageLoop
        simp only [hc, if_true]
        by_cases hs : settings.showPageNumbers ≠ JSVal.bool false
        · obtain ⟨t, ht⟩ := addPageNumber_not_own pageNumber settings hown
          simp only [if_pos hs, ht]
          refine ⟨_, rfl, ?_⟩
          rintro (h | h)
          · exact absurd h hs
          · exact absurd h hown
        · simp only [if_neg hs]
          exact ih _ _ _ _ hnext
    · unfold multiPageLoop
      simp only [hc, if_false]
      exact ⟨_, rfl, fun _ => ⟨_, rfl⟩⟩

/-- C11. With a positive printable height `P`, every band cropped by
`generateMultiPagePDF` has a height `cropHeight` with `0 < cropHeight ≤ P`, and
every band except the last is exactly `P` high. -/
theorem generateMultiPagePDF_band_heights (fuel : ℕ) (pdf : Pdf) (canvas : Canvas)
    (imgWidth imgHeight maxHeight : ℚ) (settings : Settings) (pdf1 : Pdf) (bands : List Band)
    (hP : 0 < maxHeight)
    (h : generateMultiPagePDF fuel pdf canvas imgWidth imgHeight maxHeight settings
      = some (Except.ok (pdf1, bands))) :
    (∀ b ∈ bands, 0 < b.cropHeight ∧ b.cropHeight ≤ maxHeight)
    ∧ (∀ b ∈ bands.dropLast, b.cropHeight = maxHeight) := by
  obtain ⟨new, hnew, hfrom⟩ := multiPageLoop_bands canvas imgWidth imgHeight maxHeight settings
    fuel settings.margin 1 pdf [] pdf1 bands h
  rw [List.nil_append] at hnew
  rw [hnew]
  exact ⟨BandsFrom_cropHeight canvas imgWidth imgHeight maxHeight settings hP new _ _ hfrom,
    BandsFrom_dropLast canvas imgWidth imgHeight maxHeight settings new _ _ hfrom⟩

/-- C11, at a concrete input: content 600 units high on pages of 257 units
(margin 20) is cropped into bands of 257, 257 and 66 units. -/
theorem generateMultiPagePDF_band_heights_witness :
    ∃ pdf1 bands,
      generateMultiPagePDF 5 blankPdf tallCanvas 170 600 257 sampleSettings
        = some (Except.ok (pdf1, bands))
      ∧ bands.map (fun b => b.cropHeight) = [257, 257, 66]
      ∧ (∀ b ∈ bands, 0 < b.cropHeight ∧ b.cropHeight ≤ 257)
      ∧ (∀ b ∈ bands.dropLast, b.cropHeight = 257) := by
  have hval : (generateMultiPagePDF 5 blankPdf tallCanvas 170 600 257 sampleSettings).map
      (fun r => r.toOption.map (fun x => x.2.map (fun b => b.cropHeight)))
      = some (some [257, 257, 66]) := by decide!
  cases hres : generateMultiPagePDF 5 blankPdf tallCanvas 170 600 257 sampleSettings with
  | none => rw [hres] at hval; cases hval
  | some r =>
    cases r with
    | error t => rw [hres] at hval; cases hval
    | ok x =>
      obtain ⟨pdf1, bands⟩ := x
      rw [hres] at hval
      simp only [Option.map_some', Except.toOption, Option.some.injEq] at hval
      have hc := generateMultiPagePDF_band_heights 5 blankPdf tallCanvas 170 600 257
        sampleSettings pdf1 bands (by norm_num) hres
      exact ⟨pdf1, bands, rfl, hval, hc.1, hc.2⟩

/-- C12. With a positive printable height `P` the pagination loop makes at most
`ceil ((H - margin) / P)` iterations: it finishes within any fuel that large,
and normally so when no footer is asked for or the page size is one of the
table. When it has finished, the running offset, which starts at the margin and
grows by the positive height of the band on every iteration, is at least the
content height `H`. -/
theorem generateMultiPagePDF_terminates (pdf : Pdf) (canvas : Canvas)
    (imgWidth imgHeight maxHeight : ℚ) (settings : Settings) (hP : 0 < maxHeight) :
    (∀ fuel : ℕ, ⌈(imgHeight - settings.margin) / maxHeight⌉₊ ≤ fuel →
      ∃ r, generateMultiPagePDF fuel pdf canvas imgWidth imgHeight maxHeight settings = some r
        ∧ ((settings.showPageNumbers = JSVal.bool false
              ∨ ∃ pageSize, lookup pageSizes settings.pageSize = Lookup.own pageSize) →
            ∃ x, r = Except.ok x))
    ∧ (∀ (fuel : ℕ) (pdf1 : Pdf) (bands : List Band),
        generateMultiPagePDF fuel pdf canvas imgWidth imgHeight maxHeight settings
          = some (Except.ok (pdf1, bands)) →
        imgHeight ≤ settings.margin + (bands.map (fun b => b.cropHeight)).sum
        ∧ ∀ (i : ℕ) (hi : i < bands.length),
            (bands.get ⟨i, hi⟩).currentY
              = settings.margin + ((bands.take i).map (fun b => b.cropHeight)).sum
            ∧ 0 < (bands.get ⟨i, hi⟩).cropHeight) := by
  constructor
  · intro fuel hfuel
    apply multiPageLoop_terminates canvas imgWidth imgHeight maxHeight settings hP
    have h1 : (imgHeight - settings.margin) / maxHeight ≤ (fuel : ℚ) :=
      le_trans (Nat.le_ceil _) (by exact_mod_cast hfuel)
    exact (div_le_iff₀ hP).mp h1
  · intro fuel pdf1 bands h
    obtain ⟨new, hnew, hfrom⟩ := multiPageLoop_bands canvas imgWidth imgHeight maxHeight settings
      fuel settings.margin 1 pdf [] pdf1 bands h
    rw [List.nil_append] at hnew
    subst hnew
    obtain ⟨hoff, hexit⟩ := BandsFrom_offsets canvas imgWidth imgHeight maxHeight settings
      bands _ _ hfrom
    refine ⟨hexit, fun i hi => ⟨hoff i hi, ?_⟩⟩
    exact (BandsFrom_cropHeight canvas imgWidth imgHeight maxHeight settings hP bands _ _ hfrom
      _ (List.get_mem _ _ _)).1

/-- C12, at a concrete input: content 600 units high on pages of 257 units needs
`ceil (580 / 257) = 3` iterations, so fuel 3 is enough. -/
theorem generateMultiPagePDF_terminates_witness :
    ∃ r, generateMultiPagePDF 3 blankPdf tallCanvas 170 600 257 sampleSettings = some r :=
  (((generateMultiPagePDF_terminates blankPdf tallCanvas 170 600 257 sampleSettings
      (by norm_num)).1 3 (by
        have h : ((600 : ℚ) - sampleSettings.margin) / 257 ≤ ((3 : ℕ) : ℚ) := by
          simp only [sampleSettings, mergeSettings, Options.empty, Option.getD]
          norm_num
        exact Nat.ceil_le.mpr h)).imp fun _ hr => hr.1)

/-- The footers among the calls of a list of bands: none when page numbering is
switched off, and otherwise the text `Page N` of each band at the fixed
position. -/
theorem text_mem_bandOps (settings : Settings) (pageSize : PageSize) (imgWidth : ℚ)
    (bands : List Band) (s : String) (x y : ℚ) :
    PdfOp.text s x y ∈ (bands.map (bandOps settings pageSize imgWidth)).flatten
      ↔ settings.showPageNumbers ≠ JSVal.bool false
          ∧ ∃ b ∈ bands, s = "Page " ++ toString b.pageNumber
              ∧ x = pageSize.width / 2 ∧ y = pageSize.height - 10 := by
  simp only [List.mem_flatten, List.mem_map]
  constructor
  · rintro ⟨l, ⟨b, hb, rfl⟩, hmem⟩
    unfold bandOps footerOps at hmem
    by_cases hs : settings.showPageNumbers ≠ JSVal.bool false
    · refine ⟨hs, b, hb, ?_⟩
      by_cases hp : b.pageNumber > 1 <;> simp [hs, hp] at hmem <;> exact hmem
    · by_cases hp : b.pageNumber > 1 <;> simp [hs, hp] at hmem
  · rintro ⟨hs, b, hb, rfl, rfl, rfl⟩
    refine ⟨_, ⟨b, hb, rfl⟩, ?_⟩
    unfold bandOps footerOps
    simp [hs]

/-- C13. For a page size of the table, the bands of a completed
`generateMultiPagePDF` are numbered 1, 2, 3, ... in the order they are emitted,
and the calls made on the document are, band by band, those of `bandOps`: the
page of band `k` carries the footer `Page k` at `x = pageWidth / 2`,
`y = pageHeight - 10` when `showPageNumbers` is not `false`, and no footer is
stamped on any page when it is `false`. -/
theorem generateMultiPagePDF_page_numbers (fuel : ℕ) (pdf : Pdf) (canvas : Canvas)
    (imgWidth imgHeight maxHeight : ℚ) (settings : Settings) (pageSize : PageSize)
    (pdf1 : Pdf) (bands : List Band)
    (hsize : lookup pageSizes settings.pageSize = Lookup.own pageSize)
    (h : generateMultiPagePDF fuel pdf canvas imgWidth imgHeight maxHeight settings
      = some (Except.ok (pdf1, bands))) :
    bands.map (fun b => b.pageNumber) = List.range' 1 bands.length
    ∧ pdf1 = pdf.append ((bands.map (bandOps settings pageSize imgWidth)).flatten)
    ∧ (∀ (s : String) (x y : ℚ),
        PdfOp.text s x y ∈ (bands.map (bandOps settings pageSize imgWidth)).flatten
          ↔ settings.showPageNumbers ≠ JSVal.bool false
              ∧ ∃ b ∈ bands, s = "Page " ++ toString b.pageNumber
                  ∧ x = pageSize.width / 2 ∧ y = pageSize.height - 10) := by
  obtain ⟨new, hnew, hfrom⟩ := multiPageLoop_bands canvas imgWidth imgHeight maxHeight settings
    fuel settings.margin 1 pdf [] pdf1 bands h
  obtain ⟨new1, hnew1, hops⟩ := multiPageLoop_ops canvas imgWidth imgHeight maxHeight settings
    pageSize hsize fuel settings.margin 1 pdf [] pdf1 bands h
  rw [List.nil_append] at hnew hnew1
  subst hnew
  subst hnew1
  exact ⟨BandsFrom_pageNumbers canvas imgWidth imgHeight maxHeight settings bands _ _ hfrom,
    hops, text_mem_bandOps settings pageSize imgWidth bands⟩

/-- C13, at a concrete input: a default export (page numbers not switched off)
of content 600 units high stamps `Page 1`, `Page 2`, `Page 3` at `(105, 287)`. -/
theorem generateMultiPagePDF_page_numbers_witness :
    ∃ pdf1 bands,
      generateMultiPagePDF 5 blankPdf tallCanvas 170 600 257 sampleSettings
        = some (Except.ok (pdf1, bands))
      ∧ bands.map (fun b => b.pageNumber) = [1, 2, 3]
      ∧ pdf1.ops.filter (fun op => match op with
          | PdfOp.text _ _ _ => true
          | _ => false)
        = [PdfOp.text "Page 1" 105 287, PdfOp.text "Page 2" 105 287,
           PdfOp.text "Page 3" 105 287] := by
  have hval : (generateMultiPagePDF 5 blankPdf tallCanvas 170 600 257 sampleSettings).map
      (fun r => r.toOption.map (fun x => (x.2.length, x.1.ops.filter (fun op => match op with
          | PdfOp.text _ _ _ => true
          | _ => false))))
      = some (some (3, [PdfOp.text "Page 1" 105 287, PdfOp.text "Page 2" 105 287,
           PdfOp.text "Page 3" 105 287])) := by decide!
  cases hres : generateMultiPagePDF 5 blankPdf tallCanvas 170 600 257 sampleSettings with
  | none => rw [hres] at hval; cases hval
  | some r =>
    cases r with
    | error t => rw [hres] at hval; cases hval
    | ok x =>
      obtain ⟨pdf1, bands⟩ := x
      rw [hres] at hval
      simp only [Option.map_some', Except.toOption, Option.some.injEq, Prod.mk.injEq] at hval
      have hc := generateMultiPagePDF_page_numbers 5 blankPdf tallCanvas 170 600 257
        sampleSettings { width := 210, height := 297, unit := "mm" } pdf1 bands (by decide!) hres
      refine ⟨pdf1, bands, rfl, ?_, hval.2⟩
      rw [hc.1, hval.1]
      rfl

/-! ## A4, portrait, margin 20 -/

/-- C14 (counterexample). A default export (A4, portrait, margin 20) of a raster
170 pixels wide and 480 pixels high has the scaled height 480, above the
printable height `297 - 40 = 257`; it is saved with 2 pages, while
`ceil (480 / 237) = 3`. -/
theorem generatePDF_a4_pages_not_ceil_237 :
    (generatePDF (sampleEnv midCanvas) 5 { handle := 0, id := "cert-1", kind := NodeKind.page }
        sampleSettings sampleWorld).map (fun r => (r.1, savedPageCounts r.2))
      = some (Except.ok (JSVal.bool true), [2])
    ∧ (midCanvas.height : ℚ) * (210 - sampleSettings.margin * 2) / midCanvas.width = 480
    ∧ (297 : ℚ) - sampleSettings.margin * 2 = 257
    ∧ ⌈(480 : ℚ) / 237⌉ = 3 := by
  decide!

/-- C14 (amended). With `pageSize = a4`, `orientation = portrait` and
`margin = 20`, `generatePDF` computes the content width `210 - 40 = 170` and the
printable height `297 - 40 = 257`: a raster whose scaled height
`H = canvas.height * 170 / canvas.width` is at most 257 is drawn on one page, 170
wide and `H` high, and a taller one is handed to `generateMultiPagePDF` with
these numbers, which draws it in bands 170 wide, each at most 257 high and all
but the last exactly 257 high. -/
theorem paginate_a4_portrait_margin_20 (fuel : ℕ) (pdf : Pdf) (canvas : Canvas)
    (settings : Settings)
    (hsize : settings.pageSize = JSVal.str "a4")
    (horientation : settings.orientation = JSVal.str "portrait")
    (hmargin : settings.margin = 20) :
    orientationArg settings = "p"
    ∧ lookup pageSizes settings.pageSize = Lookup.own { width := 210, height := 297, unit := "mm" }
    ∧ paginate fuel (lookup pageSizes settings.pageSize) pdf canvas settings
        = (if (canvas.height : ℚ) * 170 / canvas.width ≤ 257 then
            some (Except.ok (pdf.append
              [PdfOp.addImage 20 20 170 ((canvas.height : ℚ) * 170 / canvas.width)]))
          else
            (generateMultiPagePDF fuel pdf canvas 170 ((canvas.height : ℚ) * 170 / canvas.width)
              257 settings).map (fun r => r.map Prod.fst))
    ∧ (∀ (pdf1 : Pdf) (bands : List Band),
        generateMultiPagePDF fuel pdf canvas 170 ((canvas.height : ℚ) * 170 / canvas.width)
            257 settings = some (Except.ok (pdf1, bands)) →
        pdf1 = pdf.append ((bands.map
            (bandOps settings { width := 210, height := 297, unit := "mm" } 170)).flatten)
        ∧ (∀ b ∈ bands, 0 < b.cropHeight ∧ b.cropHeight ≤ 257)
        ∧ (∀ b ∈ bands.dropLast, b.cropHeight = 257)) := by
  have hl : lookup pageSizes settings.pageSize
      = Lookup.own { width := 210, height := 297, unit := "mm" } := by
    rw [hsize]; rfl
  refine ⟨by simp [orientationArg, horientation], hl, ?_, ?_⟩
  · rw [hl]
    have h170 : (210 : ℚ) - 20 * 2 = 170 := by norm_num
    have h257 : (297 : ℚ) - 20 * 2 = 257 := by norm_num
    simp only [paginate, hmargin, h170, h257]
    split
    · rfl
    · cases generateMultiPagePDF fuel pdf canvas 170 ((canvas.height : ℚ) * 170 / canvas.width)
          257 settings with
      | none => rfl
      | some r =>
        cases r with
        | error t => rfl
        | ok x => rfl
  · intro pdf1 bands h
    obtain ⟨new, hnew, hops⟩ := multiPageLoop_ops canvas 170 _ 257 settings _ hl fuel
      settings.margin 1 pdf [] pdf1 bands h
    rw [List.nil_append] at hnew
    subst hnew
    obtain ⟨new, hnew, hfrom⟩ := multiPageLoop_bands canvas 170 _ 257 settings
      fuel settings.margin 1 pdf [] pdf1 bands h
    rw [List.nil_append] at hnew
    subst hnew
    exact ⟨hops, BandsFrom_cropHeight canvas 170 _ 257 settings (by norm_num) _ _ _ hfrom,
      BandsFrom_dropLast canvas 170 _ 257 settings _ _ _ hfrom⟩

/-- C14 (amended), at a concrete input: the default settings and a raster 170
by 480 pixels, drawn in bands of 257 and 203 units. -/
theorem paginate_a4_portrait_margin_20_witness :
    (paginate 5 (lookup pageSizes sampleSettings.pageSize) blankPdf midCanvas sampleSettings).map
        (fun r => r.toOption.map (fun pdf1 => pdf1.ops.filterMap (fun op => match op with
          | PdfOp.addImage _ _ w h => some (w, h)
          | _ => none)))
      = some (some [(170, 257), (170, 203)]) := by
  have h := (paginate_a4_portrait_margin_20 5 blankPdf midCanvas sampleSettings rfl rfl rfl).2.2.1
  rw [h]
  decide!

/-! ## The settings of a call -/

/-- The loader does not touch the generator. -/
theorem showLoading_gen (b : Bool) (w : World) : (showLoading b w).gen = w.gen := by
  unfold showLoading
  split <;> rfl

/-- The settings of the generator at the start of the `try` block are those
before the call. -/
theorem entryWorld_gen (w : World) (elementId : String) :
    (entryWorld w elementId).gen = { w.gen with isGenerating := true } := by
  unfold entryWorld
  rw [showLoading_gen]
  rfl

/-- The merged settings, field by field. -/
theorem mergeSettings_eq (gen : PDFGenerator) (filename : String) (o : Options) :
    mergeSettings gen filename o
      = { quality := match o.quality with
            | some v => v
            | none => gen.pdfQuality,
          orientation := match o.orientation with
            | some v => v
            | none => gen.pageOrientation,
          pageSize := match o.pageSize with
            | some v => v
            | none => gen.pageSize,
          filename := match o.filename with
            | some v => v
            | none => JSVal.str filename,
          margin := match o.margin with
            | some m => m
            | none => 20,
          showPageNumbers := match o.showPageNumbers with
            | some v => v
            | none => JSVal.undefined } := by
  obtain ⟨q, r, p, f, m, n⟩ := o
  cases q <;> cases r <;> cases p <;> cases f <;> cases m <;> cases n <;>
    simp [mergeSettings, prop, JSVal.or, JSVal.truthy]

/-- C15. The settings `generateFromElement` hands to `generatePDF` take each of
`quality`, `orientation`, `pageSize` and `margin` from `options` when `options`
has that field (whatever its value), and otherwise they are the generator's
current `pdfQuality`, `pageOrientation`, `pageSize` and the margin 20: the
merged settings are that record, and the call depends on `generatePDF` only
through what it does with that record. -/
theorem generateFromElement_settings (env : Env) (elementId filename : String)
    (options : OptionsArg) (w : World) (element : Node) (o : Options)
    (hidle : w.gen.isGenerating = false)
    (hel : getElementById w.doc elementId = some element)
    (ho : resolveOptions options = some o) :
    mergeSettings (entryWorld w elementId).gen filename o
      = { quality := match o.quality with
            | some v => v
            | none => w.gen.pdfQuality,
          orientation := match o.orientation with
            | some v => v
            | none => w.gen.pageOrientation,
          pageSize := match o.pageSize with
            | some v => v
            | none => w.gen.pageSize,
          filename := match o.filename with
            | some v => v
            | none => JSVal.str filename,
          margin := match o.margin with
            | some m => m
            | none => 20,
          showPageNumbers := match o.showPageNumbers with
            | some v => v
            | none => JSVal.undefined }
    ∧ ∀ gp gp1 : Node → Settings → World → Option (Except Thrown JSVal × World),
        gp element (mergeSettings (entryWorld w elementId).gen filename o) (entryWorld w elementId)
          = gp1 element (mergeSettings (entryWorld w elementId).gen filename o)
              (entryWorld w elementId) →
        generateFromElementWith gp env elementId filename options w
          = generateFromElementWith gp1 env elementId filename options w := by
  constructor
  · rw [mergeSettings_eq, entryWorld_gen]
  · intro gp gp1 hsame
    rw [generateFromElementWith_found gp env elementId filename options w element hidle hel,
      generateFromElementWith_found gp1 env elementId filename options w element hidle hel]
    simp only [tryBlock, ho, hsame]

/-- C15, at a concrete input: the options `{ quality: "low", margin: 0 }` on a
fresh generator give the quality `low` and the margin 0 from the options, and
the orientation `portrait` and the page size `a4` from the generator. -/
theorem generateFromElement_settings_witness :
    mergeSettings (entryWorld sampleWorld "cert-1").gen "c.pdf"
        { Options.empty with quality := some (JSVal.str "low"), margin := some 0 }
      = { quality := JSVal.str "low", orientation := JSVal.str "portrait",
          pageSize := JSVal.str "a4", filename := JSVal.str "c.pdf", margin := 0,
          showPageNumbers := JSVal.undefined } :=
  (generateFromElement_settings (sampleEnv shortCanvas) "cert-1" "c.pdf"
    (OptionsArg.object { Options.empty with quality := some (JSVal.str "low"), margin := some 0 })
    sampleWorld { handle := 0, id := "cert-1", kind := NodeKind.page }
    { Options.empty with quality := some (JSVal.str "low"), margin := some 0 }
    rfl (by decide) rfl).1

/-! ## Saving the preferences -/

/-- What was stored under a key is what is read back. -/
theorem getItem_setItem (storage : List (String × String)) (key value : String) :
    getItem (setItem storage key value) key = some value := by
  simp [getItem, setItem]

/-- When access to the storage does not throw, `saveSettings` stores the JSON
text of the three settings and the timestamp, and touches nothing else. -/
theorem saveSettings_ok (env : Env) (w : World) (hstore : env.storageThrows = none) :
    saveSettings env w
      = Except.ok
          { w with storage := setItem w.storage "stm_pdf_settings" (settingsText env w.gen) } := by
  simp only [saveSettings, hstore]

/-- A setter whose guard passed and that returned normally has stored the state
it left. -/
theorem saveAndNotify_stored (env : Env) (notice : Notice) (w w1 : World)
    (h : saveAndNotify env notice w = (Except.ok (), w1)) :
    w1.gen = w.gen
    ∧ getItem w1.storage "stm_pdf_settings" = some (settingsText env w.gen) := by
  unfold saveAndNotify at h
  cases hs : env.storageThrows with
  | some t => simp [saveSettings, hs] at h
  | none =>
    rw [saveSettings_ok env w hs] at h
    simp only [Prod.mk.injEq, true_and] at h
    rw [← h]
    exact ⟨rfl, getItem_setItem _ _ _⟩

/-- C16. Round trip of the persisted preferences. When the three settings of a
generator are non-empty strings, access to the storage does not throw and
`JSON.parse` reads back what `JSON.stringify` wrote, `saveSettings` followed by
`loadSettings` on any generator over that storage gives that generator the
saved quality, orientation and page size. And a call of `setQuality`,
`setOrientation` or `setPageSize` whose guard passed and that returned normally
has assigned its field and stored the state it left. -/
theorem settings_round_trip (env : Env) (w : World) (quality orientation pageSize : String)
    (hq : w.gen.pdfQuality = JSVal.str quality) (ho : w.gen.pageOrientation = JSVal.str orientation)
    (hp : w.gen.pageSize = JSVal.str pageSize)
    (hqne : quality ≠ "") (hone : orientation ≠ "") (hpne : pageSize ≠ "")
    (hstore : env.storageThrows = none)
    (htext : env.jsonStringify (JSVal.str quality) (JSVal.str orientation) (JSVal.str pageSize)
      env.isoNow ≠ "")
    (hjson : env.jsonParse (env.jsonStringify (JSVal.str quality) (JSVal.str orientation)
        (JSVal.str pageSize) env.isoNow)
      = some (Parsed.object (JSVal.str quality) (JSVal.str orientation) (JSVal.str pageSize))) :
    (∃ w1, saveSettings env w = Except.ok w1
      ∧ ∀ w2 : World, w2.storage = w1.storage →
          ∃ w3, loadSettings env w2 = Except.ok w3
            ∧ w3.gen.pdfQuality = JSVal.str quality
            ∧ w3.gen.pageOrientation = JSVal.str orientation
            ∧ w3.gen.pageSize = JSVal.str pageSize)
    ∧ (∀ (value : String) (w1 : World),
        (setQuality env value w = (Except.ok (), w1) →
          lookupKey qualitySettings value ≠ Lookup.missing →
          w1.gen.pdfQuality = JSVal.str value
          ∧ getItem w1.storage "stm_pdf_settings" = some (settingsText env w1.gen))
        ∧ (setOrientation env value w = (Except.ok (), w1) →
          value ∈ ["portrait", "landscape"] →
          w1.gen.pageOrientation = JSVal.str value
          ∧ getItem w1.storage "stm_pdf_settings" = some (settingsText env w1.gen))
        ∧ (setPageSize env value w = (Except.ok (), w1) →
          lookupKey pageSizes value ≠ Lookup.missing →
          w1.gen.pageSize = JSVal.str value
          ∧ getItem w1.storage "stm_pdf_settings" = some (settingsText env w1.gen))) := by
  constructor
  · refine ⟨_, saveSettings_ok env w hstore, ?_⟩
    intro w2 hw2
    have hget : getItem w2.storage "stm_pdf_settings"
        = some (env.jsonStringify (JSVal.str quality) (JSVal.str orientation)
            (JSVal.str pageSize) env.isoNow) := by
      rw [hw2, ← hq, ← ho, ← hp]
      exact getItem_setItem _ _ _
    simp only [loadSettings, loadSettingsTry, hstore, hget, htext, if_false, hjson]
    refine ⟨_, rfl, ?_, ?_, ?_⟩ <;> simp [World.record, JSVal.or, JSVal.truthy, hqne, hone, hpne]
  · intro value w1
    refine ⟨?_, ?_, ?_⟩
    · intro h hguard
      unfold setQuality at h
      cases hl : lookupKey qualitySettings value with
      | missing => exact absurd hl hguard
      | own q =>
        simp only [hl] at h
        obtain ⟨hgen, hget⟩ := saveAndNotify_stored env _ _ _ h
        rw [hgen]
        exact ⟨rfl, hget⟩
      | inherited =>
        simp only [hl] at h
        obtain ⟨hgen, hget⟩ := saveAndNotify_stored env _ _ _ h
        rw [hgen]
        exact ⟨rfl, hget⟩
    · intro h hguard
      unfold setOrientation at h
      rw [if_pos hguard] at h
      obtain ⟨hgen, hget⟩ := saveAndNotify_stored env _ _ _ h
      rw [hgen]
      exact ⟨rfl, hget⟩
    · intro h hguard
      unfold setPageSize at h
      cases hl : lookupKey pageSizes value with
      | missing => exact absurd hl hguard
      | own q =>
        simp only [hl] at h
        obtain ⟨hgen, hget⟩ := saveAndNotify_stored env _ _ _ h
        rw [hgen]
        exact ⟨rfl, hget⟩
      | inherited =>
        simp only [hl] at h
        obtain ⟨hgen, hget⟩ := saveAndNotify_stored env _ _ _ h
        rw [hgen]
        exact ⟨rfl, hget⟩

/-- C16, at a concrete input: a generator set to `low`, `landscape`, `letter`
saves its settings, and a fresh generator over that storage loads them. -/
theorem settings_round_trip_witness :
    ((saveSettings jsonEnv lowWorld).toOption.bind
        (fun w1 => (loadSettings jsonEnv { sampleWorld with storage := w1.storage }).toOption)).map
      (fun w => (w.gen.pdfQuality, w.gen.pageOrientation, w.gen.pageSize))
      = some (JSVal.str "low", JSVal.str "landscape", JSVal.str "letter") := by
  obtain ⟨w1, h1, hload⟩ := (settings_round_trip jsonEnv lowWorld "low" "landscape" "letter"
    rfl rfl rfl (by decide) (by decide) (by decide) rfl (by decide) (by decide)).1
  obtain ⟨w3, h3, hq, ho, hp⟩ := hload { sampleWorld with storage := w1.storage } rfl
  rw [h1]
  simp only [Except.toOption, Option.some_bind]
  rw [h3]
  simp [hq, ho, hp]

/-- C17 (the code at the failing input). On a fresh generator (`high`,
`portrait`, `a4`), `setPageSize("constructor")` and `setQuality("toString")` pass
the guard although neither name is an entry of its table: the page size becomes
`constructor`, the quality becomes `toString` with an undefined scale, and both
states are written to the storage. -/
theorem setters_accept_inherited_keys :
    pageSizes "constructor" = none
    ∧ qualitySettings "toString" = none
    ∧ (setPageSize (sampleEnv sampleCanvas) "constructor" sampleWorld).1 = Except.ok ()
    ∧ (setPageSize (sampleEnv sampleCanvas) "constructor" sampleWorld).2.gen.pageSize
        = JSVal.str "constructor"
    ∧ getItem (setPageSize (sampleEnv sampleCanvas) "constructor" sampleWorld).2.storage
          "stm_pdf_settings"
        = some (settingsText (sampleEnv sampleCanvas)
            { PDFGenerator.initial with pageSize := JSVal.str "constructor" })
    ∧ (setQuality (sampleEnv sampleCanvas) "toString" sampleWorld).2.gen.pdfQuality
        = JSVal.str "toString"
    ∧ (setQuality (sampleEnv sampleCanvas) "toString" sampleWorld).2.gen.currentScale = none
    ∧ getItem (setQuality (sampleEnv sampleCanvas) "toString" sampleWorld).2.storage
          "stm_pdf_settings"
        = some (settingsText (sampleEnv sampleCanvas)
            { PDFGenerator.initial with pdfQuality := JSVal.str "toString", currentScale := none })
    ∧ sampleWorld.gen.pageSize = JSVal.str "a4"
    ∧ sampleWorld.gen.pdfQuality = JSVal.str "high"
    ∧ sampleWorld.storage = [] := by
  decide!

/-! ## The certificate template registry -/

/-- C18. After construction the template registry holds exactly the five keys
`professional`, `corporate`, `elegant`, `minimal` and `safety`, the `id` of each
template is its key, and the current template is the `professional` entry. -/
theorem certificateTemplates_registry :
    CertificateTemplates.constructor.templates.map Prod.fst
      = ["professional", "corporate", "elegant", "minimal", "safety"]
    ∧ (∀ kv ∈ CertificateTemplates.constructor.templates, kv.2.id = kv.1)
    ∧ CertificateTemplates.constructor.currentTemplate
        = CertificateTemplates.get CertificateTemplates.constructor.templates "professional"
    ∧ CertificateTemplates.constructor.currentTemplate.map (fun t => t.id) = some "professional" := by
  decide

/-! ## The order of date keys -/

/-- A decimal digit is one code unit, 48 above its value. -/
theorem unitsOf_digitChar (k : ℕ) (hk : k < 10) : unitsOf (Nat.digitChar k) = [48 + k] := by
  interval_cases k <;> rfl

/-- The code units of a month key. -/
theorem codeUnits_isoMonth (d : UTCDate) :
    codeUnits (isoMonth d)
      = [48 + d.year / 1000 % 10, 48 + d.year / 100 % 10, 48 + d.year / 10 % 10, 48 + d.year % 10,
         45, 48 + d.month / 10 % 10, 48 + d.month % 10] := by
  simp only [isoMonth, codeUnits, digits4, digits2, List.cons_append, List.nil_append,
    List.map_cons, List.map_nil, List.flatten, List.append_nil,
    unitsOf_digitChar _ (Nat.mod_lt _ (by norm_num : 10 > 0))]
  rfl



/-- Comparing two numbers by their leading part and last digit. -/
theorem lt_base10 (x y r s : ℕ) (hr : r < 10) (hs : s < 10) :
    10 * x + r < 10 * y + s ↔ x < y ∨ (x = y ∧ r < s) := by
  rcases lt_trichotomy x y with h | h | h
  · constructor
    · intro _; exact Or.inl h
    · intro _; omega
  · subst h
    constructor
    · intro h1; exact Or.inr ⟨rfl, by omega⟩
    · rintro (h1 | ⟨_, h1⟩) <;> omega
  · constructor
    · intro h1; omega
    · rintro (h1 | ⟨h1, _⟩) <;> omega

/-- Two numbers are equal when leading part and last digit are. -/
theorem eq_base10 (x y r s : ℕ) (hr : r < 10) (hs : s < 10) :
    10 * x + r = 10 * y + s ↔ x = y ∧ r = s := by
  constructor
  · intro h
    rcases lt_trichotomy x y with h1 | h1 | h1
    · omega
    · exact ⟨h1, by omega⟩
    · omega
  · rintro ⟨rfl, rfl⟩; rfl

/-- A number below 10000 is made of its four decimal digits. -/
theorem digits_of_year (y : ℕ) (hy : y < 10000) :
    ∃ d3 d2 d1 d0 : ℕ, d3 < 10 ∧ d2 < 10 ∧ d1 < 10 ∧ d0 < 10
      ∧ y / 1000 % 10 = d3 ∧ y / 100 % 10 = d2 ∧ y / 10 % 10 = d1 ∧ y % 10 = d0
      ∧ y = 10 * (10 * (10 * d3 + d2) + d1) + d0 := by
  refine ⟨y / 1000 % 10, y / 100 % 10, y / 10 % 10, y % 10, ?_, ?_, ?_, ?_, rfl, rfl, rfl, rfl, ?_⟩
  all_goals omega

/-- A number below 100 is made of its two decimal digits. -/
theorem digits_of_field (m : ℕ) (hm : m < 100) :
    ∃ d1 d0 : ℕ, d1 < 10 ∧ d0 < 10 ∧ m / 10 % 10 = d1 ∧ m % 10 = d0 ∧ m = 10 * d1 + d0 := by
  refine ⟨m / 10 % 10, m % 10, ?_, ?_, rfl, rfl, ?_⟩
  all_goals omega

/-- Lexicographic order on four positions followed by a rest. -/
theorem lex_assoc4 (l3 e3 l2 e2 l1 e1 l0 e0 M : Prop) :
    (l3 ∨ e3 ∧ (l2 ∨ e2 ∧ (l1 ∨ e1 ∧ (l0 ∨ e0 ∧ M))))
      ↔ ((l3 ∨ e3 ∧ (l2 ∨ e2 ∧ (l1 ∨ e1 ∧ l0))) ∨ (e3 ∧ e2 ∧ e1 ∧ e0) ∧ M) := by
  tauto

/-- Lexicographic order on two positions followed by a rest. -/
theorem lex_assoc2 (l1 e1 l0 e0 M : Prop) :
    (l1 ∨ e1 ∧ (l0 ∨ e0 ∧ M)) ↔ ((l1 ∨ e1 ∧ l0) ∨ (e1 ∧ e0) ∧ M) := by
  tauto

/-- Lexicographic order on the digits of a day key, grouped by field. -/
theorem lex_assoc_day (l3 e3 l2 e2 l1 e1 l0 e0 k1 f1 k0 f0 D : Prop) :
    (l3 ∨ e3 ∧ (l2 ∨ e2 ∧ (l1 ∨ e1 ∧ (l0 ∨ e0 ∧ (k1 ∨ f1 ∧ (k0 ∨ f0 ∧ D))))))
      ↔ ((l3 ∨ e3 ∧ (l2 ∨ e2 ∧ (l1 ∨ e1 ∧ l0)))
          ∨ (e3 ∧ e2 ∧ e1 ∧ e0) ∧ ((k1 ∨ f1 ∧ k0) ∨ (f1 ∧ f0) ∧ D)) := by
  rw [lex_assoc4 l3 e3 l2 e2 l1 e1 l0 e0 (k1 ∨ f1 ∧ (k0 ∨ f0 ∧ D)), lex_assoc2 k1 f1 k0 f0 D]

/-- The code units of a day key. -/
theorem codeUnits_isoDay (d : UTCDate) :
    codeUnits (isoDay d)
      = [48 + d.year / 1000 % 10, 48 + d.year / 100 % 10, 48 + d.year / 10 % 10, 48 + d.year % 10,
         45, 48 + d.month / 10 % 10, 48 + d.month % 10, 45, 48 + d.day / 10 % 10,
         48 + d.day % 10] := by
  simp only [isoDay, codeUnits, digits4, digits2, List.cons_append, List.nil_append,
    List.map_cons, List.map_nil, List.flatten, List.append_nil,
    unitsOf_digitChar _ (Nat.mod_lt _ (by norm_num : 10 > 0))]
  rfl

/-- On day keys the string order is the calendar order. -/
theorem jsLt_isoDay (a b : UTCDate) (ha : a.inRange) (hb : b.inRange) :
    jsLt (isoDay a) (isoDay b) = true ↔ a.dayLt b := by
  obtain ⟨hay, ham, had⟩ := ha
  obtain ⟨hby, hbm, hbd⟩ := hb
  obtain ⟨a3, a2, a1, a0, h1, h2, h3, h4, e3, e2, e1, e0, ea⟩ := digits_of_year a.year hay
  obtain ⟨b3, b2, b1, b0, k1, k2, k3, k4, f3, f2, f1, f0, eb⟩ := digits_of_year b.year hby
  obtain ⟨m1, m0, p1, p0, g1, g0, em⟩ := digits_of_field a.month ham
  obtain ⟨n1, n0, q1, q0, l1, l0, en⟩ := digits_of_field b.month hbm
  obtain ⟨c1, c0, r1, r0, s1, s0, ec⟩ := digits_of_field a.day had
  obtain ⟨d1, d0, t1, t0, u1, u0, ed⟩ := digits_of_field b.day hbd
  simp only [jsLt, codeUnits_isoDay, lexLt, UTCDate.dayLt, Bool.or_eq_true, Bool.and_eq_true,
    decide_eq_true_eq, Bool.or_false, Bool.and_false, e3, e2, e1, e0, f3, f2, f1, f0, g1, g0, l1, l0,
    s1, s0, u1, u0]
  have hlt : a.year < b.year ↔
      a3 < b3 ∨ (a3 = b3 ∧ (a2 < b2 ∨ (a2 = b2 ∧ (a1 < b1 ∨ (a1 = b1 ∧ a0 < b0))))) := by
    rw [ea, eb, lt_base10 _ _ _ _ h4 k4, lt_base10 _ _ _ _ h3 k3, lt_base10 _ _ _ _ h2 k2,
      eq_base10 _ _ _ _ h3 k3, eq_base10 _ _ _ _ h2 k2]
    clear ea eb em en ec ed e3 e2 e1 e0 f3 f2 f1 f0 g1 g0 l1 l0 s1 s0 u1 u0
    tauto
  have heq : a.year = b.year ↔ a3 = b3 ∧ a2 = b2 ∧ a1 = b1 ∧ a0 = b0 := by
    rw [ea, eb, eq_base10 _ _ _ _ h4 k4, eq_base10 _ _ _ _ h3 k3, eq_base10 _ _ _ _ h2 k2]
    clear ea eb em en ec ed e3 e2 e1 e0 f3 f2 f1 f0 g1 g0 l1 l0 s1 s0 u1 u0
    tauto
  have hmlt : a.month < b.month ↔ m1 < n1 ∨ (m1 = n1 ∧ m0 < n0) := by
    rw [em, en, lt_base10 _ _ _ _ p0 q0]
  have hmeq : a.month = b.month ↔ m1 = n1 ∧ m0 = n0 := by
    rw [em, en, eq_base10 _ _ _ _ p0 q0]
  have hdlt : a.day < b.day ↔ c1 < d1 ∨ (c1 = d1 ∧ c0 < d0) := by
    rw [ec, ed, lt_base10 _ _ _ _ r0 t0]
  rw [hlt, heq, hmlt, hmeq, hdlt]
  simp only [Nat.add_lt_add_iff_left, Nat.add_left_cancel_iff, lt_irrefl, true_and, false_or]
  exact lex_assoc_day _ _ _ _ _ _ _ _ _ _ _ _ _

/-- On month keys the string order is the calendar order. -/
theorem jsLt_isoMonth (a b : UTCDate) (ha : a.inRange) (hb : b.inRange) :
    jsLt (isoMonth a) (isoMonth b) = true ↔ a.monthLt b := by
  obtain ⟨hay, ham, _⟩ := ha
  obtain ⟨hby, hbm, _⟩ := hb
  obtain ⟨a3, a2, a1, a0, h1, h2, h3, h4, e3, e2, e1, e0, ea⟩ := digits_of_year a.year hay
  obtain ⟨b3, b2, b1, b0, k1, k2, k3, k4, f3, f2, f1, f0, eb⟩ := digits_of_year b.year hby
  obtain ⟨m1, m0, p1, p0, g1, g0, em⟩ := digits_of_field a.month ham
  obtain ⟨n1, n0, q1, q0, l1, l0, en⟩ := digits_of_field b.month hbm
  simp only [jsLt, codeUnits_isoMonth, lexLt, UTCDate.monthLt, Bool.or_eq_true, Bool.and_eq_true,
    decide_eq_true_eq, Bool.or_false, Bool.and_false, e3, e2, e1, e0, f3, f2, f1, f0, g1, g0, l1, l0]
  have hlt : a.year < b.year ↔
      a3 < b3 ∨ (a3 = b3 ∧ (a2 < b2 ∨ (a2 = b2 ∧ (a1 < b1 ∨ (a1 = b1 ∧ a0 < b0))))) := by
    rw [ea, eb, lt_base10 _ _ _ _ h4 k4, lt_base10 _ _ _ _ h3 k3, lt_base10 _ _ _ _ h2 k2,
      eq_base10 _ _ _ _ h3 k3, eq_base10 _ _ _ _ h2 k2]
    clear ea eb em en e3 e2 e1 e0 f3 f2 f1 f0 g1 g0 l1 l0
    tauto
  have heq : a.year = b.year ↔ a3 = b3 ∧ a2 = b2 ∧ a1 = b1 ∧ a0 = b0 := by
    rw [ea, eb, eq_base10 _ _ _ _ h4 k4, eq_base10 _ _ _ _ h3 k3, eq_base10 _ _ _ _ h2 k2]
    clear ea eb em en e3 e2 e1 e0 f3 f2 f1 f0 g1 g0 l1 l0
    tauto
  have hmlt : a.month < b.month ↔ m1 < n1 ∨ (m1 = n1 ∧ m0 < n0) := by
    rw [em, en, lt_base10 _ _ _ _ p0 q0]
  rw [hlt, heq, hmlt]
  simp only [Nat.add_lt_add_iff_left, Nat.add_left_cancel_iff, lt_irrefl, true_and, false_or]
  exact lex_assoc4 _ _ _ _ _ _ _ _ _

/-! ## Retention of the visitor statistics -/

/-- Saving does not change the counter. -/
theorem saveStats_counter (clock : VisitClock) (w : VisitorWorld) :
    (VisitorCounter.saveStats clock w).counter = w.counter := by
  unfold VisitorCounter.saveStats
  split <;> rfl

/-- The counter after `trackVisit`. -/
theorem trackVisit_counter (clock : VisitClock) (w : VisitorWorld) :
    (VisitorCounter.trackVisit clock w).counter
      = VisitorCounter.pruneStats clock
          (VisitorCounter.trimHistory (VisitorCounter.countVisit clock w.counter)) := by
  unfold VisitorCounter.trackVisit
  rw [saveStats_counter]

/-- Trimming the history leaves the day and month tables alone. -/
theorem trimHistory_tables (c : VisitorCounter) :
    (VisitorCounter.trimHistory c).stats.dailyStats = c.stats.dailyStats
    ∧ (VisitorCounter.trimHistory c).stats.monthlyStats = c.stats.monthlyStats := by
  unfold VisitorCounter.trimHistory
  split <;> exact ⟨rfl, rfl⟩

/-- After the guarded initialisation the key is in the table. -/
theorem mem_keys_ensureKey (table : List (String × PeriodStats)) (key : String) :
    key ∈ (VisitorCounter.ensureKey table key).map Prod.fst := by
  unfold VisitorCounter.ensureKey
  split
  · rename_i h
    obtain ⟨kv, hkv, hk⟩ := List.any_eq_true.mp h
    exact List.mem_map.mpr ⟨kv, hkv, of_decide_eq_true hk⟩
  · simp

/-- Updating an entry keeps the keys. -/
theorem keys_updateKey (table : List (String × PeriodStats)) (key : String)
    (f : PeriodStats → PeriodStats) :
    (VisitorCounter.updateKey table key f).map Prod.fst = table.map Prod.fst := by
  unfold VisitorCounter.updateKey
  rw [List.map_map]
  apply List.map_congr_left
  intro kv _
  simp only [Function.comp]
  split <;> rfl

/-- Counting the visit leaves the current day among the day keys and the
current month among the month keys. -/
theorem countVisit_keys (clock : VisitClock) (c : VisitorCounter) :
    isoDay clock.today ∈ (VisitorCounter.countVisit clock c).stats.dailyStats.map Prod.fst
    ∧ isoMonth clock.today ∈ (VisitorCounter.countVisit clock c).stats.monthlyStats.map Prod.fst := by
  unfold VisitorCounter.countVisit
  simp only [keys_updateKey]
  constructor
  · split <;> simp only [keys_updateKey] <;> exact mem_keys_ensureKey _ _
  · split <;> simp only [keys_updateKey] <;> exact mem_keys_ensureKey _ _

/-- C19. After `trackVisit`, no key of `dailyStats` is below the day one year
ago and no key of `monthlyStats` is below the month two years ago in the order
of the operator `<` on strings; the keys of the current day and of the current
month are present, provided the dates are in four-digit years and the day one
year ago and the month two years ago are not after the current one; and on keys
of the forms `YYYY-MM-DD` and `YYYY-MM` that order is the calendar order. -/
theorem trackVisit_retention (clock : VisitClock) (w : VisitorWorld)
    (htoday : clock.today.inRange) (hyear : clock.oneYearAgo.inRange)
    (hyears : clock.twoYearsAgo.inRange)
    (hday : ¬ clock.today.dayLt clock.oneYearAgo)
    (hmonth : ¬ clock.today.monthLt clock.twoYearsAgo) :
    (∀ kv ∈ (VisitorCounter.trackVisit clock w).counter.stats.dailyStats,
        jsLt kv.1 (isoDay clock.oneYearAgo) = false)
    ∧ (∀ kv ∈ (VisitorCounter.trackVisit clock w).counter.stats.monthlyStats,
        jsLt kv.1 (isoMonth clock.twoYearsAgo) = false)
    ∧ isoDay clock.today
        ∈ (VisitorCounter.trackVisit clock w).counter.stats.dailyStats.map Prod.fst
    ∧ isoMonth clock.today
        ∈ (VisitorCounter.trackVisit clock w).counter.stats.monthlyStats.map Prod.fst
    ∧ (∀ a b : UTCDate, a.inRange → b.inRange →
        (jsLt (isoDay a) (isoDay b) = true ↔ a.dayLt b))
    ∧ (∀ a b : UTCDate, a.inRange → b.inRange →
        (jsLt (isoMonth a) (isoMonth b) = true ↔ a.monthLt b)) := by
  rw [trackVisit_counter]
  have hkeys := countVisit_keys clock w.counter
  have htables := trimHistory_tables (VisitorCounter.countVisit clock w.counter)
  have hd : jsLt (isoDay clock.today) (isoDay clock.oneYearAgo) = false := by
    rw [← Bool.not_eq_true, jsLt_isoDay _ _ htoday hyear]
    exact hday
  have hm : jsLt (isoMonth clock.today) (isoMonth clock.twoYearsAgo) = false := by
    rw [← Bool.not_eq_true, jsLt_isoMonth _ _ htoday hyears]
    exact hmonth
  refine ⟨?_, ?_, ?_, ?_, fun a b ha hb => jsLt_isoDay a b ha hb,
    fun a b ha hb => jsLt_isoMonth a b ha hb⟩
  · intro kv hkv
    simp only [VisitorCounter.pruneStats, List.mem_filter, Bool.not_eq_true'] at hkv
    exact hkv.2
  · intro kv hkv
    simp only [VisitorCounter.pruneStats, List.mem_filter, Bool.not_eq_true'] at hkv
    exact hkv.2
  · simp only [VisitorCounter.pruneStats, htables.1]
    obtain ⟨kv, hkv, hk⟩ := List.mem_map.mp hkeys.1
    refine List.mem_map.mpr ⟨kv, List.mem_filter.mpr ⟨hkv, ?_⟩, hk⟩
    rw [hk, hd]
    rfl
  · simp only [VisitorCounter.pruneStats, htables.2]
    obtain ⟨kv, hkv, hk⟩ := List.mem_map.mp hkeys.2
    refine List.mem_map.mpr ⟨kv, List.mem_filter.mpr ⟨hkv, ?_⟩, hk⟩
    rw [hk, hm]
    rfl

/-- C19, at a concrete input: a call on 5 November 2026 drops the keys
`2024-01-01` and `2024-01` and keeps those of November 2026. -/
theorem trackVisit_retention_witness :
    (VisitorCounter.trackVisit sampleClock sampleVisitorWorld).counter.stats.dailyStats.map Prod.fst
      = ["2026-11-04", "2026-11-05"]
    ∧ (VisitorCounter.trackVisit sampleClock sampleVisitorWorld).counter.stats.monthlyStats.map
        Prod.fst = ["2026-11"]
    ∧ isoDay sampleClock.today
        ∈ (VisitorCounter.trackVisit sampleClock sampleVisitorWorld).counter.stats.dailyStats.map
            Prod.fst :=
  ⟨by decide!, by decide!,
    (trackVisit_retention sampleClock sampleVisitorWorld
      (by unfold UTCDate.inRange; decide) (by unfold UTCDate.inRange; decide)
      (by unfold UTCDate.inRange; decide) (by unfold UTCDate.dayLt; decide)
      (by unfold UTCDate.monthLt; decide)).2.2.1⟩

/-- C20. After `trackVisit` the visit history has at most 1000 entries; when
the history as counted (with the current visitor appended or updated) has more
than 1000 entries, the result is its last 1000 entries in their order, and
otherwise it is that history unchanged. A visitor without an earlier entry is
the last entry of the result. -/
theorem trackVisit_history (clock : VisitClock) (w : VisitorWorld) :
    (VisitorCounter.trackVisit clock w).counter.stats.visitHistory.length ≤ 1000
    ∧ (1000 < (VisitorCounter.countVisit clock w.counter).stats.visitHistory.length →
        (VisitorCounter.trackVisit clock w).counter.stats.visitHistory
          = (VisitorCounter.countVisit clock w.counter).stats.visitHistory.drop
              ((VisitorCounter.countVisit clock w.counter).stats.visitHistory.length - 1000)
        ∧ (VisitorCounter.trackVisit clock w).counter.stats.visitHistory.length = 1000)
    ∧ ((VisitorCounter.countVisit clock w.counter).stats.visitHistory.length ≤ 1000 →
        (VisitorCounter.trackVisit clock w).counter.stats.visitHistory
          = (VisitorCounter.countVisit clock w.counter).stats.visitHistory)
    ∧ ((∀ v ∈ w.counter.stats.visitHistory, v.visitorId ≠ w.counter.visitorId) →
        (VisitorCounter.trackVisit clock w).counter.stats.visitHistory.getLast?
          = some { visitorId := w.counter.visitorId,
                   firstVisit := toISOString clock.today clock.time,
                   lastVisit := toISOString clock.today clock.time, totalVisits := 1 }) := by
  rw [trackVisit_counter]
  have hprune : ∀ c : VisitorCounter,
      (VisitorCounter.pruneStats clock c).stats.visitHistory = c.stats.visitHistory :=
    fun _ => rfl
  rw [hprune]
  generalize hh : (VisitorCounter.countVisit clock w.counter) = c
  have htrim : (VisitorCounter.trimHistory c).stats.visitHistory
      = if c.stats.visitHistory.length > 1000 then
          c.stats.visitHistory.drop (c.stats.visitHistory.length - 1000)
        else c.stats.visitHistory := by
    by_cases hl : c.stats.visitHistory.length > 1000
    · simp only [VisitorCounter.trimHistory, if_pos hl]
    · simp only [VisitorCounter.trimHistory, if_neg hl]
  rw [htrim]
  refine ⟨?_, ?_, ?_, ?_⟩
  · split
    · rw [List.length_drop]; omega
    · omega
  · intro hlong
    rw [if_pos hlong]
    exact ⟨rfl, by rw [List.length_drop]; omega⟩
  · intro hshort
    rw [if_neg (by omega)]
  · intro hnew
    have hany : w.counter.stats.visitHistory.any
        (fun visit => decide (visit.visitorId = w.counter.visitorId)) = false := by
      rw [List.any_eq_false]
      intro v hv
      simpa using hnew v hv
    have hhist : c.stats.visitHistory = w.counter.stats.visitHistory ++
        [{ visitorId := w.counter.visitorId, firstVisit := toISOString clock.today clock.time,
           lastVisit := toISOString clock.today clock.time, totalVisits := 1 }] := by
      rw [← hh]
      simp [VisitorCounter.countVisit, hany]
    split
    · rename_i hlong
      rw [List.getLast?_drop, if_neg (by omega), hhist, List.getLast?_concat]
    · rw [hhist, List.getLast?_concat]

/-- C20, at a concrete input: a history of 1001 visitors and a new visitor. -/
theorem trackVisit_history_witness :
    (VisitorCounter.trackVisit sampleClock crowdedVisitorWorld).counter.stats.visitHistory.length
      = 1000
    ∧ (VisitorCounter.trackVisit sampleClock crowdedVisitorWorld).counter.stats.visitHistory.getLast?
      = some { visitorId := "visitor_new", firstVisit := "2026-11-05T09:30:00.000Z",
               lastVisit := "2026-11-05T09:30:00.000Z", totalVisits := 1 } := by
  have h := trackVisit_history sampleClock crowdedVisitorWorld
  refine ⟨(h.2.1 (by decide!)).2, ?_⟩
  rw [h.2.2.2 (by decide!)]
  decide!

/-! ## Pages and images of a multi-page export -/

/-- The footer holds no `addPage` and no `addImage`. -/
theorem footerOps_count (settings : Settings) (pageSize : PageSize) (pageNumber : ℕ) :
    (footerOps settings pageSize pageNumber).count PdfOp.addPage = 0
    ∧ imagesOf (footerOps settings pageSize pageNumber) = [] := by
  unfold footerOps imagesOf
  split <;> exact ⟨by simp, rfl⟩

/-- The calls of one band: one `addPage` unless it is page 1, and one image. -/
theorem bandOps_count (settings : Settings) (pageSize : PageSize) (imgWidth : ℚ) (b : Band) :
    (bandOps settings pageSize imgWidth b).count PdfOp.addPage = (if b.pageNumber > 1 then 1 else 0)
    ∧ imagesOf (bandOps settings pageSize imgWidth b)
        = [(settings.margin, settings.margin, imgWidth, b.cropHeight)] := by
  obtain ⟨hc, hi⟩ := footerOps_count settings pageSize b.pageNumber
  unfold bandOps
  constructor
  · rw [List.count_append, List.count_append, hc]
    by_cases hp : b.pageNumber > 1 <;> simp [hp]
  · unfold imagesOf at hi ⊢
    rw [List.filterMap_append, List.filterMap_append, hi]
    by_cases hp : b.pageNumber > 1 <;> simp [hp]

/-- The images of a list of bands: one per band, in order. -/
theorem imagesOf_bands (settings : Settings) (pageSize : PageSize) (imgWidth : ℚ)
    (bands : List Band) :
    imagesOf ((bands.map (bandOps settings pageSize imgWidth)).flatten)
      = bands.map (fun b => (settings.margin, settings.margin, imgWidth, b.cropHeight)) := by
  induction bands with
  | nil => rfl
  | cons b rest ih =>
    have hb := (bandOps_count settings pageSize imgWidth b).2
    unfold imagesOf at hb ih ⊢
    rw [List.map_cons, List.flatten_cons, List.filterMap_append, hb, ih]
    rfl

/-- The `addPage` calls of the bands cropped from a state: one per band, except
for the band of page 1. -/
theorem BandsFrom_addPage_count (canvas : Canvas) (imgWidth imgHeight maxHeight : ℚ)
    (settings : Settings) (pageSize : PageSize) :
    ∀ (new : List Band) (currentY : ℚ) (pageNumber : ℕ), 1 ≤ pageNumber →
      BandsFrom canvas imgWidth imgHeight maxHeight settings currentY pageNumber new →
      ((new.map (bandOps settings pageSize imgWidth)).flatten).count PdfOp.addPage
        = (if pageNumber > 1 then new.length else new.length - 1) := by
  intro new
  induction new with
  | nil => intro _ _ _ _; simp
  | cons a rest ih =>
    intro currentY pageNumber h1 h
    obtain ⟨hc, ha, hrest⟩ := h
    have hrestc := ih _ _ (by omega) hrest
    rw [if_pos (by omega)] at hrestc
    have hac := (bandOps_count settings pageSize imgWidth a).1
    have hpn : a.pageNumber = pageNumber := by rw [ha]
    rw [List.map_cons, List.flatten_cons, List.count_append, hrestc, hac, hpn]
    by_cases hp : pageNumber > 1
    · rw [if_pos hp, if_pos hp, List.length_cons]
      omega
    · rw [if_neg hp, if_neg hp, List.length_cons]
      omega

/-- One iteration of the loop, when the page size is one of the table or no
footer is asked for: the band is collected and its calls are appended. -/
theorem multiPageLoop_step_any (canvas : Canvas) (imgWidth imgHeight maxHeight : ℚ)
    (settings : Settings) (pageSize : PageSize)
    (hsize : lookup pageSizes settings.pageSize = Lookup.own pageSize
      ∨ settings.showPageNumbers = JSVal.bool false)
    (fuel : ℕ) (currentY : ℚ) (pageNumber : ℕ) (pdf : Pdf) (bands : List Band)
    (hc : currentY < imgHeight) :
    multiPageLoop canvas imgWidth imgHeight maxHeight settings (fuel + 1) currentY pageNumber
        pdf bands
      = multiPageLoop canvas imgWidth imgHeight maxHeight settings fuel
          (currentY + min maxHeight (imgHeight - currentY)) (pageNumber + 1)
          (pdf.append (bandOps settings pageSize imgWidth
            (bandAt canvas imgWidth imgHeight maxHeight settings currentY pageNumber)))
          (bands ++ [bandAt canvas imgWidth imgHeight maxHeight settings currentY pageNumber]) := by
  by_cases hs : settings.showPageNumbers ≠ JSVal.bool false
  · rcases hsize with hown | hoff
    · exact multiPageLoop_step canvas imgWidth imgHeight maxHeight settings pageSize hown fuel
        currentY pageNumber pdf bands hc
    · exact absurd hoff hs
  · rw [multiPageLoop]
    simp only [hc, if_true, if_neg hs]
    by_cases hp : pageNumber > 1 <;>
      simp [bandOps, bandAt, footerOps, Pdf.append, hs, hp, List.append_assoc]

/-- The calls a completed loop has made, when the page size is one of the table
or no footer is asked for. -/
theorem multiPageLoop_ops_any (canvas : Canvas) (imgWidth imgHeight maxHeight : ℚ)
    (settings : Settings) (pageSize : PageSize)
    (hsize : lookup pageSizes settings.pageSize = Lookup.own pageSize
      ∨ settings.showPageNumbers = JSVal.bool false) :
    ∀ (fuel : ℕ) (currentY : ℚ) (pageNumber : ℕ) (pdf : Pdf) (bands : List Band) (pdf1 : Pdf)
      (bands1 : List Band),
      multiPageLoop canvas imgWidth imgHeight maxHeight settings fuel currentY pageNumber pdf bands
        = some (Except.ok (pdf1, bands1)) →
      ∃ new, bands1 = bands ++ new
        ∧ pdf1 = pdf.append ((new.map (bandOps settings pageSize imgWidth)).flatten) := by
  intro fuel
  induction fuel with
  | zero =>
    intro currentY pageNumber pdf bands pdf1 bands1 h
    unfold multiPageLoop at h
    by_cases hc : currentY < imgHeight
    · simp [hc] at h
    · simp only [hc, if_false, Option.some.injEq, Except.ok.injEq, Prod.mk.injEq] at h
      exact ⟨[], by simp [h.2], by simp [Pdf.append, h.1]⟩
  | succ fuel ih =>
    intro currentY pageNumber pdf bands pdf1 bands1 h
    by_cases hc : currentY < imgHeight
    · rw [multiPageLoop_step_any canvas imgWidth imgHeight maxHeight settings pageSize hsize fuel
        currentY pageNumber pdf bands hc] at h
      obtain ⟨new, hnew, hops⟩ := ih _ _ _ _ _ _ h
      refine ⟨bandAt canvas imgWidth imgHeight maxHeight settings currentY pageNumber :: new,
        by simp [hnew], ?_⟩
      rw [hops]
      simp [Pdf.append, List.append_assoc]
    · unfold multiPageLoop at h
      simp only [hc, if_false, Option.some.injEq, Except.ok.injEq, Prod.mk.injEq] at h
      exact ⟨[], by simp [h.2], by simp [Pdf.append, h.1]⟩

/-- With a footer asked for and a page size that is not of the table, a loop
that completes has cropped no band and made no call. -/
theorem multiPageLoop_footer_throws (canvas : Canvas) (imgWidth imgHeight maxHeight : ℚ)
    (settings : Settings)
    (hsize : ¬ ∃ pageSize, lookup pageSizes settings.pageSize = Lookup.own pageSize)
    (hs : settings.showPageNumbers ≠ JSVal.bool false)
    (fuel : ℕ) (currentY : ℚ) (pageNumber : ℕ) (pdf : Pdf) (bands : List Band) (pdf1 : Pdf)
    (bands1 : List Band)
    (h : multiPageLoop canvas imgWidth imgHeight maxHeight settings fuel currentY pageNumber pdf
      bands = some (Except.ok (pdf1, bands1))) :
    bands1 = bands ∧ pdf1 = pdf := by
  obtain ⟨t, ht⟩ := addPageNumber_not_own pageNumber settings hsize
  cases fuel with
  | zero =>
    unfold multiPageLoop at h
    by_cases hc : currentY < imgHeight
    · simp [hc] at h
    · simp only [hc, if_false, Option.some.injEq, Except.ok.injEq, Prod.mk.injEq] at h
      exact ⟨h.2.symm, h.1.symm⟩
  | succ fuel =>
    unfold multiPageLoop at h
    by_cases hc : currentY < imgHeight
    · simp only [hc, if_true, if_pos hs, ht] at h
      cases h
    · simp only [hc, if_false, Option.some.injEq, Except.ok.injEq, Prod.mk.injEq] at h
      exact ⟨h.2.symm, h.1.symm⟩

/-- C22. A completed `generateMultiPagePDF` with `N` bands has called `addPage`
exactly `N - 1` times and `addImage` exactly `N` times, for band `i` at
`(margin, margin)` with the width `imgWidth` and the height `cropHeight` of that
band. Band by band (for a page size of the table, or with no footer asked for)
the calls are those of `bandOps`: the band of index 0 is drawn without
`addPage`, on the page the new document already has, and every later band right
after an `addPage`. -/
theorem generateMultiPagePDF_pages_and_images (fuel : ℕ) (pdf : Pdf) (canvas : Canvas)
    (imgWidth imgHeight maxHeight : ℚ) (settings : Settings)
    (pdf1 : Pdf) (bands : List Band)
    (h : generateMultiPagePDF fuel pdf canvas imgWidth imgHeight maxHeight settings
      = some (Except.ok (pdf1, bands))) :
    pdf1.ops.count PdfOp.addPage = pdf.ops.count PdfOp.addPage + (bands.length - 1)
    ∧ imagesOf pdf1.ops = imagesOf pdf.ops
        ++ bands.map (fun b => (settings.margin, settings.margin, imgWidth, b.cropHeight))
    ∧ pdf1.pageCount = pdf.pageCount + (bands.length - 1)
    ∧ ∀ pageSize : PageSize,
        (lookup pageSizes settings.pageSize = Lookup.own pageSize
          ∨ settings.showPageNumbers = JSVal.bool false) →
        pdf1.ops = pdf.ops ++ (bands.map (bandOps settings pageSize imgWidth)).flatten
        ∧ ∀ (i : ℕ) (hi : i < bands.length),
            bandOps settings pageSize imgWidth (bands.get ⟨i, hi⟩)
              = (if 0 < i then [PdfOp.addPage] else [])
                  ++ [PdfOp.addImage settings.margin settings.margin imgWidth
                        (bands.get ⟨i, hi⟩).cropHeight]
                  ++ footerOps settings pageSize (i + 1) := by
  obtain ⟨new, hnew, hfrom⟩ := multiPageLoop_bands canvas imgWidth imgHeight maxHeight settings
    fuel settings.margin 1 pdf [] pdf1 bands h
  rw [List.nil_append] at hnew
  subst hnew
  have hnum := BandsFrom_pageNumbers canvas imgWidth imgHeight maxHeight settings bands _ _ hfrom
  have hany : ∀ pageSize : PageSize,
      (lookup pageSizes settings.pageSize = Lookup.own pageSize
        ∨ settings.showPageNumbers = JSVal.bool false) →
      pdf1.ops = pdf.ops ++ (bands.map (bandOps settings pageSize imgWidth)).flatten := by
    intro pageSize hsize
    obtain ⟨new1, hnew1, hops⟩ := multiPageLoop_ops_any canvas imgWidth imgHeight maxHeight
      settings pageSize hsize fuel settings.margin 1 pdf [] pdf1 bands h
    rw [List.nil_append] at hnew1
    subst hnew1
    rw [hops]
    rfl
  have hcount : pdf1.ops.count PdfOp.addPage = pdf.ops.count PdfOp.addPage + (bands.length - 1)
      ∧ imagesOf pdf1.ops = imagesOf pdf.ops
        ++ bands.map (fun b => (settings.margin, settings.margin, imgWidth, b.cropHeight)) := by
    by_cases hsize : ∃ pageSize, lookup pageSizes settings.pageSize = Lookup.own pageSize
        ∨ settings.showPageNumbers = JSVal.bool false
    · obtain ⟨pageSize, hsize⟩ := hsize
      have hc := BandsFrom_addPage_count canvas imgWidth imgHeight maxHeight settings pageSize
        bands _ _ (le_refl 1) hfrom
      rw [if_neg (by omega)] at hc
      rw [hany pageSize hsize]
      refine ⟨by rw [List.count_append, hc], ?_⟩
      rw [← imagesOf_bands settings pageSize imgWidth bands]
      unfold imagesOf
      rw [List.filterMap_append]
    · have hs : settings.showPageNumbers ≠ JSVal.bool false := fun hoff =>
        hsize ⟨{ width := 0, height := 0, unit := "" }, Or.inr hoff⟩
      have hno : ¬ ∃ pageSize, lookup pageSizes settings.pageSize = Lookup.own pageSize :=
        fun ⟨pageSize, hown⟩ => hsize ⟨pageSize, Or.inl hown⟩
      obtain ⟨hb, hp⟩ := multiPageLoop_footer_throws canvas imgWidth imgHeight maxHeight
        settings hno hs fuel settings.margin 1 pdf [] pdf1 bands h
      subst hb
      subst hp
      simp
  refine ⟨hcount.1, hcount.2, ?_, ?_⟩
  · unfold Pdf.pageCount
    rw [hcount.1]
    omega
  · intro pageSize hsize
    refine ⟨hany pageSize hsize, ?_⟩
    intro i hi
    have hpn : (bands.get ⟨i, hi⟩).pageNumber = i + 1 := by
      have h1 := congrArg (fun l => l[i]?) hnum
      simp only [List.getElem?_map, List.getElem?_range' 1 1 hi,
        List.getElem?_eq_getElem hi, Option.map_some', Option.some.injEq] at h1
      simp only [List.get_eq_getElem]
      omega
    unfold bandOps
    rw [hpn]
    by_cases h0 : 0 < i
    · simp [h0]
    · have : i = 0 := by omega
      subst this
      simp

/-- C22, at a concrete input: content 600 units high gives three bands, two
`addPage` calls and three images 170 wide at `(20, 20)`. -/
theorem generateMultiPagePDF_pages_and_images_witness :
    ∃ pdf1 bands,
      generateMultiPagePDF 5 blankPdf tallCanvas 170 600 257 sampleSettings
        = some (Except.ok (pdf1, bands))
      ∧ pdf1.ops.count PdfOp.addPage = 2
      ∧ imagesOf pdf1.ops = [(20, 20, 170, 257), (20, 20, 170, 257), (20, 20, 170, 66)]
      ∧ pdf1.ops.count PdfOp.addPage = bands.length - 1
      ∧ imagesOf pdf1.ops
          = bands.map (fun b => ((20 : ℚ), (20 : ℚ), (170 : ℚ), b.cropHeight))
      ∧ pdf1.pageCount = blankPdf.pageCount + (bands.length - 1) := by
  have hval : (generateMultiPagePDF 5 blankPdf tallCanvas 170 600 257 sampleSettings).map
      (fun r => r.toOption.map (fun x => x.1.ops.count PdfOp.addPage)) = some (some 2)
      ∧ (generateMultiPagePDF 5 blankPdf tallCanvas 170 600 257 sampleSettings).map
      (fun r => r.toOption.map (fun x => imagesOf x.1.ops))
      = some (some [(20, 20, 170, 257), (20, 20, 170, 257), (20, 20, 170, 66)]) := by
    constructor <;> decide!
  cases hres : generateMultiPagePDF 5 blankPdf tallCanvas 170 600 257 sampleSettings with
  | none => rw [hres] at hval; cases hval.1
  | some r =>
    cases r with
    | error t => rw [hres] at hval; cases hval.1
    | ok x =>
      obtain ⟨pdf1, bands⟩ := x
      rw [hres] at hval
      simp only [Option.map_some', Except.toOption, Option.some.injEq] at hval
      have hc := generateMultiPagePDF_pages_and_images 5 blankPdf tallCanvas 170 600 257
        sampleSettings pdf1 bands hres
      exact ⟨pdf1, bands, rfl, hval.1, hval.2, by simpa [blankPdf] using hc.1,
        by simpa [blankPdf, imagesOf, sampleSettings] using hc.2.1, hc.2.2.1⟩

/-! ## What the bands cover -/

/-- The number of bands cropped from an offset: the remaining height in pages,
rounded up. -/
theorem BandsFrom_length (canvas : Canvas) (imgWidth imgHeight maxHeight : ℚ)
    (settings : Settings) (hP : 0 < maxHeight) :
    ∀ (new : List Band) (currentY : ℚ) (pageNumber : ℕ),
      BandsFrom canvas imgWidth imgHeight maxHeight settings currentY pageNumber new →
      new.length = ⌈(imgHeight - currentY) / maxHeight⌉₊ := by
  intro new
  induction new with
  | nil =>
    intro currentY pageNumber h
    have hc : ¬ currentY < imgHeight := h
    have hle : (imgHeight - currentY) / maxHeight ≤ 0 :=
      div_nonpos_of_nonpos_of_nonneg (by linarith [not_lt.mp hc]) hP.le
    rw [List.length_nil, Nat.ceil_eq_zero.mpr hle]
  | cons a rest ih =>
    intro currentY pageNumber h
    obtain ⟨hc, _, hrest⟩ := h
    have hlen := ih _ _ hrest
    rw [List.length_cons, hlen]
    by_cases hfull : maxHeight ≤ imgHeight - currentY
    · rw [min_eq_left hfull]
      have hq : (imgHeight - currentY) / maxHeight
          = (imgHeight - (currentY + maxHeight)) / maxHeight + 1 := by
        field_simp
        ring
      have hnn : 0 ≤ (imgHeight - (currentY + maxHeight)) / maxHeight :=
        div_nonneg (by linarith) hP.le
      rw [hq, Nat.ceil_add_one hnn]
    · have hlt : imgHeight - currentY < maxHeight := not_le.mp hfull
      rw [min_eq_right hlt.le]
      have h0 : (imgHeight - (currentY + (imgHeight - currentY))) / maxHeight = 0 := by
        rw [show imgHeight - (currentY + (imgHeight - currentY)) = 0 by ring, zero_div]
      rw [h0, Nat.ceil_zero]
      symm
      rw [Nat.ceil_eq_iff (by decide)]
      constructor
      · simp only [Nat.reduceAdd, Nat.sub_self, Nat.cast_zero]
        exact div_pos (by linarith) hP
      · simp only [Nat.reduceAdd, Nat.cast_one]
        exact (div_le_one hP).mpr hlt.le

/-- The heights of the bands cropped from an offset add up to the remaining
height. -/
theorem BandsFrom_sum (canvas : Canvas) (imgWidth imgHeight maxHeight : ℚ)
    (settings : Settings) :
    ∀ (new : List Band) (currentY : ℚ) (pageNumber : ℕ),
      BandsFrom canvas imgWidth imgHeight maxHeight settings currentY pageNumber new →
      (new.map (fun b => b.cropHeight)).sum = max 0 (imgHeight - currentY) := by
  intro new
  induction new with
  | nil =>
    intro currentY pageNumber h
    have hc : ¬ currentY < imgHeight := h
    rw [List.map_nil, List.sum_nil, max_eq_left (by linarith [not_lt.mp hc])]
  | cons a rest ih =>
    intro currentY pageNumber h
    obtain ⟨hc, ha, hrest⟩ := h
    have hsum := ih _ _ hrest
    rw [List.map_cons, List.sum_cons, hsum, ha]
    have hpos : max 0 (imgHeight - currentY) = imgHeight - currentY :=
      max_eq_right (by linarith)
    rw [hpos]
    by_cases hfull : maxHeight ≤ imgHeight - currentY
    · simp only [min_eq_left hfull]
      rw [max_eq_right (by linarith)]
      ring
    · have hlt : imgHeight - currentY < maxHeight := not_le.mp hfull
      simp only [min_eq_right hlt.le]
      rw [max_eq_left (by linarith)]
      ring

/-! ## The bands in the arithmetic of the language -/

/-- With the identity for rounding, the rounded loop is the exact loop. -/
theorem multiPageLoopFl_id (canvas : Canvas) (imgWidth imgHeight maxHeight : ℚ)
    (settings : Settings) :
    ∀ (fuel : ℕ) (currentY : ℚ) (pageNumber : ℕ) (pdf : Pdf) (bands : List Band),
      multiPageLoopFl (fun x => x) canvas imgWidth imgHeight maxHeight settings fuel currentY
          pageNumber pdf bands
        = multiPageLoop canvas imgWidth imgHeight maxHeight settings fuel currentY pageNumber pdf
            bands := by
  intro fuel
  induction fuel with
  | zero => intro currentY pageNumber pdf bands; rfl
  | succ fuel ih =>
    intro currentY pageNumber pdf bands
    simp only [multiPageLoopFl, multiPageLoop, ih]

/-- The bands of a completed rounded loop are appended to the ones collected
before, and each is cropped from the source at the rounded scaling of its place
on the page. -/
theorem multiPageLoopFl_bands (fl : ℚ → ℚ) (canvas : Canvas)
    (imgWidth imgHeight maxHeight : ℚ) (settings : Settings) :
    ∀ (fuel : ℕ) (currentY : ℚ) (pageNumber : ℕ) (pdf : Pdf) (bands : List Band) (pdf1 : Pdf)
      (bands1 : List Band),
      multiPageLoopFl fl canvas imgWidth imgHeight maxHeight settings fuel currentY pageNumber
          pdf bands = some (Except.ok (pdf1, bands1)) →
      ∃ new, bands1 = bands ++ new
        ∧ (currentY < imgHeight → ∃ b rest, new = b :: rest ∧ b.pageNumber = pageNumber
            ∧ b.currentY = currentY ∧ b.cropHeight = min maxHeight (fl (imgHeight - currentY)))
        ∧ ∀ b ∈ new,
            b.sourceY = fl (fl (fl (b.currentY - settings.margin) * canvas.width) / imgWidth)
            ∧ b.sourceHeight = fl (fl (b.cropHeight * canvas.width) / imgWidth) := by
  intro fuel
  induction fuel with
  | zero =>
    intro currentY pageNumber pdf bands pdf1 bands1 h
    unfold multiPageLoopFl at h
    by_cases hc : currentY < imgHeight
    · simp [hc] at h
    · simp only [hc, if_false, Option.some.injEq, Except.ok.injEq, Prod.mk.injEq] at h
      exact ⟨[], by simp [h.2], fun hlt => absurd hlt hc, fun b hb => absurd hb (List.not_mem_nil b)⟩
  | succ fuel ih =>
    intro currentY pageNumber pdf bands pdf1 bands1 h
    by_cases hc : currentY < imgHeight
    · rw [multiPageLoopFl] at h
      simp only [hc, if_true] at h
      have key : ∀ pdfn : Pdf,
          multiPageLoopFl fl canvas imgWidth imgHeight maxHeight settings fuel
            (fl (currentY + min maxHeight (fl (imgHeight - currentY)))) (pageNumber + 1) pdfn
            (bands ++ [bandAtFl fl canvas imgWidth imgHeight maxHeight settings currentY
              pageNumber]) = some (Except.ok (pdf1, bands1)) →
          ∃ new, bands1 = bands ++ new
            ∧ (currentY < imgHeight → ∃ b rest, new = b :: rest ∧ b.pageNumber = pageNumber
                ∧ b.currentY = currentY
                ∧ b.cropHeight = min maxHeight (fl (imgHeight - currentY)))
            ∧ ∀ b ∈ new,
                b.sourceY = fl (fl (fl (b.currentY - settings.margin) * canvas.width) / imgWidth)
                ∧ b.sourceHeight = fl (fl (b.cropHeight * canvas.width) / imgWidth) := by
        intro pdfn hrec
        obtain ⟨new, hnew, _, hsrc⟩ := ih _ _ _ _ _ _ hrec
        refine ⟨_ :: new, by rw [hnew, List.append_assoc]; rfl,
          fun _ => ⟨_, new, rfl, rfl, rfl, rfl⟩, ?_⟩
        intro b hb
        rcases List.mem_cons.mp hb with hb0 | hbn
        · rw [hb0]
          exact ⟨rfl, rfl⟩
        · exact hsrc b hbn
      by_cases hs : settings.showPageNumbers ≠ JSVal.bool false
      · simp only [if_pos hs] at h
        split at h
        · cases h
        · exact key _ h
      · simp only [if_neg hs] at h
        exact key _ h
    · unfold multiPageLoopFl at h
      simp only [hc, if_false, Option.some.injEq, Except.ok.injEq, Prod.mk.injEq] at h
      exact ⟨[], by simp [h.2], fun hlt => absurd hlt hc, fun b hb => absurd hb (List.not_mem_nil b)⟩

/-- When no difference `imgHeight - currentY` and no sum `currentY + cropHeight`
of the loop is rounded, the rounded loop puts the same bands at the same places
of the same pages as the exact loop. -/
theorem multiPageLoopFl_exact (fl : ℚ → ℚ) (canvas : Canvas) (imgWidth imgHeight maxHeight : ℚ)
    (settings : Settings)
    (hexact : ∀ k : ℕ, settings.margin + k * maxHeight < imgHeight →
      fl (imgHeight - (settings.margin + k * maxHeight))
          = imgHeight - (settings.margin + k * maxHeight)
      ∧ fl (settings.margin + k * maxHeight
            + min maxHeight (imgHeight - (settings.margin + k * maxHeight)))
          = settings.margin + k * maxHeight
            + min maxHeight (imgHeight - (settings.margin + k * maxHeight))) :
    ∀ (fuel : ℕ) (currentY : ℚ) (pageNumber : ℕ) (pdf : Pdf) (bandsFl bands : List Band),
      ((∃ k : ℕ, currentY = settings.margin + k * maxHeight) ∨ ¬ currentY < imgHeight) →
      bandsFl.map Band.page = bands.map Band.page →
      onPages (multiPageLoopFl fl canvas imgWidth imgHeight maxHeight settings fuel currentY
          pageNumber pdf bandsFl)
        = onPages (multiPageLoop canvas imgWidth imgHeight maxHeight settings fuel currentY
            pageNumber pdf bands) := by
  intro fuel
  induction fuel with
  | zero =>
    intro currentY pageNumber pdf bandsFl bands _ hb
    unfold multiPageLoopFl multiPageLoop
    by_cases hc : currentY < imgHeight
    · simp only [hc, if_true, onPages, Option.map_none']
    · simp only [hc, if_false, onPages, Option.map_some', Except.map, hb]
  | succ fuel ih =>
    intro currentY pageNumber pdf bandsFl bands hy hb
    by_cases hc : currentY < imgHeight
    · obtain ⟨k, hk⟩ : ∃ k : ℕ, currentY = settings.margin + k * maxHeight := by
        rcases hy with hk | hn
        · exact hk
        · exact absurd hc hn
      obtain ⟨e1, e2⟩ := hexact k (hk ▸ hc)
      rw [← hk] at e1 e2
      have hnext : (∃ j : ℕ, currentY + min maxHeight (imgHeight - currentY)
            = settings.margin + j * maxHeight)
          ∨ ¬ currentY + min maxHeight (imgHeight - currentY) < imgHeight := by
        by_cases hfull : maxHeight ≤ imgHeight - currentY
        · left
          refine ⟨k + 1, ?_⟩
          rw [min_eq_left hfull, hk]
          push_cast
          ring
        · right
          rw [min_eq_right (not_le.mp hfull).le]
          intro hlt
          linarith
      rw [multiPageLoopFl, multiPageLoop]
      simp only [hc, if_true, e1, e2]
      by_cases hs : settings.showPageNumbers ≠ JSVal.bool false
      · simp only [if_pos hs]
        split
        · rfl
        · exact ih _ _ _ _ _ hnext (by simp [hb, Band.page])
      · simp only [if_neg hs]
        exact ih _ _ _ _ _ hnext (by simp [hb, Band.page])
    · unfold multiPageLoopFl multiPageLoop
      simp only [hc, if_false, onPages, Option.map_some', Except.map, hb]

/-- The heights of the bands are read off their places on the page. -/
theorem map_cropHeight_page (l : List Band) :
    (l.map Band.page).map (fun x => x.2.2) = l.map (fun b => b.cropHeight) := by
  rw [List.map_map]
  rfl

/-- The offsets of the bands are read off their places on the page. -/
theorem map_currentY_page (l : List Band) :
    (l.map Band.page).map (fun x => x.2.1) = l.map (fun b => b.currentY) := by
  rw [List.map_map]
  rfl

/-- C23 (counterexample). In the arithmetic of the language the bands are not
what the claim counts. An A4 export with the margin 14.4 of a raster 170 by 1020
hands `generateMultiPagePDF` numbers `H`, `m`, `P` with `ceil ((H - m) / P) = 5`,
and the loop crops 4 bands. With the margin 19.05 and a raster 382 by 1193 the
loop crops 3 bands, the last `2 ^ -43` high, whose heights do not sum to
`H - m`, where the same dimensions computed exactly give
`ceil ((H - m) / P) = 2`. -/
theorem generateMultiPagePDF_rounded_bands :
    ((generateMultiPagePDFFl roundDouble 6 blankPdf longCanvas
        (pageDimensionsFl roundDouble a4 longCanvas (roundDouble (72 / 5))).1
        (pageDimensionsFl roundDouble a4 longCanvas (roundDouble (72 / 5))).2.1
        (pageDimensionsFl roundDouble a4 longCanvas (roundDouble (72 / 5))).2.2
        { sampleSettings with margin := roundDouble (72 / 5) }).map
        (fun r => r.toOption.map (fun x => x.2.length)) = some (some 4)
      ∧ ⌈((pageDimensionsFl roundDouble a4 longCanvas (roundDouble (72 / 5))).2.1
            - roundDouble (72 / 5))
          / (pageDimensionsFl roundDouble a4 longCanvas (roundDouble (72 / 5))).2.2⌉₊ = 5)
    ∧ ((generateMultiPagePDFFl roundDouble 6 blankPdf wideCanvas
        (pageDimensionsFl roundDouble a4 wideCanvas (roundDouble (1905 / 100))).1
        (pageDimensionsFl roundDouble a4 wideCanvas (roundDouble (1905 / 100))).2.1
        (pageDimensionsFl roundDouble a4 wideCanvas (roundDouble (1905 / 100))).2.2
        { sampleSettings with margin := roundDouble (1905 / 100) }).map
        (fun r => r.toOption.map (fun x => x.2.map (fun b => b.cropHeight)))
        = some (some [(pageDimensionsFl roundDouble a4 wideCanvas (roundDouble (1905 / 100))).2.2,
            (pageDimensionsFl roundDouble a4 wideCanvas (roundDouble (1905 / 100))).2.2,
            1 / 2 ^ 43])
      ∧ (pageDimensionsFl roundDouble a4 wideCanvas (roundDouble (1905 / 100))).2.2
          + (pageDimensionsFl roundDouble a4 wideCanvas (roundDouble (1905 / 100))).2.2
          + 1 / 2 ^ 43
        ≠ max 0 ((pageDimensionsFl roundDouble a4 wideCanvas (roundDouble (1905 / 100))).2.1
            - roundDouble (1905 / 100))
      ∧ ⌈((pageDimensionsFl (fun x => x) a4 wideCanvas (1905 / 100)).2.1 - 1905 / 100)
          / (pageDimensionsFl (fun x => x) a4 wideCanvas (1905 / 100)).2.2⌉₊ = 2) := by
  decide!

/-- C23 (amended). For a margin `m ≥ 0`, a printable height `P > 0` and a
content height `H`, in arithmetic rounded by any `fl` that keeps 0:
`generateMultiPagePDF` crops no band when `H ≤ m`; when `H > m` the first band
of a completed run is on page 1 at the offset `m`, is `min P (fl (H - m))` high
and is cropped from the source offset 0, and every band is cropped from the
source at the rounded scaling of its offset less the margin. When moreover none
of the differences `H - currentY` and sums `currentY + cropHeight` of the loop
is rounded (at the offsets `m + k * P` below `H`), the loop completes within
`ceil ((H - m) / P)` iterations with exactly that many bands, each at the offset
`m` plus the heights of the bands before it, and the heights sum to
`max 0 (H - m)`, which for `H > 0` is `H` exactly when `m = 0`. -/
theorem generateMultiPagePDFFl_coverage (fl : ℚ → ℚ) (pdf : Pdf) (canvas : Canvas)
    (imgWidth imgHeight maxHeight : ℚ) (settings : Settings)
    (hm : 0 ≤ settings.margin) (hP : 0 < maxHeight) (hzero : fl 0 = 0) :
    (imgHeight ≤ settings.margin → ∀ fuel : ℕ,
      generateMultiPagePDFFl fl fuel pdf canvas imgWidth imgHeight maxHeight settings
        = some (Except.ok (pdf, [])))
    ∧ (∀ (fuel : ℕ) (pdf1 : Pdf) (bands : List Band),
        generateMultiPagePDFFl fl fuel pdf canvas imgWidth imgHeight maxHeight settings
          = some (Except.ok (pdf1, bands)) →
        (settings.margin < imgHeight →
          ∃ b rest, bands = b :: rest ∧ b.pageNumber = 1 ∧ b.currentY = settings.margin
            ∧ b.cropHeight = min maxHeight (fl (imgHeight - settings.margin))
            ∧ b.sourceY = 0)
        ∧ ∀ b ∈ bands,
            b.sourceY = fl (fl (fl (b.currentY - settings.margin) * canvas.width) / imgWidth)
            ∧ b.sourceHeight = fl (fl (b.cropHeight * canvas.width) / imgWidth))
    ∧ ((∀ k : ℕ, settings.margin + k * maxHeight < imgHeight →
          fl (imgHeight - (settings.margin + k * maxHeight))
              = imgHeight - (settings.margin + k * maxHeight)
          ∧ fl (settings.margin + k * maxHeight
                + min maxHeight (imgHeight - (settings.margin + k * maxHeight)))
              = settings.margin + k * maxHeight
                + min maxHeight (imgHeight - (settings.margin + k * maxHeight))) →
        (∀ fuel : ℕ, ⌈(imgHeight - settings.margin) / maxHeight⌉₊ ≤ fuel →
          ∃ r, generateMultiPagePDFFl fl fuel pdf canvas imgWidth imgHeight maxHeight settings
            = some r)
        ∧ ∀ (fuel : ℕ) (pdf1 : Pdf) (bands : List Band),
            generateMultiPagePDFFl fl fuel pdf canvas imgWidth imgHeight maxHeight settings
              = some (Except.ok (pdf1, bands)) →
            bands.length = ⌈(imgHeight - settings.margin) / maxHeight⌉₊
            ∧ (bands.map (fun b => b.cropHeight)).sum = max 0 (imgHeight - settings.margin)
            ∧ (∀ (i : ℕ) (hi : i < bands.length),
                (bands.get ⟨i, hi⟩).currentY
                  = settings.margin + ((bands.take i).map (fun b => b.cropHeight)).sum)
            ∧ (0 < imgHeight →
                ((bands.map (fun b => b.cropHeight)).sum = imgHeight ↔ settings.margin = 0))) := by
  refine ⟨?_, ?_, ?_⟩
  · intro hle fuel
    have hc : ¬ settings.margin < imgHeight := not_lt.mpr hle
    unfold generateMultiPagePDFFl
    cases fuel with
    | zero => simp only [multiPageLoopFl, hc, if_false]
    | succ fuel => simp only [multiPageLoopFl, hc, if_false]
  · intro fuel pdf1 bands h
    obtain ⟨new, hnew, hfirst, hsrc⟩ := multiPageLoopFl_bands fl canvas imgWidth imgHeight
      maxHeight settings fuel settings.margin 1 pdf [] pdf1 bands h
    rw [List.nil_append] at hnew
    subst hnew
    refine ⟨?_, hsrc⟩
    intro hlt
    obtain ⟨b, rest, hb, h1, h2, h3⟩ := hfirst hlt
    refine ⟨b, rest, hb, h1, h2, h3, ?_⟩
    rw [(hsrc b (by rw [hb]; exact List.mem_cons_self _ _)).1, h2, sub_self, hzero, zero_mul,
      hzero, zero_div, hzero]
  · intro hexact
    have htrack : ∀ fuel : ℕ,
        onPages (generateMultiPagePDFFl fl fuel pdf canvas imgWidth imgHeight maxHeight settings)
          = onPages (generateMultiPagePDF fuel pdf canvas imgWidth imgHeight maxHeight
              settings) := by
      intro fuel
      exact multiPageLoopFl_exact fl canvas imgWidth imgHeight maxHeight settings hexact fuel
        settings.margin 1 pdf [] [] (Or.inl ⟨0, by simp⟩) rfl
    constructor
    · intro fuel hfuel
      have hle : imgHeight - settings.margin ≤ fuel * maxHeight := by
        have h1 : (imgHeight - settings.margin) / maxHeight ≤ (fuel : ℚ) := Nat.ceil_le.mp hfuel
        exact (div_le_iff₀ hP).mp h1
      obtain ⟨r, hr, _⟩ := multiPageLoop_terminates canvas imgWidth imgHeight maxHeight settings
        hP fuel settings.margin 1 pdf [] hle
      have ht := htrack fuel
      unfold generateMultiPagePDF at ht
      rw [hr] at ht
      cases hfl : generateMultiPagePDFFl fl fuel pdf canvas imgWidth imgHeight maxHeight
          settings with
      | none => rw [hfl] at ht; simp [onPages] at ht
      | some x => exact ⟨x, rfl⟩
    · intro fuel pdf1 bands h
      have ht := htrack fuel
      rw [h] at ht
      obtain ⟨exact, hrun, hsame⟩ : ∃ exact,
          generateMultiPagePDF fuel pdf canvas imgWidth imgHeight maxHeight settings
            = some (Except.ok (pdf1, exact))
          ∧ bands.map Band.page = exact.map Band.page := by
        cases hex : generateMultiPagePDF fuel pdf canvas imgWidth imgHeight maxHeight
            settings with
        | none => rw [hex] at ht; simp [onPages] at ht
        | some x =>
          cases x with
          | error t => rw [hex] at ht; simp [onPages, Except.map] at ht
          | ok y =>
            obtain ⟨pdf2, bands2⟩ := y
            rw [hex] at ht
            simp only [onPages, Option.map_some', Except.map, Option.some.injEq,
              Except.ok.injEq, Prod.mk.injEq] at ht
            exact ⟨bands2, by rw [ht.1], ht.2⟩
      obtain ⟨new, hnew, hfrom⟩ := multiPageLoop_bands canvas imgWidth imgHeight maxHeight
        settings fuel settings.margin 1 pdf [] pdf1 exact hrun
      rw [List.nil_append] at hnew
      subst hnew
      have hlen := BandsFrom_length canvas imgWidth imgHeight maxHeight settings hP exact _ _
        hfrom
      have hsum := BandsFrom_sum canvas imgWidth imgHeight maxHeight settings exact _ _ hfrom
      have hoff := (BandsFrom_offsets canvas imgWidth imgHeight maxHeight settings exact _ _
        hfrom).1
      have hl : bands.length = exact.length := by
        have := congrArg List.length hsame
        simpa using this
      have hcrop : bands.map (fun b => b.cropHeight) = exact.map (fun b => b.cropHeight) := by
        rw [← map_cropHeight_page, ← map_cropHeight_page, hsame]
      have hcur : bands.map (fun b => b.currentY) = exact.map (fun b => b.currentY) := by
        rw [← map_currentY_page, ← map_currentY_page, hsame]
      have hsum1 : (bands.map (fun b => b.cropHeight)).sum = max 0 (imgHeight - settings.margin) := by
        rw [hcrop, hsum]
      refine ⟨by rw [hl, hlen], hsum1, ?_, ?_⟩
      · intro i hi
        have hi1 : i < exact.length := by rw [← hl]; exact hi
        have h1 := congrArg (fun l => l[i]?) hcur
        simp only [List.getElem?_map, List.getElem?_eq_getElem hi, List.getElem?_eq_getElem hi1,
          Option.map_some', Option.some.injEq] at h1
        have h2 := hoff i hi1
        simp only [List.get_eq_getElem] at h2 ⊢
        rw [h1, h2, List.map_take, List.map_take, hcrop]
      · intro hH
        rw [hsum1]
        constructor
        · intro heq
          rcases le_total (imgHeight - settings.margin) 0 with hneg | hpos
          · rw [max_eq_left hneg] at heq
            linarith
          · rw [max_eq_right hpos] at heq
            linarith
        · intro h0
          rw [h0, sub_zero, max_eq_right hH.le]

/-- C23 (amended), at a concrete input: in the arithmetic of the language,
content 600 units high with the margin 20 on pages of 257 units is cut without
rounding into `ceil (580 / 257) = 3` bands whose heights add up to 580. -/
theorem generateMultiPagePDFFl_coverage_witness :
    ∃ pdf1 bands,
      generateMultiPagePDFFl roundDouble 3 blankPdf tallCanvas 170 600 257 sampleSettings
        = some (Except.ok (pdf1, bands))
      ∧ bands.map (fun b => b.cropHeight) = [257, 257, 66]
      ∧ bands.length = ⌈((600 : ℚ) - sampleSettings.margin) / 257⌉₊
      ∧ (bands.map (fun b => b.cropHeight)).sum = max 0 (600 - sampleSettings.margin) := by
  have hval : (generateMultiPagePDFFl roundDouble 3 blankPdf tallCanvas 170 600 257
      sampleSettings).map (fun r => r.toOption.map (fun x => x.2.map (fun b => b.cropHeight)))
      = some (some [257, 257, 66]) := by decide!
  have hmargin : sampleSettings.margin = 20 := by decide!
  cases hres : generateMultiPagePDFFl roundDouble 3 blankPdf tallCanvas 170 600 257
      sampleSettings with
  | none => rw [hres] at hval; cases hval
  | some r =>
    cases r with
    | error t => rw [hres] at hval; cases hval
    | ok x =>
      obtain ⟨pdf1, bands⟩ := x
      rw [hres] at hval
      simp only [Option.map_some', Except.toOption, Option.some.injEq] at hval
      have hc := ((generateMultiPagePDFFl_coverage roundDouble blankPdf tallCanvas 170 600 257
        sampleSettings (by decide!) (by norm_num) (by decide!)).2.2 (by
          intro k hk
          rw [hmargin] at hk ⊢
          have hk3 : k < 3 := by
            by_contra hge
            have h3 : (3 : ℚ) ≤ k := by exact_mod_cast not_lt.mp hge
            linarith
          interval_cases k <;> exact ⟨by decide!, by decide!⟩)).2 3 pdf1 bands hres
      exact ⟨pdf1, bands, rfl, hval, hc.1, hc.2.1⟩

/-! ## The page-size guard of `generatePDF` -/

/-- A page size that is neither an entry of the table nor a property name of
`Object.prototype` is rejected before anything else is done: the world is
unchanged, and `generateFromElement` answers `false` with the flag cleared. -/
theorem generatePDF_missing_page_size (env : Env) (fuel : ℕ) (element : Node)
    (settings : Settings) (w : World) (hjs : env.jspdfLoaded = true)
    (hsize : lookup pageSizes settings.pageSize = Lookup.missing) :
    generatePDF env fuel element settings w
      = some (Except.error (Thrown.invalidPageSize settings.pageSize), w) := by
  simp only [generatePDF, hjs, hsize, Bool.true_eq_false, if_false]

/-- C24 (the code at the failing input). The page size `constructor` is none of
`a4`, `letter`, `legal`, `a3`, but `this.pageSizes["constructor"]` is the
inherited `Object` function, which is truthy, so the guard does not throw:
`generatePDF` creates the clone, hands it to html2canvas, saves a document and
returns `true`, and `generateFromElement` returns `true`. -/
theorem generatePDF_accepts_inherited_page_size :
    pageSizes "constructor" = none
    ∧ lookup pageSizes (JSVal.str "constructor") = Lookup.inherited
    ∧ (generatePDF (sampleEnv shortCanvas) 5 { handle := 0, id := "cert-1", kind := NodeKind.page }
        { sampleSettings with pageSize := JSVal.str "constructor" } sampleWorld).map
        (fun r => (r.1, rasterised r.2, savedNames r.2))
      = some (Except.ok (JSVal.bool true),
          [{ handle := 1, id := "pdf-clone-0", kind := NodeKind.clone }], [JSVal.str "c.pdf"])
    ∧ (generateFromElement (sampleEnv shortCanvas) 5 "cert-1" "c.pdf"
        (OptionsArg.object { Options.empty with pageSize := some (JSVal.str "constructor") })
        sampleWorld).map (fun r => (r.1, r.2.gen.isGenerating, savedNames r.2))
      = some (Except.ok true, false, [JSVal.str "c.pdf"]) := by
  decide!

/-! ## Orientation and the pagination geometry -/

/-- The footer does not depend on the orientation. -/
theorem addPageNumber_orientation (pdf : Pdf) (pageNumber : ℕ) (settings : Settings) (o : JSVal) :
    addPageNumber pdf pageNumber { settings with orientation := o }
      = addPageNumber pdf pageNumber settings := rfl

/-- The pagination loop does not depend on the orientation. -/
theorem multiPageLoop_orientation (canvas : Canvas) (imgWidth imgHeight maxHeight : ℚ)
    (settings : Settings) (o : JSVal) :
    ∀ (fuel : ℕ) (currentY : ℚ) (pageNumber : ℕ) (pdf : Pdf) (bands : List Band),
      multiPageLoop canvas imgWidth imgHeight maxHeight { settings with orientation := o } fuel
          currentY pageNumber pdf bands
        = multiPageLoop canvas imgWidth imgHeight maxHeight settings fuel currentY pageNumber pdf
            bands := by
  intro fuel
  induction fuel with
  | zero => intro currentY pageNumber pdf bands; rfl
  | succ fuel ih =>
    intro currentY pageNumber pdf bands
    simp only [multiPageLoop, ih, addPageNumber_orientation]

/-- C25. The pagination does not read the orientation: with any orientation in
the settings, and so with `landscape` as with `portrait`, the dimensions step
of `generatePDF`, the pagination loop (its calls and its bands) and the footer
are the same. The content width is `pageSize.width - 2 * margin` and the
printable height `pageSize.height - 2 * margin` of the entry of the page-size
table, whose width is the shorter side in all four entries; the footer is at
`(pageSize.width / 2, pageSize.height - 10)`. A landscape export of the sample
raster saves a document with the same three pages as a portrait export. -/
theorem paginate_orientation_independent (fuel : ℕ) (pageSize : Lookup PageSize) (pdf : Pdf)
    (canvas : Canvas) (settings : Settings) (o : JSVal) :
    paginate fuel pageSize pdf canvas { settings with orientation := o }
        = paginate fuel pageSize pdf canvas settings
    ∧ paginate fuel pageSize pdf canvas { settings with orientation := JSVal.str "landscape" }
        = paginate fuel pageSize pdf canvas { settings with orientation := JSVal.str "portrait" }
    ∧ (∀ imgWidth imgHeight maxHeight : ℚ,
        generateMultiPagePDF fuel pdf canvas imgWidth imgHeight maxHeight
            { settings with orientation := o }
          = generateMultiPagePDF fuel pdf canvas imgWidth imgHeight maxHeight settings)
    ∧ (∀ pageNumber : ℕ, addPageNumber pdf pageNumber { settings with orientation := o }
          = addPageNumber pdf pageNumber settings)
    ∧ (∀ size : PageSize,
        paginate fuel (Lookup.own size) pdf canvas { settings with orientation := o }
          = if canvas.height * (size.width - settings.margin * 2) / canvas.width
                ≤ size.height - settings.margin * 2 then
              some (Except.ok (pdf.append
                [PdfOp.addImage settings.margin settings.margin (size.width - settings.margin * 2)
                  (canvas.height * (size.width - settings.margin * 2) / canvas.width)]))
            else
              (generateMultiPagePDF fuel pdf canvas (size.width - settings.margin * 2)
                (canvas.height * (size.width - settings.margin * 2) / canvas.width)
                (size.height - settings.margin * 2) settings).map
                (fun r => r.map (fun x => x.1)))
    ∧ ["a4", "letter", "legal", "a3"].map pageSizes
        = [some { width := 210, height := 297, unit := "mm" },
           some { width := 216, height := 279, unit := "mm" },
           some { width := 216, height := 356, unit := "mm" },
           some { width := 297, height := 420, unit := "mm" }]
    ∧ (generatePDF (sampleEnv tallCanvas) 5 { handle := 0, id := "cert-1", kind := NodeKind.page }
          { sampleSettings with orientation := JSVal.str "landscape" } sampleWorld).map
          (fun r => (r.1, savedOps r.2))
        = (generatePDF (sampleEnv tallCanvas) 5 { handle := 0, id := "cert-1", kind := NodeKind.page }
          { sampleSettings with orientation := JSVal.str "portrait" } sampleWorld).map
          (fun r => (r.1, savedOps r.2))
    ∧ (generatePDF (sampleEnv tallCanvas) 5 { handle := 0, id := "cert-1", kind := NodeKind.page }
          { sampleSettings with orientation := JSVal.str "landscape" } sampleWorld).map
          (fun r => (r.1, savedPageCounts r.2))
        = some (Except.ok (JSVal.bool true), [3])
    ∧ (generatePDF (sampleEnv tallCanvas) 5 { handle := 0, id := "cert-1", kind := NodeKind.page }
          { sampleSettings with orientation := JSVal.str "landscape" } sampleWorld).map
          (fun r => (savedOps r.2).map imagesOf)
        = some [[(20, 20, 170, 257), (20, 20, 170, 257), (20, 20, 170, 66)]] := by
  have hloop : ∀ (o1 : JSVal) (imgWidth imgHeight maxHeight : ℚ),
      generateMultiPagePDF fuel pdf canvas imgWidth imgHeight maxHeight
          { settings with orientation := o1 }
        = generateMultiPagePDF fuel pdf canvas imgWidth imgHeight maxHeight settings :=
    fun o1 imgWidth imgHeight maxHeight =>
      multiPageLoop_orientation canvas imgWidth imgHeight maxHeight settings o1 fuel _ _ _ _
  have hpag : ∀ o1 : JSVal, paginate fuel pageSize pdf canvas { settings with orientation := o1 }
      = paginate fuel pageSize pdf canvas settings := by
    intro o1
    cases pageSize with
    | own size => simp only [paginate, hloop]
    | inherited => rfl
    | missing => rfl
  refine ⟨hpag o, (hpag _).trans (hpag _).symm, hloop o, fun _ => rfl, ?_, by decide!, by decide!,
    by decide!, by decide!⟩
  intro size
  simp only [paginate, hloop, Pdf.append]
  split
  · rfl
  · cases generateMultiPagePDF fuel pdf canvas (size.width - settings.margin * 2)
        (canvas.height * (size.width - settings.margin * 2) / canvas.width)
        (size.height - settings.margin * 2) settings with
    | none => rfl
    | some r =>
      cases r with
      | error t => rfl
      | ok x => rfl

/-! ## The document counter -/

/-- A history with a record pushed and cut to its last 500 entries. -/
theorem pushed_history (old : List DocumentRecord) (record : DocumentRecord)
    (history : List DocumentRecord)
    (hh : history = if (old ++ [record]).length > 500 then
        (old ++ [record]).drop ((old ++ [record]).length - 500) else old ++ [record]) :
    history.length ≤ 500
    ∧ history.getLast? = some record
    ∧ history = (old ++ [record]).drop ((old ++ [record]).length - 500)
    ∧ (old.length < 500 → history = old ++ [record])
    ∧ (500 ≤ old.length → history.length = 500) := by
  subst hh
  refine ⟨?_, ?_, ?_, ?_, ?_⟩
  · split
    · rw [List.length_drop]; omega
    · omega
  · split
    · rw [List.getLast?_drop, if_neg (by omega), List.getLast?_concat]
    · rw [List.getLast?_concat]
  · split
    · rfl
    · rename_i hshort
      have h0 : (old ++ [record]).length - 500 = 0 := by omega
      rw [h0, List.drop_zero]
  · intro hshort
    rw [if_neg (by rw [List.length_append, List.length_singleton]; omega)]
  · intro hfull
    rw [if_pos (by rw [List.length_append, List.length_singleton]; omega), List.length_drop,
      List.length_append, List.length_singleton]
    omega

/-- C21. After `trackDocumentGeneration` (which ends by throwing, its updates
made) `documentsGenerated` is larger by exactly 1, and `documentHistory` is the
earlier history (empty when there was none) with the new record pushed, less
the entries at its front beyond the last 500: it has at most 500 records, the
last one is the record just added, of the type given (`unknown` without an
argument), and a history of fewer than 500 records is kept whole. -/
theorem trackDocumentGeneration_history (clock : VisitClock) (type : Option String)
    (w : VisitorWorld) :
    (VisitorCounter.trackDocumentGeneration clock type w).1 = Except.error Thrown.typeError
    ∧ (VisitorCounter.trackDocumentGeneration clock type w).2.counter.stats.documentsGenerated
        = w.counter.stats.documentsGenerated + 1
    ∧ ∃ history record,
        (VisitorCounter.trackDocumentGeneration clock type w).2.counter.stats.documentHistory
          = some history
        ∧ record = { type := type.getD "unknown", timestamp := toISOString clock.today clock.time,
                     visitorId := w.counter.visitorId, sessionId := w.counter.currentSession.id }
        ∧ history.length ≤ 500
        ∧ history.getLast? = some record
        ∧ history = (w.counter.stats.documentHistory.getD [] ++ [record]).drop
            ((w.counter.stats.documentHistory.getD [] ++ [record]).length - 500)
        ∧ ((w.counter.stats.documentHistory.getD []).length < 500 →
            history = w.counter.stats.documentHistory.getD [] ++ [record])
        ∧ (500 ≤ (w.counter.stats.documentHistory.getD []).length → history.length = 500) := by
  refine ⟨rfl, ?_, ?_⟩
  · unfold VisitorCounter.trackDocumentGeneration
    rw [saveStats_counter]
    rfl
  · unfold VisitorCounter.trackDocumentGeneration
    rw [saveStats_counter]
    exact ⟨_, _, rfl, rfl, pushed_history _ _ _ rfl⟩

/-- C21, at a concrete input: the 501st document on a history of 500. -/
theorem trackDocumentGeneration_history_witness :
    (VisitorCounter.trackDocumentGeneration sampleClock (some "certificate")
        busyVisitorWorld).2.counter.stats.documentsGenerated = 501
    ∧ ∃ history record,
        (VisitorCounter.trackDocumentGeneration sampleClock (some "certificate")
          busyVisitorWorld).2.counter.stats.documentHistory = some history
        ∧ record = { type := "certificate", timestamp := "2026-11-05T09:30:00.000Z",
                     visitorId := "visitor_a", sessionId := "session_1" }
        ∧ history.length = 500
        ∧ history.getLast? = some record := by
  obtain ⟨_, hcount, history, record, hhist, hrec, _, hlast, _, _, hfull⟩ :=
    trackDocumentGeneration_history sampleClock (some "certificate") busyVisitorWorld
  refine ⟨hcount.trans (by decide!), history, record, hhist, hrec.trans (by decide!),
    hfull (by decide!), hlast⟩

/-! ## The visitor counters -/

/-- C26. After `trackVisit`, `totalVisitors` is `uniqueVisitors +
returningVisitors`, and `pageViews` and `sessions` have each grown by exactly
1. -/
theorem trackVisit_totals (clock : VisitClock) (w : VisitorWorld) :
    (VisitorCounter.trackVisit clock w).counter.stats.totalVisitors
      = (VisitorCounter.trackVisit clock w).counter.stats.uniqueVisitors
        + (VisitorCounter.trackVisit clock w).counter.stats.returningVisitors
    ∧ (VisitorCounter.trackVisit clock w).counter.stats.pageViews
        = w.counter.stats.pageViews + 1
    ∧ (VisitorCounter.trackVisit clock w).counter.stats.sessions
        = w.counter.stats.sessions + 1 := by
  rw [trackVisit_counter]
  have hkeep : ∀ c : VisitorCounter,
      (VisitorCounter.pruneStats clock (VisitorCounter.trimHistory c)).stats.totalVisitors
        = c.stats.totalVisitors
      ∧ (VisitorCounter.pruneStats clock (VisitorCounter.trimHistory c)).stats.uniqueVisitors
        = c.stats.uniqueVisitors
      ∧ (VisitorCounter.pruneStats clock (VisitorCounter.trimHistory c)).stats.returningVisitors
        = c.stats.returningVisitors
      ∧ (VisitorCounter.pruneStats clock (VisitorCounter.trimHistory c)).stats.pageViews
        = c.stats.pageViews
      ∧ (VisitorCounter.pruneStats clock (VisitorCounter.trimHistory c)).stats.sessions
        = c.stats.sessions := by
    intro c
    unfold VisitorCounter.pruneStats VisitorCounter.trimHistory
    split <;> exact ⟨rfl, rfl, rfl, rfl, rfl⟩
  obtain ⟨h1, h2, h3, h4, h5⟩ := hkeep (VisitorCounter.countVisit clock w.counter)
  rw [h1, h2, h3, h4, h5]
  exact ⟨rfl, rfl, rfl⟩

/-- The first entry of a visitor who has one: the entries before it are of
other visitors, and `bumpFirst` replaces it by the entry with the new
`lastVisit` and one more visit, leaving the others as they are. -/
theorem bumpFirst_known (visitorId now : String) :
    ∀ history : List Visit, (∃ v ∈ history, v.visitorId = visitorId) →
      ∃ pre v post, history = pre ++ v :: post
        ∧ (∀ u ∈ pre, u.visitorId ≠ visitorId)
        ∧ v.visitorId = visitorId
        ∧ VisitorCounter.bumpFirst visitorId now history
            = (pre ++ { v with lastVisit := now, totalVisits := v.totalVisits + 1 } :: post,
                some (v.totalVisits + 1)) := by
  intro history
  induction history with
  | nil => rintro ⟨v, hv, _⟩; cases hv
  | cons a rest ih =>
    intro hex
    by_cases ha : a.visitorId = visitorId
    · refine ⟨[], a, rest, rfl, fun u hu => absurd hu (List.not_mem_nil u), ha, ?_⟩
      simp only [VisitorCounter.bumpFirst, if_pos ha, List.nil_append]
    · have hrest : ∃ v ∈ rest, v.visitorId = visitorId := by
        obtain ⟨v, hv, hid⟩ := hex
        rcases List.mem_cons.mp hv with hva | hvr
        · exact absurd (hva ▸ hid) ha
        · exact ⟨v, hvr, hid⟩
      obtain ⟨pre, v, post, hsplit, hpre, hid, hbump⟩ := ih hrest
      refine ⟨a :: pre, v, post, by rw [hsplit]; rfl, ?_, hid, ?_⟩
      · intro u hu
        rcases List.mem_cons.mp hu with hua | hup
        · rw [hua]; exact ha
        · exact hpre u hup
      · simp only [VisitorCounter.bumpFirst, if_neg ha, hbump, List.cons_append]

/-- The visit history after `trackVisit`: the history as counted, less the
entries at its front beyond the last 1000. -/
theorem trackVisit_visitHistory (clock : VisitClock) (w : VisitorWorld) :
    (VisitorCounter.trackVisit clock w).counter.stats.visitHistory
      = (VisitorCounter.countVisit clock w.counter).stats.visitHistory.drop
          ((VisitorCounter.countVisit clock w.counter).stats.visitHistory.length - 1000) := by
  rw [trackVisit_counter]
  generalize VisitorCounter.countVisit clock w.counter = c
  have hprune : ∀ c : VisitorCounter,
      (VisitorCounter.pruneStats clock c).stats.visitHistory = c.stats.visitHistory :=
    fun _ => rfl
  rw [hprune]
  by_cases hl : c.stats.visitHistory.length > 1000
  · simp only [VisitorCounter.trimHistory, if_pos hl]
  · simp only [VisitorCounter.trimHistory, if_neg hl]
    have h0 : c.stats.visitHistory.length - 1000 = 0 := by omega
    rw [h0, List.drop_zero]

/-- The two visitor counters after `trackVisit` are those of `countVisit`. -/
theorem trackVisit_visitors (clock : VisitClock) (w : VisitorWorld) :
    (VisitorCounter.trackVisit clock w).counter.stats.uniqueVisitors
      = (VisitorCounter.countVisit clock w.counter).stats.uniqueVisitors
    ∧ (VisitorCounter.trackVisit clock w).counter.stats.returningVisitors
      = (VisitorCounter.countVisit clock w.counter).stats.returningVisitors := by
  rw [trackVisit_counter]
  generalize VisitorCounter.countVisit clock w.counter = c
  unfold VisitorCounter.pruneStats VisitorCounter.trimHistory
  split <;> exact ⟨rfl, rfl⟩

/-- C27. If every entry of the visit history has `totalVisits ≥ 1`, `trackVisit`
increases exactly one of `uniqueVisitors` and `returningVisitors` by 1 and
leaves the other: `uniqueVisitors` when no entry has the current visitor id,
and then an entry with `totalVisits = 1` is appended; `returningVisitors` when
some entry has it, and then the first such entry gets one more visit (and the
new `lastVisit`) and no entry is added. In both cases the history is afterwards
cut to its last 1000 entries. -/
theorem trackVisit_unique_or_returning (clock : VisitClock) (w : VisitorWorld)
    (hpos : ∀ v ∈ w.counter.stats.visitHistory, 1 ≤ v.totalVisits) :
    ((∀ v ∈ w.counter.stats.visitHistory, v.visitorId ≠ w.counter.visitorId) →
      (VisitorCounter.trackVisit clock w).counter.stats.uniqueVisitors
        = w.counter.stats.uniqueVisitors + 1
      ∧ (VisitorCounter.trackVisit clock w).counter.stats.returningVisitors
        = w.counter.stats.returningVisitors
      ∧ (VisitorCounter.countVisit clock w.counter).stats.visitHistory
        = w.counter.stats.visitHistory ++
            [{ visitorId := w.counter.visitorId, firstVisit := toISOString clock.today clock.time,
               lastVisit := toISOString clock.today clock.time, totalVisits := 1 }])
    ∧ ((∃ v ∈ w.counter.stats.visitHistory, v.visitorId = w.counter.visitorId) →
      (VisitorCounter.trackVisit clock w).counter.stats.uniqueVisitors
        = w.counter.stats.uniqueVisitors
      ∧ (VisitorCounter.trackVisit clock w).counter.stats.returningVisitors
        = w.counter.stats.returningVisitors + 1
      ∧ ∃ pre v post, w.counter.stats.visitHistory = pre ++ v :: post
          ∧ (∀ u ∈ pre, u.visitorId ≠ w.counter.visitorId)
          ∧ v.visitorId = w.counter.visitorId
          ∧ (VisitorCounter.countVisit clock w.counter).stats.visitHistory
              = pre ++ { v with lastVisit := toISOString clock.today clock.time,
                                totalVisits := v.totalVisits + 1 } :: post
          ∧ (VisitorCounter.countVisit clock w.counter).stats.visitHistory.length
              = w.counter.stats.visitHistory.length)
    ∧ (VisitorCounter.trackVisit clock w).counter.stats.visitHistory
        = (VisitorCounter.countVisit clock w.counter).stats.visitHistory.drop
            ((VisitorCounter.countVisit clock w.counter).stats.visitHistory.length - 1000) := by
  obtain ⟨hu, hr⟩ := trackVisit_visitors clock w
  rw [hu, hr]
  refine ⟨?_, ?_, trackVisit_visitHistory clock w⟩
  · intro hnew
    have hany : w.counter.stats.visitHistory.any
        (fun visit => decide (visit.visitorId = w.counter.visitorId)) = false := by
      rw [List.any_eq_false]
      intro v hv
      simpa using hnew v hv
    simp [VisitorCounter.countVisit, hany]
  · intro hknown
    have hany : w.counter.stats.visitHistory.any
        (fun visit => decide (visit.visitorId = w.counter.visitorId)) = true := by
      rw [List.any_eq_true]
      obtain ⟨v, hv, hid⟩ := hknown
      exact ⟨v, hv, by simpa using hid⟩
    obtain ⟨pre, v, post, hsplit, hpre, hid, hbump⟩ :=
      bumpFirst_known w.counter.visitorId (toISOString clock.today clock.time)
        w.counter.stats.visitHistory hknown
    have hv1 : v.totalVisits + 1 > 1 := by
      have := hpos v (by rw [hsplit]; simp)
      linarith
    refine ⟨?_, ?_, pre, v, post, hsplit, hpre, hid, ?_, ?_⟩
    · simp [VisitorCounter.countVisit, hany]
    · simp [VisitorCounter.countVisit, hany, hbump, hv1]
    · simp [VisitorCounter.countVisit, hany, hbump]
    · simp only [VisitorCounter.countVisit, hany, hbump, Bool.not_true, Bool.false_eq_true,
        if_false]
      rw [hsplit]
      simp

/-- C27, at a concrete input: a visitor with an entry of 2 visits comes back. -/
theorem trackVisit_unique_or_returning_witness :
    (VisitorCounter.trackVisit sampleClock sampleVisitorWorld).counter.stats.uniqueVisitors = 1
    ∧ (VisitorCounter.trackVisit sampleClock sampleVisitorWorld).counter.stats.returningVisitors
        = 1
    ∧ (VisitorCounter.trackVisit sampleClock sampleVisitorWorld).counter.stats.visitHistory
        = [{ visitorId := "visitor_a", firstVisit := "2024-01-01T08:00:00.000Z",
             lastVisit := "2026-11-05T09:30:00.000Z", totalVisits := 3 }] := by
  have h := trackVisit_unique_or_returning sampleClock sampleVisitorWorld (by decide!)
  obtain ⟨hu, hr, _⟩ := h.2.1 (by decide!)
  refine ⟨hu.trans (by decide!), hr.trans (by decide!), ?_⟩
  rw [h.2.2]
  decide!

/-! ## Colour adjustment -/

/-- A character with a hexadecimal value is one of the 22 digits. -/
theorem hexValue_mem (d : Char) (v : ℕ) (h : hexValue d = some v) : d ∈ hexChars := by
  have hd : d = Char.ofNat d.toNat := (Char.ofNat_toNat d).symm
  unfold hexValue at h
  generalize d.toNat = n at h hd
  subst hd
  split at h
  · rename_i hr
    obtain ⟨h1, h2⟩ := hr
    interval_cases n <;> decide
  · split at h
    · rename_i hr
      obtain ⟨h1, h2⟩ := hr
      interval_cases n <;> decide
    · split at h
      · rename_i hr
        obtain ⟨h1, h2⟩ := hr
        interval_cases n <;> decide
      · cases h

/-- What `parseInt` and the lower-casing need of every hexadecimal digit. -/
theorem hexChars_facts : ∀ d ∈ hexChars,
    isJsSpace d = false ∧ d ≠ '-' ∧ d ≠ '+' ∧ d ≠ 'x' ∧ d ≠ 'X' ∧ d ≠ '#'
    ∧ (hexValue d).isSome = true
    ∧ (hexValue d).map Nat.digitChar = some d.toLower
    ∧ (∀ v, hexValue d = some v → v < 16) := by
  decide


/-- One step of the conversion to digits. -/
theorem toDigitsCore_step (fuel n : ℕ) (ds : List Char) (h : n / 16 ≠ 0) :
    Nat.toDigitsCore 16 (fuel + 1) n ds
      = Nat.toDigitsCore 16 fuel (n / 16) (Nat.digitChar (n % 16) :: ds) := by
  simp only [Nat.toDigitsCore, if_neg h]

/-- The last step of the conversion to digits. -/
theorem toDigitsCore_last (fuel n : ℕ) (ds : List Char) (h : n / 16 = 0) :
    Nat.toDigitsCore 16 (fuel + 1) n ds = Nat.digitChar (n % 16) :: ds := by
  simp only [Nat.toDigitsCore, if_pos h]

/-- The hexadecimal digits of a number of seven digits with the leading digit 1. -/
theorem toDigits_channels (r g b : ℕ) (hr : r < 256) (hg : g < 256) (hb : b < 256) :
    Nat.toDigits 16 (16777216 + r * 65536 + g * 256 + b)
      = ['1', Nat.digitChar (r / 16), Nat.digitChar (r % 16), Nat.digitChar (g / 16),
         Nat.digitChar (g % 16), Nat.digitChar (b / 16), Nat.digitChar (b % 16)] := by
  unfold Nat.toDigits
  generalize hT : 16777216 + r * 65536 + g * 256 + b = T
  have hfuel : T + 1 = (T - 6) + 1 + 1 + 1 + 1 + 1 + 1 + 1 := by omega
  rw [hfuel]
  rw [toDigitsCore_step _ _ _ (by omega), toDigitsCore_step _ _ _ (by omega),
    toDigitsCore_step _ _ _ (by omega), toDigitsCore_step _ _ _ (by omega),
    toDigitsCore_step _ _ _ (by omega), toDigitsCore_step _ _ _ (by omega),
    toDigitsCore_last _ _ _ (by omega)]
  have h1 : T / 16 / 16 / 16 / 16 / 16 / 16 % 16 = 1 := by omega
  have h2 : T / 16 / 16 / 16 / 16 / 16 % 16 = r / 16 := by omega
  have h3 : T / 16 / 16 / 16 / 16 % 16 = r % 16 := by omega
  have h4 : T / 16 / 16 / 16 % 16 = g / 16 := by omega
  have h5 : T / 16 / 16 % 16 = g % 16 := by omega
  have h6 : T / 16 % 16 = b / 16 := by omega
  have h7 : T % 16 = b % 16 := by omega
  rw [h1, h2, h3, h4, h5, h6, h7]
  rfl

/-- A clamped channel is a byte. -/
theorem clampChannel_range (x : ℤ) :
    0 ≤ clampChannel x ∧ clampChannel x ≤ 255 ∧ clampChannel x = min 255 (max 0 x) := by
  unfold clampChannel
  split
  · split
    · refine ⟨le_refl 0, by norm_num, ?_⟩
      rw [max_eq_left (by omega), min_eq_right (by norm_num)]
    · refine ⟨by omega, by omega, ?_⟩
      rw [max_eq_right (by omega), min_eq_right (by omega)]
  · refine ⟨by norm_num, le_refl 255, ?_⟩
    rw [max_eq_right (by omega), min_eq_left (by omega)]

/-- The integer read from six hexadecimal digits. -/
theorem int32OfHex_six (d1 d2 d3 d4 d5 d6 : Char) (v1 v2 v3 v4 v5 v6 : ℕ)
    (h1 : hexValue d1 = some v1) (h2 : hexValue d2 = some v2) (h3 : hexValue d3 = some v3)
    (h4 : hexValue d4 = some v4) (h5 : hexValue d5 = some v5) (h6 : hexValue d6 = some v6) :
    int32OfHex [d1, d2, d3, d4, d5, d6]
      = (((((v1 * 16 + v2) * 16 + v3) * 16 + v4) * 16 + v5) * 16 + v6 : ℕ) := by
  obtain ⟨s1, m1, p1, x1, X1, _, i1, _, b1⟩ := hexChars_facts d1 (hexValue_mem d1 v1 h1)
  obtain ⟨_, _, _, x2, X2, _, i2, _, b2⟩ := hexChars_facts d2 (hexValue_mem d2 v2 h2)
  obtain ⟨_, _, _, _, _, _, i3, _, b3⟩ := hexChars_facts d3 (hexValue_mem d3 v3 h3)
  obtain ⟨_, _, _, _, _, _, i4, _, b4⟩ := hexChars_facts d4 (hexValue_mem d4 v4 h4)
  obtain ⟨_, _, _, _, _, _, i5, _, b5⟩ := hexChars_facts d5 (hexValue_mem d5 v5 h5)
  obtain ⟨_, _, _, _, _, _, i6, _, b6⟩ := hexChars_facts d6 (hexValue_mem d6 v6 h6)
  have hb1 := b1 v1 h1
  have hb2 := b2 v2 h2
  have hb3 := b3 v3 h3
  have hb4 := b4 v4 h4
  have hb5 := b5 v5 h5
  have hb6 := b6 v6 h6
  have hparse : parseInt16 [d1, d2, d3, d4, d5, d6]
      = some ((((((v1 * 16 + v2) * 16 + v3) * 16 + v4) * 16 + v5) * 16 + v6 : ℕ) : ℤ) := by
    unfold parseInt16
    simp [s1, m1, p1, x2, X2, i1, i2, i3, i4, i5, i6, h1, h2, h3, h4, h5, h6]
    ring
  unfold int32OfHex
  rw [hparse]
  simp only [Int.natAbs_ofNat]
  generalize hN : ((((v1 * 16 + v2) * 16 + v3) * 16 + v4) * 16 + v5) * 16 + v6 = N
  have hNlt : N < 16777216 := by omega
  have hround : roundToDouble N = N := by
    unfold roundToDouble
    rw [if_pos (by omega)]
  rw [hround]
  have hbig : ¬ N ≥ 2 ^ 1024 := by
    have : (16777216 : ℕ) ≤ 2 ^ 1024 := by norm_num
    omega
  rw [if_neg hbig, if_neg (by omega)]
  unfold toInt32
  omega


/-- A colour with channels is `#` and six hexadecimal digits. -/
theorem channels_some (color : String) (r g b : ℤ) (h : channels color = some (r, g, b)) :
    ∃ (d1 d2 d3 d4 d5 d6 : Char) (v1 v2 v3 v4 v5 v6 : ℕ),
      color = String.mk ['#', d1, d2, d3, d4, d5, d6]
      ∧ hexValue d1 = some v1 ∧ hexValue d2 = some v2 ∧ hexValue d3 = some v3
      ∧ hexValue d4 = some v4 ∧ hexValue d5 = some v5 ∧ hexValue d6 = some v6
      ∧ r = 16 * v1 + v2 ∧ g = 16 * v3 + v4 ∧ b = 16 * v5 + v6 := by
  obtain ⟨data⟩ := color
  unfold channels at h
  split at h
  · rename_i r1 r0 g1 g0 b1 b0 hdata
    split at h
    · rename_i vr1 vr0 vg1 vg0 vb1 vb0 e1 e2 e3 e4 e5 e6
      simp only [Option.some.injEq, Prod.mk.injEq] at h
      simp only at hdata
      subst hdata
      exact ⟨r1, r0, g1, g0, b1, b0, vr1, vr0, vg1, vg0, vb1, vb0, rfl, e1, e2, e3, e4, e5, e6,
        h.1.symm, h.2.1.symm, h.2.2.symm⟩
    · cases h
  · cases h

/-- The channels of `#` and six hexadecimal digits. -/
theorem channels_mk (d1 d2 d3 d4 d5 d6 : Char) (v1 v2 v3 v4 v5 v6 : ℕ)
    (h1 : hexValue d1 = some v1) (h2 : hexValue d2 = some v2) (h3 : hexValue d3 = some v3)
    (h4 : hexValue d4 = some v4) (h5 : hexValue d5 = some v5) (h6 : hexValue d6 = some v6) :
    channels (String.mk ['#', d1, d2, d3, d4, d5, d6])
      = some (16 * (v1 : ℤ) + v2, 16 * (v3 : ℤ) + v4, 16 * (v5 : ℤ) + v6) := by
  simp only [channels, h1, h2, h3, h4, h5, h6]

/-- The digit of a value below 16 is a hexadecimal digit of that value, in
lower case. -/
theorem hexValue_digitChar (k : ℕ) (hk : k < 16) :
    hexValue (Nat.digitChar k) = some k ∧ (Nat.digitChar k).toLower = Nat.digitChar k := by
  interval_cases k <;> exact ⟨by decide, by decide⟩

/-- C29. For a colour written as `#` and six hexadecimal digits, with the
channels `r`, `g`, `b`, and an integer amount, `adjustColor` returns `#` and
exactly six hexadecimal digits, in lower case, with the channels
`min 255 (max 0 (r + amount))`, `min 255 (max 0 (g + amount))` and
`min 255 (max 0 (b + amount))`; with the amount 0 it returns the colour written
in lower case. -/
theorem adjustColor_channels (color : String) (amount : ℤ) (r g b : ℤ)
    (h : channels color = some (r, g, b)) :
    channels (adjustColor color amount)
      = some (min 255 (max 0 (r + amount)), min 255 (max 0 (g + amount)),
          min 255 (max 0 (b + amount)))
    ∧ (adjustColor color amount).data.length = 7
    ∧ (adjustColor color amount).toLower = adjustColor color amount
    ∧ adjustColor color 0 = color.toLower := by
  obtain ⟨d1, d2, d3, d4, d5, d6, v1, v2, v3, v4, v5, v6, hcolor, h1, h2, h3, h4, h5, h6, hr, hg,
    hb⟩ := channels_some color r g b h
  subst hcolor
  obtain ⟨_, _, _, _, _, n1, _, l1, b1⟩ := hexChars_facts d1 (hexValue_mem d1 v1 h1)
  obtain ⟨_, _, _, _, _, _, _, l2, b2⟩ := hexChars_facts d2 (hexValue_mem d2 v2 h2)
  obtain ⟨_, _, _, _, _, _, _, l3, b3⟩ := hexChars_facts d3 (hexValue_mem d3 v3 h3)
  obtain ⟨_, _, _, _, _, _, _, l4, b4⟩ := hexChars_facts d4 (hexValue_mem d4 v4 h4)
  obtain ⟨_, _, _, _, _, _, _, l5, b5⟩ := hexChars_facts d5 (hexValue_mem d5 v5 h5)
  obtain ⟨_, _, _, _, _, _, _, l6, b6⟩ := hexChars_facts d6 (hexValue_mem d6 v6 h6)
  have hb1 := b1 v1 h1
  have hb2 := b2 v2 h2
  have hb3 := b3 v3 h3
  have hb4 := b4 v4 h4
  have hb5 := b5 v5 h5
  have hb6 := b6 v6 h6
  have hnum := int32OfHex_six d1 d2 d3 d4 d5 d6 v1 v2 v3 v4 v5 v6 h1 h2 h3 h4 h5 h6
  have hout : ∀ a : ℤ, adjustColor (String.mk ['#', d1, d2, d3, d4, d5, d6]) a
      = String.mk ['#',
          Nat.digitChar ((clampChannel (r + a)).toNat / 16),
          Nat.digitChar ((clampChannel (r + a)).toNat % 16),
          Nat.digitChar ((clampChannel (g + a)).toNat / 16),
          Nat.digitChar ((clampChannel (g + a)).toNat % 16),
          Nat.digitChar ((clampChannel (b + a)).toNat / 16),
          Nat.digitChar ((clampChannel (b + a)).toNat % 16)] := by
    intro a
    unfold adjustColor
    simp only [List.erase_cons_head, hnum]
    have e1 : ((((((v1 * 16 + v2) * 16 + v3) * 16 + v4) * 16 + v5) * 16 + v6 : ℕ) : ℤ) / 65536
        = r := by omega
    have e2 : ((((((v1 * 16 + v2) * 16 + v3) * 16 + v4) * 16 + v5) * 16 + v6 : ℕ) : ℤ) / 256 % 256
        = g := by omega
    have e3 : ((((((v1 * 16 + v2) * 16 + v3) * 16 + v4) * 16 + v5) * 16 + v6 : ℕ) : ℤ) % 256
        = b := by omega
    rw [e1, e2, e3]
    obtain ⟨r0, r1, _⟩ := clampChannel_range (r + a)
    obtain ⟨g0, g1, _⟩ := clampChannel_range (g + a)
    obtain ⟨b0, b1, _⟩ := clampChannel_range (b + a)
    have htotal : (0x1000000 + clampChannel (r + a) * 0x10000 + clampChannel (g + a) * 0x100
        + clampChannel (b + a)).toNat
        = 16777216 + (clampChannel (r + a)).toNat * 65536 + (clampChannel (g + a)).toNat * 256
          + (clampChannel (b + a)).toNat := by omega
    rw [htotal, toDigits_channels _ _ _ (by omega) (by omega) (by omega)]
    rfl
  obtain ⟨r0, r1, rc⟩ := clampChannel_range (r + amount)
  obtain ⟨g0, g1, gc⟩ := clampChannel_range (g + amount)
  obtain ⟨b0, b1', bc⟩ := clampChannel_range (b + amount)
  have hdig : ∀ x : ℤ, 0 ≤ x → x ≤ 255 →
      hexValue (Nat.digitChar (x.toNat / 16)) = some (x.toNat / 16)
      ∧ hexValue (Nat.digitChar (x.toNat % 16)) = some (x.toNat % 16)
      ∧ (Nat.digitChar (x.toNat / 16)).toLower = Nat.digitChar (x.toNat / 16)
      ∧ (Nat.digitChar (x.toNat % 16)).toLower = Nat.digitChar (x.toNat % 16)
      ∧ ((16 * (x.toNat / 16 : ℕ) + (x.toNat % 16 : ℕ) : ℤ)) = x := by
    intro x hx0 hx1
    obtain ⟨p1, p2⟩ := hexValue_digitChar (x.toNat / 16) (by omega)
    obtain ⟨q1, q2⟩ := hexValue_digitChar (x.toNat % 16) (by omega)
    exact ⟨p1, q1, p2, q2, by omega⟩
  obtain ⟨R1, R2, R3, R4, R5⟩ := hdig _ r0 r1
  obtain ⟨G1, G2, G3, G4, G5⟩ := hdig _ g0 g1
  obtain ⟨B1, B2, B3, B4, B5⟩ := hdig _ b0 b1'
  refine ⟨?_, ?_, ?_, ?_⟩
  · rw [hout, channels_mk _ _ _ _ _ _ _ _ _ _ _ _ R1 R2 G1 G2 B1 B2, R5, G5, B5, rc, gc, bc]
  · rw [hout]
    rfl
  · rw [hout, String.toLower, String.map_eq]
    simp only [List.map_cons, List.map_nil, R3, R4, G3, G4, B3, B4]
    rfl
  · rw [hout, String.toLower, String.map_eq]
    have c1 : clampChannel (r + 0) = r := by unfold clampChannel; split <;> [split; skip] <;> omega
    have c2 : clampChannel (g + 0) = g := by unfold clampChannel; split <;> [split; skip] <;> omega
    have c3 : clampChannel (b + 0) = b := by unfold clampChannel; split <;> [split; skip] <;> omega
    rw [c1, c2, c3]
    have k1 : r.toNat / 16 = v1 := by omega
    have k2 : r.toNat % 16 = v2 := by omega
    have k3 : g.toNat / 16 = v3 := by omega
    have k4 : g.toNat % 16 = v4 := by omega
    have k5 : b.toNat / 16 = v5 := by omega
    have k6 : b.toNat % 16 = v6 := by omega
    rw [k1, k2, k3, k4, k5, k6]
    rw [h1] at l1
    rw [h2] at l2
    rw [h3] at l3
    rw [h4] at l4
    rw [h5] at l5
    rw [h6] at l6
    simp only [Option.map_some', Option.some.injEq] at l1 l2 l3 l4 l5 l6
    rw [l1, l2, l3, l4, l5, l6]
    rfl

/-- C29, at a concrete input: the darker shade of a template colour. -/
theorem adjustColor_channels_witness :
    channels "#667EEA" = some (102, 126, 234)
    ∧ adjustColor "#667EEA" (-30) = "#4860cc"
    ∧ channels (adjustColor "#667EEA" (-30)) = some (72, 96, 204)
    ∧ adjustColor "#667EEA" 0 = "#667eea" := by
  have hch : channels "#667EEA" = some (102, 126, 234) := by decide
  have h := adjustColor_channels "#667EEA" (-30) 102 126 234 hch
  refine ⟨hch, by decide!, h.1.trans (by decide), h.2.2.2.trans (by rw [String.toLower, String.map_eq]; decide)⟩

/-! ## Form validation -/

/-- A repeated class matches a run of its characters, long enough, followed by
a text the rest of the pattern matches. -/
theorem matchAtLeast_iff (p : Char → Bool) (rest : List Char → Bool) :
    ∀ (s : List Char) (n : ℕ), matchAtLeast p rest n s = true
      ↔ ∃ pre post, s = pre ++ post ∧ n ≤ pre.length ∧ (∀ c ∈ pre, p c = true)
          ∧ rest post = true := by
  intro s
  induction s with
  | nil =>
    intro n
    cases n with
    | zero =>
      simp only [matchAtLeast]
      constructor
      · intro h
        exact ⟨[], [], rfl, le_refl 0, fun c hc => absurd hc (List.not_mem_nil c), h⟩
      · rintro ⟨pre, post, hs, _, _, hr⟩
        have hpost : post = [] := (List.append_eq_nil.mp hs.symm).2
        rw [hpost] at hr
        exact hr
    | succ n =>
      simp only [matchAtLeast]
      constructor
      · intro h; cases h
      · rintro ⟨pre, post, hs, hn, _, _⟩
        have hpre : pre = [] := (List.append_eq_nil.mp hs.symm).1
        rw [hpre] at hn
        simp at hn
  | cons c s ih =>
    intro n
    cases n with
    | zero =>
      simp only [matchAtLeast, Bool.or_eq_true, Bool.and_eq_true, ih]
      constructor
      · rintro (h | ⟨hpc, pre, post, hs, _, hall, hr⟩)
        · exact ⟨[], c :: s, rfl, le_refl 0, fun c hc => absurd hc (List.not_mem_nil c), h⟩
        · refine ⟨c :: pre, post, by rw [hs]; rfl, Nat.zero_le _, ?_, hr⟩
          intro x hx
          rcases List.mem_cons.mp hx with hxc | hxp
          · rw [hxc]; exact hpc
          · exact hall x hxp
      · rintro ⟨pre, post, hs, _, hall, hr⟩
        cases pre with
        | nil =>
          left
          rw [List.nil_append] at hs
          rw [hs]
          exact hr
        | cons a pre =>
          right
          simp only [List.cons_append, List.cons.injEq] at hs
          refine ⟨?_, pre, post, hs.2, Nat.zero_le _, fun x hx => hall x (List.mem_cons_of_mem _ hx),
            hr⟩
          rw [hs.1]
          exact hall a (List.mem_cons_self _ _)
    | succ n =>
      simp only [matchAtLeast, Bool.and_eq_true, ih]
      constructor
      · rintro ⟨hpc, pre, post, hs, hn, hall, hr⟩
        refine ⟨c :: pre, post, by rw [hs]; rfl, by simp only [List.length_cons]; omega, ?_, hr⟩
        intro x hx
        rcases List.mem_cons.mp hx with hxc | hxp
        · rw [hxc]; exact hpc
        · exact hall x hxp
      · rintro ⟨pre, post, hs, hn, hall, hr⟩
        cases pre with
        | nil => simp at hn
        | cons a pre =>
          simp only [List.cons_append, List.cons.injEq] at hs
          refine ⟨?_, pre, post, hs.2, by simp only [List.length_cons] at hn; omega,
            fun x hx => hall x (List.mem_cons_of_mem _ hx), hr⟩
          rw [hs.1]
          exact hall a (List.mem_cons_self _ _)


/-- A single character of a class followed by the rest of a pattern. -/
theorem matchItems_one (p : Char → Bool) (rest : List Item) (s : List Char) :
    matchItems (Item.one p :: rest) s = true
      ↔ ∃ c t, s = c :: t ∧ p c = true ∧ matchItems rest t = true := by
  cases s with
  | nil =>
    simp only [matchItems]
    constructor
    · intro h; cases h
    · rintro ⟨c, t, hs, _, _⟩; cases hs
  | cons a s =>
    simp only [matchItems, Bool.and_eq_true]
    constructor
    · rintro ⟨hp, hr⟩
      exact ⟨a, s, rfl, hp, hr⟩
    · rintro ⟨c, t, hs, hp, hr⟩
      simp only [List.cons.injEq] at hs
      rw [hs.1, hs.2]
      exact ⟨hp, hr⟩

/-- A repeated class followed by the rest of a pattern. -/
theorem matchItems_atLeast (n : ℕ) (p : Char → Bool) (rest : List Item) (s : List Char) :
    matchItems (Item.atLeast n p :: rest) s = true
      ↔ ∃ pre post, s = pre ++ post ∧ n ≤ pre.length ∧ (∀ c ∈ pre, p c = true)
          ∧ matchItems rest post = true := by
  simp only [matchItems]
  exact matchAtLeast_iff p (matchItems rest) s n

/-- The end of a pattern matches the end of the text. -/
theorem matchItems_nil (s : List Char) : matchItems [] s = true ↔ s = [] := by
  simp only [matchItems, List.isEmpty_iff]

/-- The telephone pattern accepts the texts of the telephone shape. -/
theorem test_phoneRegex (v : String) : test phoneRegex v = true ↔ TelShape v := by
  unfold test phoneRegex TelShape
  rw [matchItems_atLeast]
  have hchar : ∀ c : Char, phoneChar c = true
      ↔ (c.isDigit = true ∨ isJsSpace c = true ∨ c ∈ ['-', '+', '(', ')']) := by
    intro c
    simp only [phoneChar, Bool.or_eq_true, beq_iff_eq, List.mem_cons, List.mem_singleton,
      List.not_mem_nil, or_false]
    tauto
  constructor
  · rintro ⟨pre, post, hs, hn, hall, hr⟩
    rw [matchItems_nil] at hr
    rw [hr, List.append_nil] at hs
    rw [hs]
    exact ⟨hn, fun c hc => (hchar c).mp (hall c hc)⟩
  · rintro ⟨hn, hall⟩
    exact ⟨v.data, [], (List.append_nil _).symm, hn, fun c hc => (hchar c).mpr (hall c hc),
      (matchItems_nil []).mpr rfl⟩

/-- The e-mail pattern accepts the texts of the e-mail shape. -/
theorem test_emailRegex (v : String) : test emailRegex v = true ↔ EmailShape v := by
  unfold test emailRegex EmailShape
  have hchar : ∀ c : Char, notSpaceOrAt c = true ↔ (isJsSpace c = false ∧ c ≠ '@') := by
    intro c
    simp only [notSpaceOrAt, Bool.and_eq_true, Bool.not_eq_true', bne_iff_ne]
  have hne : ∀ l : List Char, 1 ≤ l.length ↔ l ≠ [] := by
    intro l
    cases l with
    | nil => simp
    | cons a l => simp
  constructor
  · intro h
    rw [matchItems_atLeast] at h
    obtain ⟨l, post1, hs1, hl, hall1, h⟩ := h
    rw [matchItems_one] at h
    obtain ⟨c1, t1, hs2, hc1, h⟩ := h
    rw [matchItems_atLeast] at h
    obtain ⟨d, post2, hs3, hd, hall2, h⟩ := h
    rw [matchItems_one] at h
    obtain ⟨c2, t2, hs4, hc2, h⟩ := h
    rw [matchItems_atLeast] at h
    obtain ⟨t, post3, hs5, ht, hall3, h⟩ := h
    rw [matchItems_nil] at h
    have e1 : c1 = '@' := by simpa using hc1
    have e2 : c2 = '.' := by simpa using hc2
    refine ⟨l, d, t, ?_, (hne l).mp hl, (hne d).mp hd, (hne t).mp ht, ?_⟩
    · rw [hs1, hs2, hs3, hs4, hs5, h, e1, e2]
      simp
    · intro c hc
      rcases List.mem_append.mp hc with hld | ht'
      · rcases List.mem_append.mp hld with hl' | hd'
        · exact (hchar c).mp (hall1 c hl')
        · exact (hchar c).mp (hall2 c hd')
      · exact (hchar c).mp (hall3 c ht')
  · rintro ⟨l, d, t, hs, hl, hd, ht, hall⟩
    rw [matchItems_atLeast]
    refine ⟨l, '@' :: d ++ '.' :: t, by rw [hs]; simp, (hne l).mpr hl,
      fun c hc => (hchar c).mpr (hall c (by simp [hc])), ?_⟩
    rw [matchItems_one]
    refine ⟨'@', d ++ '.' :: t, by simp, by simp, ?_⟩
    rw [matchItems_atLeast]
    refine ⟨d, '.' :: t, rfl, (hne d).mpr hd,
      fun c hc => (hchar c).mpr (hall c (by simp [hc])), ?_⟩
    rw [matchItems_one]
    refine ⟨'.', t, rfl, by simp, ?_⟩
    rw [matchItems_atLeast]
    exact ⟨t, [], (List.append_nil _).symm, (hne t).mpr ht,
      fun c hc => (hchar c).mpr (hall c (by simp [hc])), (matchItems_nil []).mpr rfl⟩

/-- C28. `validateField` returns `true` exactly when, for the trimmed value
`v`: the field is not required or `v` is not empty; and its type is not `email`
or `v` is empty or `v` has the shape `local@domain.tld` without white space and
without a further `@`; and its type is not `tel` or `v` is empty or `v` has at
least 10 characters, all of them digits, white space, `-`, `+`, `(` or `)`; and
its type is not `number` or `v` is empty or `v` is neither below a given `min`
nor above a given `max` (as `parseFloat` reads them). -/
theorem validateField_iff (parseFloat : String → JSNumber) (field : Field) :
    (validateField parseFloat field).isValid = true
      ↔ ((field.getAttribute "required" = none ∨ trim field.value ≠ "")
        ∧ (field.type ≠ "email" ∨ trim field.value = "" ∨ EmailShape (trim field.value))
        ∧ (field.type ≠ "tel" ∨ trim field.value = "" ∨ TelShape (trim field.value))
        ∧ (field.type ≠ "number" ∨ trim field.value = ""
            ∨ ((¬ ∃ m, Given (field.getAttribute "min") m
                  ∧ (parseFloat (trim field.value)).lt (parseFloat m) = true)
              ∧ ¬ ∃ m, Given (field.getAttribute "max") m
                  ∧ (parseFloat m).lt (parseFloat (trim field.value)) = true))) := by
  unfold validateField Given
  dsimp only
  generalize trim field.value = v
  rw [← test_emailRegex, ← test_phoneRegex]
  generalize test emailRegex v = okEmail
  generalize test phoneRegex v = okTel
  generalize field.getAttribute "required" = required
  generalize field.getAttribute "min" = min
  generalize field.getAttribute "max" = max
  generalize field.attributeOr "data-error-required" "This field is required" = m1
  generalize field.attributeOr "data-error-email" "Please enter a valid email address" = m2
  generalize field.attributeOr "data-error-phone" "Please enter a valid phone number" = m3
  generalize field.type = type
  by_cases hv : v = ""
  · subst hv
    cases required <;> simp
  · by_cases hn : type = "number"
    · subst hn
      rcases min with _ | mn <;> rcases max with _ | mx <;> cases required <;>
        cases okEmail <;> cases okTel <;> simp [hv] <;> split_ifs <;> simp_all
    · by_cases he : type = "email"
      · subst he
        cases required <;> cases okEmail <;> cases okTel <;> simp [hv, hn]
      · by_cases ht : type = "tel"
        · subst ht
          cases required <;> cases okEmail <;> cases okTel <;> simp [hv, hn, he]
        · cases required <;> cases okEmail <;> cases okTel <;> simp [hv, hn, he, ht]

/-- The validation at two sample fields: an address between blanks is accepted,
a telephone number of eight characters is not. -/
theorem validateField_samples :
    validateField (fun _ => JSNumber.nan) emailField = { isValid := true, shown := none }
    ∧ validateField (fun _ => JSNumber.nan) shortTelField
        = { isValid := false, shown := some "Please enter a valid phone number" } := by
  decide

end STM
